import Mathlib

/-!
# Smart garage-door controller: shallow embedding

The C sources `relay_control.c`, `storage_manager.c`, `reed_switch.c` and
`garage_door_control.c` keep their state in file-static variables.  Each module's
statics become one record, every C function becomes a function from the record
(and the values it reads from the environment: the clock, the input pins) to the
returned error code and the new record.

Machine integers: `uint32_t` values are `Nat` (reduced `% 2 ^ 32` where the C
arithmetic can wrap), `int64_t` clock readings are `Int`.
-/

namespace SmartGarage

/-! ## Error codes (`esp_err.h`) -/

/-- The `esp_err_t` values that occur in the sources. -/
inductive esp_err_t where
  | ESP_OK
  | ESP_FAIL
  | ESP_ERR_NO_MEM
  | ESP_ERR_INVALID_ARG
  | ESP_ERR_INVALID_STATE
  | ESP_ERR_NVS_NOT_FOUND
  | ESP_ERR_NVS_NOT_ENOUGH_SPACE
  deriving DecidableEq, Repr

open esp_err_t

/-! ## One-shot timers (`esp_timer.h`)

A timer handle is `none` for the C `NULL` and `some t` for a created timer; a
created timer is either idle or armed with the period it was started with. -/

/-- A created `esp_timer`: `armed = some us` while a one-shot of `us` microseconds is pending. -/
structure esp_timer where
  armed : Option Nat
  deriving DecidableEq, Repr

/-- The library call `esp_timer_start_once`: rejects a `NULL` handle and a timer that is
already armed (the pending period stays), otherwise arms the timer for `timeout_us`. -/
def esp_timer_start_once (timer : Option esp_timer) (timeout_us : Nat) :
    esp_err_t × Option esp_timer :=
  match timer with
  | none => (ESP_ERR_INVALID_ARG, none)
  | some t =>
    if t.armed.isSome then (ESP_ERR_INVALID_STATE, some t)
    else (ESP_OK, some { armed := some timeout_us })

/-- The library call `esp_timer_stop`: rejects a `NULL` handle and an idle timer, otherwise
disarms the timer. -/
def esp_timer_stop (timer : Option esp_timer) : esp_err_t × Option esp_timer :=
  match timer with
  | none => (ESP_ERR_INVALID_ARG, none)
  | some t =>
    if t.armed.isSome then (ESP_OK, some { armed := none })
    else (ESP_ERR_INVALID_STATE, some t)

/-- Whether the timer behind a handle has a one-shot pending. -/
def timer_pending (timer : Option esp_timer) : Bool :=
  match timer with
  | none => false
  | some t => t.armed.isSome

/-- The period (microseconds) of the pending one-shot, if any. -/
def timer_period (timer : Option esp_timer) : Option Nat :=
  match timer with
  | none => none
  | some t => t.armed

/-! ## Relay driver (`relay_control.c`) -/

/-- The struct `relay_config_t`; all fields are `uint32_t` milliseconds. -/
structure relay_config_t where
  pulse_duration_ms : Nat
  max_pulse_duration_ms : Nat
  min_interval_ms : Nat
  deriving DecidableEq, Repr

def DEFAULT_PULSE_DURATION_MS : Nat := 500
def DEFAULT_MAX_PULSE_DURATION_MS : Nat := 600
def DEFAULT_MIN_INTERVAL_MS : Nat := 1000

/-- The file-static state of `relay_control.c`, together with the level last written to the
output pin `s_gpio_num` and the number of times the completion subscriber was invoked.
`s_callback` records whether a subscriber is registered. -/
structure relay_ctx where
  gpio_level : Nat
  s_initialized : Bool
  s_active : Bool
  s_pulse_timer : Option esp_timer
  s_config : relay_config_t
  s_last_activation_time : Int
  s_callback : Bool
  callback_calls : Nat
  deriving DecidableEq, Repr

/-- The statics of `relay_control.c` as they are at program start. -/
def relay_boot : relay_ctx :=
  { gpio_level := 0
    s_initialized := false
    s_active := false
    s_pulse_timer := none
    s_config :=
      { pulse_duration_ms := DEFAULT_PULSE_DURATION_MS
        max_pulse_duration_ms := DEFAULT_MAX_PULSE_DURATION_MS
        min_interval_ms := DEFAULT_MIN_INTERVAL_MS }
    s_last_activation_time := 0
    s_callback := false
    callback_calls := 0 }

/-- The function `pulse_timer_callback`: output low, flag cleared, subscriber invoked. -/
def pulse_timer_callback (r : relay_ctx) : relay_ctx :=
  { r with
    gpio_level := 0
    s_active := false
    callback_calls := if r.s_callback then r.callback_calls + 1 else r.callback_calls }

/-- The function `relay_activate_pulse`.  `time_us` is the value returned by
`esp_timer_get_time()` (microseconds since boot, `int64_t`); `now` and the recorded start
time are non-negative `int64_t` values, whose difference does not overflow, and the
`uint32_t` interval is compared as an `int64_t`.  The product `duration_ms * 1000` is
computed in `uint32_t`. -/
def relay_activate_pulse (r : relay_ctx) (duration_ms : Nat) (time_us : Int) :
    esp_err_t × relay_ctx :=
  if !r.s_initialized then (ESP_ERR_INVALID_STATE, r)
  else if duration_ms == 0 || duration_ms > r.s_config.max_pulse_duration_ms then
    (ESP_ERR_INVALID_ARG, r)
  else if r.s_active then (ESP_ERR_INVALID_STATE, r)
  else
    let now : Int := Int.tdiv time_us 1000
    if now - r.s_last_activation_time < (r.s_config.min_interval_ms : Int) then
      (ESP_ERR_INVALID_STATE, r)
    else
      (ESP_OK,
        { r with
          gpio_level := 1
          s_active := true
          s_last_activation_time := now
          s_pulse_timer :=
            (esp_timer_start_once r.s_pulse_timer (duration_ms * 1000 % 2 ^ 32)).2 })

/-- The function `relay_activate`. -/
def relay_activate (r : relay_ctx) (time_us : Int) : esp_err_t × relay_ctx :=
  relay_activate_pulse r r.s_config.pulse_duration_ms time_us

/-- The function `relay_init`.  The environment decides whether the mutex can be allocated
and what `gpio_config` and `esp_timer_create` return; the output pin and its driver's own
mutex are not part of the record. -/
def relay_init (r : relay_ctx) (mutex_created : Bool)
    (gpio_config_ret timer_create_ret : esp_err_t) : esp_err_t × relay_ctx :=
  if r.s_initialized then (ESP_ERR_INVALID_STATE, r)
  else if !mutex_created then (ESP_ERR_NO_MEM, r)
  else if gpio_config_ret ≠ ESP_OK then (gpio_config_ret, r)
  else
    let r1 : relay_ctx := { r with gpio_level := 0 }
    if timer_create_ret ≠ ESP_OK then (timer_create_ret, r1)
    else (ESP_OK, { r1 with s_pulse_timer := some { armed := none }, s_initialized := true })

/-- The function `relay_deinit`. -/
def relay_deinit (r : relay_ctx) : esp_err_t × relay_ctx :=
  if !r.s_initialized then (ESP_ERR_INVALID_STATE, r)
  else
    (ESP_OK,
      { r with
        s_pulse_timer := none
        gpio_level := 0
        s_active := false
        s_initialized := false })

/-- The function `relay_set_config`; `config` is `none` for a `NULL` pointer. -/
def relay_set_config (r : relay_ctx) (config : Option relay_config_t) : esp_err_t × relay_ctx :=
  match config with
  | none => (ESP_ERR_INVALID_ARG, r)
  | some c => (ESP_OK, { r with s_config := c })

/-- The function `relay_is_active`. -/
def relay_is_active (r : relay_ctx) : Bool :=
  r.s_active

/-! ## Door states (`garage_door_control.h`) -/

/-- The enum `door_state_t`, as its integer codes: the state is stored to and loaded from a
`uint32_t` by plain casts, and passed as the `int32_t` value of a log entry. -/
abbrev door_state_t := Nat

def DOOR_STATE_CLOSED : door_state_t := 0
def DOOR_STATE_OPENING : door_state_t := 1
def DOOR_STATE_OPEN : door_state_t := 2
def DOOR_STATE_CLOSING : door_state_t := 3
def DOOR_STATE_STOPPED : door_state_t := 4
def DOOR_STATE_UNKNOWN : door_state_t := 5

/-! ## Persistence façade (`storage_manager.c`)

The NVS library is external.  The open namespace `garage_door` is a pair of finite maps
(the `u32` entries and the blob entries); `get_err`, `set_err` and `commit_err` are the
error, if any, with which the library currently answers reads, writes and commits. -/

/-- The enum `event_type_t`. -/
inductive event_type_t where
  | EVENT_TYPE_DOOR_OPEN
  | EVENT_TYPE_DOOR_CLOSED
  | EVENT_TYPE_TIMEOUT
  | EVENT_TYPE_OBSTRUCTION
  | EVENT_TYPE_COMMISSION
  | EVENT_TYPE_ERROR
  deriving DecidableEq, Repr

open event_type_t

/-- The struct `event_log_t`: `timestamp` is `uint32_t`, `value` is `int32_t`. -/
structure event_log_t where
  type : event_type_t
  timestamp : Nat
  value : Int
  deriving DecidableEq, Repr

/-- The keys of the namespace: the `KEY_*` string constants and `evt k` for the string
that `snprintf` builds from `evt_` followed by the decimal digits of `k`. -/
inductive nvs_key where
  | KEY_REED_CLOSED_PIN
  | KEY_REED_OPEN_PIN
  | KEY_RELAY_PIN
  | KEY_PULSE_DURATION
  | KEY_MAX_PULSE_DURATION
  | KEY_MIN_INTERVAL
  | KEY_DOOR_STATE
  | KEY_EVENT_COUNT
  | evt (k : Nat)
  deriving DecidableEq, Repr

open nvs_key

def MAX_EVENT_LOGS : Nat := 100

/-- The contents of the opened namespace and the library's current failure mode. -/
structure nvs_t where
  u32 : nvs_key → Option Nat
  blob : nvs_key → Option event_log_t
  get_err : esp_err_t
  set_err : esp_err_t
  commit_err : esp_err_t

/-- The library call `nvs_get_u32`: the error and the value written to the out parameter. -/
def nvs_get_u32 (n : nvs_t) (key : nvs_key) : esp_err_t × Option Nat :=
  if n.get_err ≠ ESP_OK then (n.get_err, none)
  else
    match n.u32 key with
    | some v => (ESP_OK, some v)
    | none => (ESP_ERR_NVS_NOT_FOUND, none)

/-- The library call `nvs_set_u32`. -/
def nvs_set_u32 (n : nvs_t) (key : nvs_key) (v : Nat) : esp_err_t × nvs_t :=
  if n.set_err ≠ ESP_OK then (n.set_err, n)
  else (ESP_OK, { n with u32 := fun k => if k = key then some v else n.u32 k })

/-- The library call `nvs_set_blob`, for a blob holding one `event_log_t`. -/
def nvs_set_blob (n : nvs_t) (key : nvs_key) (v : event_log_t) : esp_err_t × nvs_t :=
  if n.set_err ≠ ESP_OK then (n.set_err, n)
  else (ESP_OK, { n with blob := fun k => if k = key then some v else n.blob k })

/-- The library call `nvs_commit`. -/
def nvs_commit (n : nvs_t) : esp_err_t × nvs_t :=
  (n.commit_err, n)

/-- The file-static state of `storage_manager.c`; `nvs` is what `s_nvs_handle` refers to. -/
structure storage_ctx where
  s_initialized : Bool
  nvs : nvs_t

/-- The function `storage_save_door_state`. -/
def storage_save_door_state (st : storage_ctx) (state : Nat) : esp_err_t × storage_ctx :=
  if !st.s_initialized then (ESP_ERR_INVALID_ARG, st)
  else
    let r1 := nvs_set_u32 st.nvs KEY_DOOR_STATE state
    if r1.1 ≠ ESP_OK then (r1.1, { st with nvs := r1.2 })
    else
      let r2 := nvs_commit r1.2
      (r2.1, { st with nvs := r2.2 })

/-- The function `storage_load_door_state`: the error and the value written to `*state`. -/
def storage_load_door_state (st : storage_ctx) : esp_err_t × Option Nat :=
  if !st.s_initialized then (ESP_ERR_INVALID_ARG, none)
  else
    let r := nvs_get_u32 st.nvs KEY_DOOR_STATE
    if r.1 = ESP_ERR_NVS_NOT_FOUND then (ESP_OK, some DOOR_STATE_UNKNOWN)
    else r

/-- Conversion of a `uint32_t` to the `int32_t` parameter `value` of `storage_log_event`. -/
def to_int32 (n : Nat) : Int :=
  if n % 2 ^ 32 < 2 ^ 31 then ((n % 2 ^ 32 : Nat) : Int)
  else ((n % 2 ^ 32 : Nat) : Int) - 2 ^ 32

/-- The `uint32_t` timestamp `esp_timer_get_time() / 1000` stored in a log entry. -/
def log_timestamp (time_us : Int) : Nat :=
  (Int.tdiv time_us 1000 % 2 ^ 32).toNat

/-- The function `storage_log_event`; `time_us` is the clock reading
`esp_timer_get_time()`.  The local `count` stays `0` when the read of `evt_count` fails. -/
def storage_log_event (st : storage_ctx) (type : event_type_t) (value : Int)
    (time_us : Int) : esp_err_t × storage_ctx :=
  if !st.s_initialized then (ESP_ERR_INVALID_ARG, st)
  else
    let count : Nat := ((nvs_get_u32 st.nvs KEY_EVENT_COUNT).2).getD 0
    let log : event_log_t :=
      { type := type, timestamp := log_timestamp time_us, value := value }
    let r1 := nvs_set_blob st.nvs (evt count) log
    if r1.1 ≠ ESP_OK then (r1.1, { st with nvs := r1.2 })
    else
      let count1 : Nat := (count + 1) % 2 ^ 32 % MAX_EVENT_LOGS
      let r2 := nvs_set_u32 r1.2 KEY_EVENT_COUNT count1
      if r2.1 ≠ ESP_OK then (r2.1, { st with nvs := r2.2 })
      else
        let r3 := nvs_commit r2.2
        (r3.1, { st with nvs := r3.2 })

/-- The library call `nvs_get_blob`, for a blob holding one `event_log_t`: the error and the
value written to the out buffer. -/
def nvs_get_blob (n : nvs_t) (key : nvs_key) : esp_err_t × Option event_log_t :=
  if n.get_err ≠ ESP_OK then (n.get_err, none)
  else
    match n.blob key with
    | some v => (ESP_OK, some v)
    | none => (ESP_ERR_NVS_NOT_FOUND, none)

/-- The function `storage_get_logs`, called with non-`NULL` pointers: the error and the
entries `logs[0 .. *actual_count)` it has delivered, so that `*actual_count` is the length
of the list. -/
def storage_get_logs (st : storage_ctx) (max_count : Nat) : esp_err_t × List event_log_t :=
  if !st.s_initialized then (ESP_ERR_INVALID_ARG, [])
  else
    let r := nvs_get_u32 st.nvs KEY_EVENT_COUNT
    if r.1 = ESP_ERR_NVS_NOT_FOUND then (ESP_OK, [])
    else if r.1 ≠ ESP_OK then (r.1, [])
    else
      let count : Nat := r.2.getD 0
      let to_read : Nat := if count > max_count then max_count else count
      (ESP_OK,
        (List.range to_read).foldl
          (fun logs i =>
            if (nvs_get_blob st.nvs (evt i)).1 = ESP_OK then
              logs ++ (nvs_get_blob st.nvs (evt i)).2.toList
            else logs) [])

/-- The struct `storage_gpio_config_t`; all fields are `uint32_t`. -/
structure storage_gpio_config_t where
  reed_closed_pin : Nat
  reed_open_pin : Nat
  relay_pin : Nat
  deriving DecidableEq, Repr

/-- The struct `storage_relay_config_t`; all fields are `uint32_t`. -/
structure storage_relay_config_t where
  pulse_duration_ms : Nat
  max_pulse_duration_ms : Nat
  min_interval_ms : Nat
  deriving DecidableEq, Repr

/-- The function `storage_load_gpio_config`.  `config` is `none` for a `NULL` pointer and
otherwise the contents of the caller's struct; the result is the error and the contents of
the struct after the call.  A read that fails leaves its field as it was. -/
def storage_load_gpio_config (st : storage_ctx) (config : Option storage_gpio_config_t) :
    esp_err_t × Option storage_gpio_config_t :=
  match config with
  | none => (ESP_ERR_INVALID_ARG, none)
  | some c =>
    if !st.s_initialized then (ESP_ERR_INVALID_ARG, some c)
    else
      let r1 := nvs_get_u32 st.nvs KEY_REED_CLOSED_PIN
      let c1 : storage_gpio_config_t :=
        { c with reed_closed_pin := r1.2.getD c.reed_closed_pin }
      if r1.1 ≠ ESP_OK ∧ r1.1 ≠ ESP_ERR_NVS_NOT_FOUND then (r1.1, some c1)
      else
        let r2 := nvs_get_u32 st.nvs KEY_REED_OPEN_PIN
        let c2 : storage_gpio_config_t :=
          { c1 with reed_open_pin := r2.2.getD c1.reed_open_pin }
        if r2.1 ≠ ESP_OK ∧ r2.1 ≠ ESP_ERR_NVS_NOT_FOUND then (r2.1, some c2)
        else
          let r3 := nvs_get_u32 st.nvs KEY_RELAY_PIN
          let c3 : storage_gpio_config_t := { c2 with relay_pin := r3.2.getD c2.relay_pin }
          if r3.1 ≠ ESP_OK ∧ r3.1 ≠ ESP_ERR_NVS_NOT_FOUND then (r3.1, some c3)
          else (ESP_OK, some c3)

/-- The function `storage_load_relay_config`, with `config` as for
`storage_load_gpio_config`. -/
def storage_load_relay_config (st : storage_ctx) (config : Option storage_relay_config_t) :
    esp_err_t × Option storage_relay_config_t :=
  match config with
  | none => (ESP_ERR_INVALID_ARG, none)
  | some c =>
    if !st.s_initialized then (ESP_ERR_INVALID_ARG, some c)
    else
      let r1 := nvs_get_u32 st.nvs KEY_PULSE_DURATION
      let c1 : storage_relay_config_t :=
        { c with pulse_duration_ms := r1.2.getD c.pulse_duration_ms }
      if r1.1 ≠ ESP_OK ∧ r1.1 ≠ ESP_ERR_NVS_NOT_FOUND then (r1.1, some c1)
      else
        let r2 := nvs_get_u32 st.nvs KEY_MAX_PULSE_DURATION
        let c2 : storage_relay_config_t :=
          { c1 with max_pulse_duration_ms := r2.2.getD c1.max_pulse_duration_ms }
        if r2.1 ≠ ESP_OK ∧ r2.1 ≠ ESP_ERR_NVS_NOT_FOUND then (r2.1, some c2)
        else
          let r3 := nvs_get_u32 st.nvs KEY_MIN_INTERVAL
          let c3 : storage_relay_config_t :=
            { c2 with min_interval_ms := r3.2.getD c2.min_interval_ms }
          if r3.1 ≠ ESP_OK ∧ r3.1 ≠ ESP_ERR_NVS_NOT_FOUND then (r3.1, some c3)
          else (ESP_OK, some c3)

/-- A request to `storage_log_event`: the type, the value and the clock reading
`esp_timer_get_time()` at the call. -/
abbrev log_request := event_type_t × Int × Int

/-- The entry that `storage_log_event` builds for a request. -/
def log_entry (q : log_request) : event_log_t :=
  { type := q.1, timestamp := log_timestamp q.2.2, value := q.2.1 }

/-- The storage state after a sequence of `storage_log_event` calls, oldest first. -/
def storage_log_events (st : storage_ctx) : List log_request → storage_ctx
  | [] => st
  | q :: qs => storage_log_events (storage_log_event st q.1 q.2.1 q.2.2).2 qs

/-- The error codes returned by a sequence of `storage_log_event` calls, oldest first. -/
def storage_log_events_rets (st : storage_ctx) : List log_request → List esp_err_t
  | [] => []
  | q :: qs =>
    (storage_log_event st q.1 q.2.1 q.2.2).1 ::
      storage_log_events_rets (storage_log_event st q.1 q.2.1 q.2.2).2 qs

/-! ## Reed sensor (`reed_switch.c`) -/

/-- The enum `door_position_t`. -/
inductive door_position_t where
  | DOOR_POSITION_UNKNOWN
  | DOOR_POSITION_CLOSED
  | DOOR_POSITION_OPEN
  | DOOR_POSITION_BETWEEN
  deriving DecidableEq, Repr

open door_position_t

/-- The file-static state of `reed_switch.c` and the levels that `gpio_get_level` currently
reads on the two input pins.  `s_callback` records whether a subscriber is registered. -/
structure reed_ctx where
  s_initialized : Bool
  s_callback : Bool
  s_current_position : door_position_t
  s_debounce_pending : Bool
  s_debounce_timer : Option esp_timer
  closed_level : Nat
  open_level : Nat
  deriving DecidableEq, Repr

/-- The function `reed_switch_get_position`. -/
def reed_switch_get_position (r : reed_ctx) : door_position_t :=
  if !r.s_initialized then DOOR_POSITION_UNKNOWN
  else
    let closed : Bool := r.closed_level == 0
    let «open» : Bool := r.open_level == 0
    if closed && !«open» then DOOR_POSITION_CLOSED
    else if «open» && !closed then DOOR_POSITION_OPEN
    else if !closed && !«open» then DOOR_POSITION_BETWEEN
    else DOOR_POSITION_UNKNOWN

/-- The function `reed_switch_is_closed`. -/
def reed_switch_is_closed (r : reed_ctx) : Bool :=
  reed_switch_get_position r == DOOR_POSITION_CLOSED

/-- The function `reed_switch_is_open`. -/
def reed_switch_is_open (r : reed_ctx) : Bool :=
  reed_switch_get_position r == DOOR_POSITION_OPEN

def DEBOUNCE_MS : Nat := 50

/-- The interrupt handler `gpio_isr_handler`, installed for both inputs. -/
def gpio_isr_handler (r : reed_ctx) : reed_ctx :=
  if !r.s_debounce_pending then
    let r1 : reed_ctx := { r with s_debounce_pending := true }
    if r1.s_debounce_timer.isSome then
      { r1 with
        s_debounce_timer :=
          (esp_timer_start_once r1.s_debounce_timer (DEBOUNCE_MS * 1000)).2 }
    else r1
  else r

/-- The function `debounce_timer_callback`: the new statics and the argument with which the
subscriber is invoked, `none` when it is not invoked. -/
def debounce_timer_callback (r : reed_ctx) : reed_ctx × Option door_position_t :=
  let r1 : reed_ctx := { r with s_debounce_pending := false }
  let new_pos := reed_switch_get_position r1
  if new_pos ≠ r1.s_current_position then
    ({ r1 with s_current_position := new_pos }, if r1.s_callback then some new_pos else none)
  else (r1, none)

/-- An edge on one of the two inputs: the levels read on the pins become the given ones and
the interrupt handler runs. -/
def reed_edge (r : reed_ctx) (levels : Nat × Nat) : reed_ctx :=
  gpio_isr_handler { r with closed_level := levels.1, open_level := levels.2 }

/-- A burst of edges, oldest first. -/
def reed_burst (r : reed_ctx) : List (Nat × Nat) → reed_ctx
  | [] => r
  | e :: es => reed_burst (reed_edge r e) es

/-- Expiry of the debounce one-shot: the timer is no longer pending and
`debounce_timer_callback` runs.  Nothing happens when no one-shot is pending. -/
def debounce_timer_expiry (r : reed_ctx) : reed_ctx × Option door_position_t :=
  if timer_pending r.s_debounce_timer then
    debounce_timer_callback { r with s_debounce_timer := some { armed := none } }
  else (r, none)

/-! ## Door controller (`garage_door_control.c`) -/

def DEFAULT_TIMEOUT_MS : Nat := 30000
def SAFETY_CHECK_INTERVAL_MS : Nat := 100

/-- The file-static state of `garage_door_control.c`.  `s_state_callback` records whether a
subscriber is registered and `notified` lists the arguments of its invocations, oldest
first; `s_state_mutex` and `s_safety_task` record whether the handle is set. -/
structure door_ctx where
  s_current_state : door_state_t
  s_initialized : Bool
  s_timeout_ms : Nat
  s_state_callback : Bool
  s_state_mutex : Bool
  s_timeout_timer : Option esp_timer
  s_safety_task : Bool
  notified : List door_state_t
  deriving DecidableEq, Repr

/-- The statics of `garage_door_control.c` as they are at program start. -/
def door_boot : door_ctx :=
  { s_current_state := DOOR_STATE_UNKNOWN
    s_initialized := false
    s_timeout_ms := DEFAULT_TIMEOUT_MS
    s_state_callback := false
    s_state_mutex := false
    s_timeout_timer := none
    s_safety_task := false
    notified := [] }

/-- The whole firmware state: the four modules' statics. -/
structure system where
  door : door_ctx
  relay : relay_ctx
  reed : reed_ctx
  storage : storage_ctx

/-- The function `update_state`. -/
def update_state (s : system) (new_state : door_state_t) : system :=
  if s.door.s_current_state ≠ new_state then
    { s with
      door :=
        { s.door with
          s_current_state := new_state
          notified :=
            if s.door.s_state_callback then s.door.notified ++ [new_state]
            else s.door.notified }
      storage := (storage_save_door_state s.storage new_state).2 }
  else s

/-- The function `timeout_timer_callback`; `time_us` is the clock read by the logger. -/
def timeout_timer_callback (s : system) (time_us : Int) : system :=
  let s1 : system :=
    { s with
      storage :=
        (storage_log_event s.storage EVENT_TYPE_TIMEOUT (to_int32 s.door.s_current_state)
          time_us).2 }
  update_state s1 DOOR_STATE_STOPPED

/-- One iteration of the loop of `safety_check_task`, after the delay; `time_us` is the
clock read by the logger. -/
def safety_check_task (s : system) (time_us : Int) : system :=
  let state := s.door.s_current_state
  if state = DOOR_STATE_OPENING ∨ state = DOOR_STATE_CLOSING then
    let pos := reed_switch_get_position s.reed
    if state = DOOR_STATE_OPENING then
      if pos = DOOR_POSITION_CLOSED then
        let s1 : system :=
          { s with
            storage :=
              (storage_log_event s.storage EVENT_TYPE_OBSTRUCTION (to_int32 state) time_us).2 }
        update_state s1 DOOR_STATE_STOPPED
      else if pos = DOOR_POSITION_OPEN then update_state s DOOR_STATE_OPEN
      else s
    else if state = DOOR_STATE_CLOSING then
      if pos = DOOR_POSITION_OPEN then
        let s1 : system :=
          { s with
            storage :=
              (storage_log_event s.storage EVENT_TYPE_OBSTRUCTION (to_int32 state) time_us).2 }
        update_state s1 DOOR_STATE_STOPPED
      else if pos = DOOR_POSITION_CLOSED then update_state s DOOR_STATE_CLOSED
      else s
    else s
  else s

/-- The function `reed_switch_callback` of the controller. -/
def reed_switch_callback (s : system) (position : door_position_t) : system :=
  let state := s.door.s_current_state
  if state = DOOR_STATE_OPENING ∨ state = DOOR_STATE_CLOSING then
    if position = DOOR_POSITION_OPEN then update_state s DOOR_STATE_OPEN
    else if position = DOOR_POSITION_CLOSED then update_state s DOOR_STATE_CLOSED
    else s
  else s

/-- The function `garage_door_open`; `t_relay` is the clock read inside `relay_activate`
and `t_log` the clock read by the logger.  The product `s_timeout_ms * 1000` is computed in
`uint32_t`. -/
def garage_door_open (s : system) (t_relay t_log : Int) : esp_err_t × system :=
  if !s.door.s_initialized then (ESP_ERR_INVALID_STATE, s)
  else
    let state := s.door.s_current_state
    if state ≠ DOOR_STATE_CLOSED ∧ state ≠ DOOR_STATE_STOPPED then (ESP_ERR_INVALID_STATE, s)
    else
      let r := relay_activate s.relay t_relay
      if r.1 ≠ ESP_OK then (r.1, { s with relay := r.2 })
      else
        let s1 := update_state { s with relay := r.2 } DOOR_STATE_OPENING
        let s2 : system :=
          { s1 with
            door :=
              { s1.door with
                s_timeout_timer :=
                  (esp_timer_start_once s1.door.s_timeout_timer
                    (s1.door.s_timeout_ms * 1000 % 2 ^ 32)).2 } }
        (ESP_OK,
          { s2 with storage := (storage_log_event s2.storage EVENT_TYPE_DOOR_OPEN 0 t_log).2 })

/-- The function `garage_door_close`; the clock readings are as for `garage_door_open`. -/
def garage_door_close (s : system) (t_relay t_log : Int) : esp_err_t × system :=
  if !s.door.s_initialized then (ESP_ERR_INVALID_STATE, s)
  else
    let state := s.door.s_current_state
    if state ≠ DOOR_STATE_OPEN ∧ state ≠ DOOR_STATE_STOPPED then (ESP_ERR_INVALID_STATE, s)
    else
      let r := relay_activate s.relay t_relay
      if r.1 ≠ ESP_OK then (r.1, { s with relay := r.2 })
      else
        let s1 := update_state { s with relay := r.2 } DOOR_STATE_CLOSING
        let s2 : system :=
          { s1 with
            door :=
              { s1.door with
                s_timeout_timer :=
                  (esp_timer_start_once s1.door.s_timeout_timer
                    (s1.door.s_timeout_ms * 1000 % 2 ^ 32)).2 } }
        (ESP_OK,
          { s2 with storage := (storage_log_event s2.storage EVENT_TYPE_DOOR_CLOSED 0 t_log).2 })

/-- The function `garage_door_stop`. -/
def garage_door_stop (s : system) : esp_err_t × system :=
  if !s.door.s_initialized then (ESP_ERR_INVALID_STATE, s)
  else
    let state := s.door.s_current_state
    if state = DOOR_STATE_CLOSED ∨ state = DOOR_STATE_OPEN then (ESP_OK, s)
    else
      let s1 := update_state s DOOR_STATE_STOPPED
      if s1.door.s_timeout_timer.isSome then
        (ESP_OK,
          { s1 with
            door :=
              { s1.door with s_timeout_timer := (esp_timer_stop s1.door.s_timeout_timer).2 } })
      else (ESP_OK, s1)

/-- The function `garage_door_get_state`. -/
def garage_door_get_state (s : system) : door_state_t :=
  s.door.s_current_state

/-- The function `garage_door_is_moving`. -/
def garage_door_is_moving (s : system) : Bool :=
  let state := garage_door_get_state s
  state == DOOR_STATE_OPENING || state == DOOR_STATE_CLOSING

/-- The function `garage_door_register_state_callback`, called with a non-`NULL` pointer
(`callback = true`) or with `NULL`. -/
def garage_door_register_state_callback (s : system) (callback : Bool) : esp_err_t × system :=
  if !callback then (ESP_ERR_INVALID_ARG, s)
  else (ESP_OK, { s with door := { s.door with s_state_callback := true } })

/-- The function `garage_door_set_timeout`. -/
def garage_door_set_timeout (s : system) (timeout_ms : Nat) : esp_err_t × system :=
  if timeout_ms < 1000 then (ESP_ERR_INVALID_ARG, s)
  else (ESP_OK, { s with door := { s.door with s_timeout_ms := timeout_ms } })

/-- The function `garage_door_init`.  The environment decides whether the mutex and the
watchdog task can be allocated and what `esp_timer_create` returns.  An object that the
error paths delete again is recorded as absent. -/
def garage_door_init (s : system) (mutex_created : Bool) (timer_create_ret : esp_err_t)
    (task_created : Bool) : esp_err_t × system :=
  if s.door.s_initialized then (ESP_ERR_INVALID_STATE, s)
  else if !mutex_created then
    (ESP_ERR_NO_MEM, { s with door := { s.door with s_state_mutex := false } })
  else
    let l := storage_load_door_state s.storage
    let state : door_state_t :=
      if l.1 = ESP_OK then l.2.getD s.door.s_current_state
      else
        let pos := reed_switch_get_position s.reed
        if pos = DOOR_POSITION_CLOSED then DOOR_STATE_CLOSED
        else if pos = DOOR_POSITION_OPEN then DOOR_STATE_OPEN
        else DOOR_STATE_UNKNOWN
    let d1 : door_ctx := { s.door with s_state_mutex := true, s_current_state := state }
    if timer_create_ret ≠ ESP_OK then
      (timer_create_ret, { s with door := { d1 with s_state_mutex := false } })
    else
      let d2 : door_ctx := { d1 with s_timeout_timer := some { armed := none } }
      let reed1 : reed_ctx := { s.reed with s_callback := true }
      if !task_created then
        (ESP_ERR_NO_MEM,
          { s with
            door := { d2 with s_timeout_timer := none, s_state_mutex := false }
            reed := reed1 })
      else
        (ESP_OK,
          { s with
            door := { d2 with s_safety_task := true, s_initialized := true }
            reed := reed1 })

/-! ## Event sequences -/

/-- Expiry of the relay's one-shot pulse timer: the timer is no longer pending and
`pulse_timer_callback` runs.  Nothing happens when no one-shot is pending. -/
def pulse_timer_expiry (r : relay_ctx) : relay_ctx :=
  if timer_pending r.s_pulse_timer then
    pulse_timer_callback { r with s_pulse_timer := some { armed := none } }
  else r

/-- What can happen to the relay driver under a fixed configuration. -/
inductive relay_event where
  | activate (time_us : Int)
  | activate_pulse (duration_ms : Nat) (time_us : Int)
  | timer_expiry
  deriving DecidableEq, Repr

/-- The driver state after one event. -/
def relay_step (r : relay_ctx) : relay_event → relay_ctx
  | .activate time_us => (relay_activate r time_us).2
  | .activate_pulse duration_ms time_us => (relay_activate_pulse r duration_ms time_us).2
  | .timer_expiry => pulse_timer_expiry r

/-- The clock reading, in milliseconds, at which an event is a successful activation. -/
def relay_event_start (r : relay_ctx) : relay_event → Option Int
  | .activate time_us =>
    if (relay_activate r time_us).1 = ESP_OK then some (Int.tdiv time_us 1000) else none
  | .activate_pulse duration_ms time_us =>
    if (relay_activate_pulse r duration_ms time_us).1 = ESP_OK then
      some (Int.tdiv time_us 1000)
    else none
  | .timer_expiry => none

/-- The start times of the successful activations of an event sequence, oldest first. -/
def relay_starts (r : relay_ctx) : List relay_event → List Int
  | [] => []
  | e :: es => (relay_event_start r e).toList ++ relay_starts (relay_step r e) es

/-- Expiry of the operation-timeout timer: the timer is no longer pending and
`timeout_timer_callback` runs.  Nothing happens when no one-shot is pending. -/
def timeout_timer_expiry (s : system) (time_us : Int) : system :=
  if timer_pending s.door.s_timeout_timer then
    timeout_timer_callback
      { s with door := { s.door with s_timeout_timer := some { armed := none } } } time_us
  else s

/-- The three public commands of the controller. -/
inductive door_call where
  | open_call
  | close_call
  | stop_call
  deriving DecidableEq, Repr

/-- The result of a public command. -/
def door_call_run (s : system) (c : door_call) (t_relay t_log : Int) : esp_err_t × system :=
  match c with
  | .open_call => garage_door_open s t_relay t_log
  | .close_call => garage_door_close s t_relay t_log
  | .stop_call => garage_door_stop s

/-- What can happen to the controller: the three commands, a reed-sensor callback, a
watchdog iteration, expiry of the operation timeout, expiry of the relay pulse and a change
of the levels on the two reed inputs. -/
inductive door_event where
  | call (c : door_call) (t_relay t_log : Int)
  | reed (position : door_position_t)
  | watchdog (time_us : Int)
  | timeout (time_us : Int)
  | pulse_done
  | lines (closed_level open_level : Nat)
  deriving DecidableEq, Repr

/-- The firmware state after one controller event. -/
def door_step (s : system) : door_event → system
  | .call c t_relay t_log => (door_call_run s c t_relay t_log).2
  | .reed position => reed_switch_callback s position
  | .watchdog time_us => safety_check_task s time_us
  | .timeout time_us => timeout_timer_expiry s time_us
  | .pulse_done => { s with relay := pulse_timer_expiry s.relay }
  | .lines closed_level open_level =>
    { s with reed := { s.reed with closed_level := closed_level, open_level := open_level } }

/-- The firmware state after a sequence of controller events. -/
def door_run (s : system) : List door_event → system
  | [] => s
  | e :: es => door_run (door_step s e) es

/-- The successive values taken by the door state at each change during a sequence of
controller events, oldest first. -/
def door_changes (s : system) : List door_event → List door_state_t
  | [] => []
  | e :: es =>
    (if (door_step s e).door.s_current_state ≠ s.door.s_current_state then
        [(door_step s e).door.s_current_state]
      else []) ++ door_changes (door_step s e) es

/-- A step of the controller from the statics `d` to `d'` keeps the subscriber registered and
delivers to it exactly the new door state if the state has changed, nothing otherwise. -/
def notified_step (d d' : door_ctx) : Prop :=
  d'.s_state_callback = true ∧
    d'.notified =
      d.notified ++
        (if d'.s_current_state ≠ d.s_current_state then [d'.s_current_state] else [])

/-- What can happen to the relay driver over its whole life: the calls of its interface,
with the answers of the environment to `relay_init`, and expiry of the pulse timer. -/
inductive relay_op where
  | init (mutex_created : Bool) (gpio_config_ret timer_create_ret : esp_err_t)
  | deinit
  | activate (time_us : Int)
  | activate_pulse (duration_ms : Nat) (time_us : Int)
  | timer_expiry
  | set_config (config : Option relay_config_t)
  deriving DecidableEq, Repr

/-- The driver state after one operation. -/
def relay_op_step (r : relay_ctx) : relay_op → relay_ctx
  | .init mutex_created gpio_config_ret timer_create_ret =>
    (relay_init r mutex_created gpio_config_ret timer_create_ret).2
  | .deinit => (relay_deinit r).2
  | .activate time_us => (relay_activate r time_us).2
  | .activate_pulse duration_ms time_us => (relay_activate_pulse r duration_ms time_us).2
  | .timer_expiry => pulse_timer_expiry r
  | .set_config config => (relay_set_config r config).2

/-- The driver state after a sequence of operations. -/
def relay_op_run (r : relay_ctx) : List relay_op → relay_ctx
  | [] => r
  | o :: os => relay_op_run (relay_op_step r o) os

/-- Coherence of the relay record: the output level is 1 while the active flag is set and 0
otherwise, the active flag is set exactly while the pulse one-shot is pending, and the
pulse timer exists exactly while the driver is initialised. -/
def relay_coherent (r : relay_ctx) : Prop :=
  r.gpio_level = (if r.s_active then 1 else 0) ∧
    r.s_active = timer_pending r.s_pulse_timer ∧
    r.s_initialized = r.s_pulse_timer.isSome

/-! ## Preemption inside `garage_door_open` and `garage_door_close`

The two commands take `s_state_mutex` for the copy of `s_current_state` into a local and
give it back at once; `update_state` takes it again for its own body.  The calling task
can be preempted wherever it is not blocked, and another context can run to completion
there whenever the mutex it needs is free. -/

/-- The points of `garage_door_open` and `garage_door_close` at which the calling task can
stand, each named after what it executes next; `state` is the local copy of the door
state. -/
inductive call_point where
  | entry
  | take_for_read
  | read_state
  | give_after_read (state : door_state_t)
  | guard_and_relay (state : door_state_t)
  | take_for_update
  | update_body
  | give_after_update
  | arm_timeout
  | log_event
  | returned (ret : esp_err_t)
  deriving DecidableEq, Repr

/-- The firmware together with `s_state_mutex` and the position of one task inside
`garage_door_open` or `garage_door_close`. -/
structure preempted_call where
  sys : system
  mutex_held : Bool
  point : call_point

/-- One step of the task executing `garage_door_open`: the test of `s_initialized`,
`xSemaphoreTake`, the copy of `s_current_state`, `xSemaphoreGive`, the guard on the copy
followed by `relay_activate`, then inside `update_state` the take, the body and the give,
then `esp_timer_start_once` and `storage_log_event`.  A take of a held mutex blocks. -/
def garage_door_open_step (t_relay t_log : Int) (p : preempted_call) : preempted_call :=
  match p.point with
  | .entry =>
    if !p.sys.door.s_initialized then { p with point := .returned ESP_ERR_INVALID_STATE }
    else { p with point := .take_for_read }
  | .take_for_read =>
    if p.mutex_held then p else { p with mutex_held := true, point := .read_state }
  | .read_state => { p with point := .give_after_read p.sys.door.s_current_state }
  | .give_after_read state => { p with mutex_held := false, point := .guard_and_relay state }
  | .guard_and_relay state =>
    if state ≠ DOOR_STATE_CLOSED ∧ state ≠ DOOR_STATE_STOPPED then
      { p with point := .returned ESP_ERR_INVALID_STATE }
    else
      let r := relay_activate p.sys.relay t_relay
      if r.1 ≠ ESP_OK then
        { p with sys := { p.sys with relay := r.2 }, point := .returned r.1 }
      else { p with sys := { p.sys with relay := r.2 }, point := .take_for_update }
  | .take_for_update =>
    if p.mutex_held then p else { p with mutex_held := true, point := .update_body }
  | .update_body =>
    { p with sys := update_state p.sys DOOR_STATE_OPENING, point := .give_after_update }
  | .give_after_update => { p with mutex_held := false, point := .arm_timeout }
  | .arm_timeout =>
    { p with
      sys :=
        { p.sys with
          door :=
            { p.sys.door with
              s_timeout_timer :=
                (esp_timer_start_once p.sys.door.s_timeout_timer
                  (p.sys.door.s_timeout_ms * 1000 % 2 ^ 32)).2 } }
      point := .log_event }
  | .log_event =>
    { p with
      sys :=
        { p.sys with
          storage := (storage_log_event p.sys.storage EVENT_TYPE_DOOR_OPEN 0 t_log).2 }
      point := .returned ESP_OK }
  | .returned _ => p

/-- One step of the task executing `garage_door_close`, as for `garage_door_open_step`. -/
def garage_door_close_step (t_relay t_log : Int) (p : preempted_call) : preempted_call :=
  match p.point with
  | .entry =>
    if !p.sys.door.s_initialized then { p with point := .returned ESP_ERR_INVALID_STATE }
    else { p with point := .take_for_read }
  | .take_for_read =>
    if p.mutex_held then p else { p with mutex_held := true, point := .read_state }
  | .read_state => { p with point := .give_after_read p.sys.door.s_current_state }
  | .give_after_read state => { p with mutex_held := false, point := .guard_and_relay state }
  | .guard_and_relay state =>
    if state ≠ DOOR_STATE_OPEN ∧ state ≠ DOOR_STATE_STOPPED then
      { p with point := .returned ESP_ERR_INVALID_STATE }
    else
      let r := relay_activate p.sys.relay t_relay
      if r.1 ≠ ESP_OK then
        { p with sys := { p.sys with relay := r.2 }, point := .returned r.1 }
      else { p with sys := { p.sys with relay := r.2 }, point := .take_for_update }
  | .take_for_update =>
    if p.mutex_held then p else { p with mutex_held := true, point := .update_body }
  | .update_body =>
    { p with sys := update_state p.sys DOOR_STATE_CLOSING, point := .give_after_update }
  | .give_after_update => { p with mutex_held := false, point := .arm_timeout }
  | .arm_timeout =>
    { p with
      sys :=
        { p.sys with
          door :=
            { p.sys.door with
              s_timeout_timer :=
                (esp_timer_start_once p.sys.door.s_timeout_timer
                  (p.sys.door.s_timeout_ms * 1000 % 2 ^ 32)).2 } }
      point := .log_event }
  | .log_event =>
    { p with
      sys :=
        { p.sys with
          storage := (storage_log_event p.sys.storage EVENT_TYPE_DOOR_CLOSED 0 t_log).2 }
      point := .returned ESP_OK }
  | .returned _ => p

/-- Whether the handler of a controller event takes `s_state_mutex`: the three commands,
`reed_switch_callback` and `safety_check_task` do for their read of the state, and
`timeout_timer_callback` does inside `update_state`; `pulse_timer_callback` takes the mutex
of the relay driver only, and a change of the input levels runs no code. -/
def takes_state_mutex : door_event → Bool
  | .pulse_done => false
  | .lines _ _ => false
  | _ => true

/-- Who runs next: the task inside the command, for one step, or another context, whose
handler of the event `e` then runs to completion. -/
inductive turn where
  | caller
  | other (e : door_event)
  deriving DecidableEq, Repr

/-- One turn of a schedule over the step function `step` of the calling task.  Another
context whose handler takes `s_state_mutex` cannot complete while the calling task holds
it: such a turn is not a schedule of the firmware (`none`). -/
def turn_run (step : preempted_call → preempted_call) (p : preempted_call) :
    turn → Option preempted_call
  | .caller => some (step p)
  | .other e =>
    if p.mutex_held && takes_state_mutex e then none
    else some { p with sys := door_step p.sys e }

/-- A schedule, turn by turn. -/
def schedule_run (step : preempted_call → preempted_call) (p : preempted_call) :
    List turn → Option preempted_call
  | [] => some p
  | t :: ts =>
    match turn_run step p t with
    | none => none
    | some q => schedule_run step q ts

/-- A call of `garage_door_open` on the firmware `s` under the schedule `turns`, with the
mutex free at entry. -/
def garage_door_open_schedule (s : system) (t_relay t_log : Int) (turns : List turn) :
    Option preempted_call :=
  schedule_run (garage_door_open_step t_relay t_log)
    { sys := s, mutex_held := false, point := .entry } turns

/-- A call of `garage_door_close` on the firmware `s` under the schedule `turns`, with the
mutex free at entry. -/
def garage_door_close_schedule (s : system) (t_relay t_log : Int) (turns : List turn) :
    Option preempted_call :=
  schedule_run (garage_door_close_step t_relay t_log)
    { sys := s, mutex_held := false, point := .entry } turns

/-- The schedule in which `n` steps of the calling task are followed by the handlers of
`others` and then by `m` further steps of the calling task. -/
def preempt_after (n : Nat) (others : List door_event) (m : Nat) : List turn :=
  List.replicate n turn.caller ++ others.map turn.other ++ List.replicate m turn.caller

/-- Whether a controller event is one of the three public commands. -/
def is_command : door_event → Bool
  | .call _ _ _ => true
  | _ => false

/-! ## The transition table of the specification -/

/-- The rows of the specification's state-machine table for the three public commands, in
the specification's words: `open()` leads from `Closed` or `Stopped` to `Opening`, `close()`
from `Open` or `Stopped` to `Closing`, `stop()` from `Opening` or `Closing` to `Stopped`. -/
def spec_table_row (s : door_state_t) (c : door_call) (s' : door_state_t) : Prop :=
  match c with
  | .open_call => (s = DOOR_STATE_CLOSED ∨ s = DOOR_STATE_STOPPED) ∧ s' = DOOR_STATE_OPENING
  | .close_call => (s = DOOR_STATE_OPEN ∨ s = DOOR_STATE_STOPPED) ∧ s' = DOOR_STATE_CLOSING
  | .stop_call => (s = DOOR_STATE_OPENING ∨ s = DOOR_STATE_CLOSING) ∧ s' = DOOR_STATE_STOPPED

/-- The table rows extended by the transition that `garage_door_stop` also makes:
`stop()` leads from `Unknown` to `Stopped`. -/
def code_table_row (s : door_state_t) (c : door_call) (s' : door_state_t) : Prop :=
  spec_table_row s c s' ∨
    (c = door_call.stop_call ∧ s = DOOR_STATE_UNKNOWN ∧ s' = DOOR_STATE_STOPPED)

/-- The postcondition of a command that starts a movement from `s` and ends in `s'`: the
door state is `new_state`, the store holds it under `door_state`, the subscriber (if one is
registered) has received exactly one more notification, `new_state`, a one-shot of the
operation timeout is pending, the relay is as `relay_activate` left it, and the event log
has one more entry: `(type, timestamp, 0)` in the slot `evt_<count>` named by the stored
counter (0 when it cannot be read), all other slots kept and the counter advanced to
`(count + 1) % 100`. -/
def movement_begun (s s' : system) (new_state : door_state_t) (type : event_type_t)
    (t_relay t_log : Int) : Prop :=
  s'.door.s_current_state = new_state ∧
    s'.storage.nvs.u32 KEY_DOOR_STATE = some new_state ∧
    s'.door.notified =
      (if s.door.s_state_callback then s.door.notified ++ [new_state] else s.door.notified) ∧
    timer_pending s'.door.s_timeout_timer = true ∧
    s'.relay = (relay_activate s.relay t_relay).2 ∧
    s'.storage.nvs.blob (evt (((nvs_get_u32 s.storage.nvs KEY_EVENT_COUNT).2).getD 0)) =
      some { type := type, timestamp := log_timestamp t_log, value := 0 } ∧
    (∀ k : nvs_key, k ≠ evt (((nvs_get_u32 s.storage.nvs KEY_EVENT_COUNT).2).getD 0) →
      s'.storage.nvs.blob k = s.storage.nvs.blob k) ∧
    s'.storage.nvs.u32 KEY_EVENT_COUNT =
      some ((((nvs_get_u32 s.storage.nvs KEY_EVENT_COUNT).2).getD 0 + 1) % 2 ^ 32 %
        MAX_EVENT_LOGS)

/-- The event log of `after` is that of `before` with one more entry: `(type, timestamp,
value)` in the slot `evt_<count>` named by the stored counter (0 when it cannot be read),
all other slots kept and the counter advanced to `(count + 1) % 100`. -/
def log_appended (before after : nvs_t) (type : event_type_t) (value : Int)
    (time_us : Int) : Prop :=
  after.blob (evt (((nvs_get_u32 before KEY_EVENT_COUNT).2).getD 0)) =
      some { type := type, timestamp := log_timestamp time_us, value := value } ∧
    (∀ k : nvs_key, k ≠ evt (((nvs_get_u32 before KEY_EVENT_COUNT).2).getD 0) →
      after.blob k = before.blob k) ∧
    after.u32 KEY_EVENT_COUNT =
      some ((((nvs_get_u32 before KEY_EVENT_COUNT).2).getD 0 + 1) % 2 ^ 32 % MAX_EVENT_LOGS)

/-- The event log of `after` is that of `before`: same slots, same counter. -/
def log_unchanged (before after : nvs_t) : Prop :=
  after.blob = before.blob ∧ after.u32 KEY_EVENT_COUNT = before.u32 KEY_EVENT_COUNT

/-- The storage module is initialised and the store answers reads, writes and commits
with success. -/
def storage_healthy (st : storage_ctx) : Prop :=
  st.s_initialized = true ∧ st.nvs.get_err = ESP_OK ∧ st.nvs.set_err = ESP_OK ∧
    st.nvs.commit_err = ESP_OK

/-- The counter that `storage_log_event` reads on a readable store: the value under
`evt_count`, 0 when the key is absent. -/
def stored_count (st : storage_ctx) : Nat :=
  (st.nvs.u32 KEY_EVENT_COUNT).getD 0

/-- The body of the loop of `storage_get_logs`. -/
def get_logs_step (n : nvs_t) (logs : List event_log_t) (i : Nat) : List event_log_t :=
  if (nvs_get_blob n (evt i)).1 = ESP_OK then logs ++ (nvs_get_blob n (evt i)).2.toList
  else logs

/-! ## Concrete states -/

/-- An empty namespace on a store that answers every call with success. -/
def nvs_empty : nvs_t :=
  { u32 := fun _ => none
    blob := fun _ => none
    get_err := ESP_OK
    set_err := ESP_OK
    commit_err := ESP_OK }

/-- The relay driver after `relay_init` with the default configuration and no subscriber. -/
def relay_ready : relay_ctx :=
  { relay_boot with s_initialized := true, s_pulse_timer := some { armed := none } }

/-- The reed sensor after `reed_switch_init`, with the given levels on the two inputs.  The
stored position is `DOOR_POSITION_UNKNOWN`: `reed_switch_init` reads the position before it
sets `s_initialized`. -/
def reed_ready (closed_level open_level : Nat) : reed_ctx :=
  { s_initialized := true
    s_callback := false
    s_current_position := DOOR_POSITION_UNKNOWN
    s_debounce_pending := false
    s_debounce_timer := some { armed := none }
    closed_level := closed_level
    open_level := open_level }

/-- The firmware before `garage_door_init`: storage, reed sensor (door at the closed end)
and relay are initialised, the store holds `persisted` under `door_state`. -/
def system_boot (persisted : Option Nat) : system :=
  { door := door_boot
    relay := relay_ready
    reed := reed_ready 0 1
    storage :=
      { s_initialized := true
        nvs := { nvs_empty with
          u32 := fun k => if k = KEY_DOOR_STATE then persisted else none } } }

/-- The firmware after a successful `garage_door_init` over a store holding the state
`state`, with a state subscriber registered. -/
def system_ready (state : door_state_t) : system :=
  (garage_door_register_state_callback
    (garage_door_init (system_boot (some state)) true ESP_OK true).2 true).2

/-- The firmware after a power cycle: the controller statics are at their program-start
values and the storage module is initialised again over the surviving namespace. -/
def cold_boot (nvs : nvs_t) (relay : relay_ctx) (reed : reed_ctx) : system :=
  { door := door_boot
    relay := relay
    reed := reed
    storage := { s_initialized := true, nvs := nvs } }

/-- The initialised firmware in state `Open` whose store has been erased, as
`storage_factory_reset` leaves it. -/
def system_erased : system :=
  { system_ready DOOR_STATE_OPEN with storage := { s_initialized := true, nvs := nvs_empty } }

/-- The initialised firmware in state `Closed` on a store that rejects every write. -/
def system_write_fault : system :=
  { system_ready DOOR_STATE_CLOSED with
    storage :=
      { (system_ready DOOR_STATE_CLOSED).storage with
        nvs := { (system_ready DOOR_STATE_CLOSED).storage.nvs with set_err := ESP_FAIL } } }

/-- A run of the relay driver: initialise, start a pulse two seconds after boot, change the
configuration during the pulse. -/
def relay_ops_sample : List relay_op :=
  [relay_op.init true ESP_OK ESP_OK, relay_op.activate 2000000,
    relay_op.set_config
      (some { pulse_duration_ms := 100, max_pulse_duration_ms := 200, min_interval_ms := 0 })]

/-- An initialised storage module over an empty store. -/
def storage_empty : storage_ctx :=
  { s_initialized := true, nvs := nvs_empty }

/-- Scenario S1 after initialisation, two seconds after boot: `open()`, five watchdog
iterations 100 ms apart during the relay pulse with the door still at the closed end, the
end of the pulse, the closed-line going high and the sensor publishing `Between`, twenty
more watchdog iterations, then the open-line going low and the sensor publishing `Open`. -/
def scenario_S1 : List door_event :=
  [door_event.call door_call.open_call 2000000 2000000] ++
    (List.range 5).map (fun i => door_event.watchdog (2100000 + 100000 * (i : Int))) ++
    [door_event.pulse_done, door_event.lines 1 1, door_event.reed DOOR_POSITION_BETWEEN] ++
    (List.range 20).map (fun i => door_event.watchdog (2600000 + 100000 * (i : Int))) ++
    [door_event.lines 1 0, door_event.reed DOOR_POSITION_OPEN]

/-! ## Relay driver: results -/

/-- The body of `relay_activate_pulse` with the local `now` substituted. -/
theorem relay_activate_pulse_eq (r : relay_ctx) (d : Nat) (time_us : Int) :
    relay_activate_pulse r d time_us =
      if !r.s_initialized then (ESP_ERR_INVALID_STATE, r)
      else if d == 0 || d > r.s_config.max_pulse_duration_ms then (ESP_ERR_INVALID_ARG, r)
      else if r.s_active then (ESP_ERR_INVALID_STATE, r)
      else if Int.tdiv time_us 1000 - r.s_last_activation_time <
          (r.s_config.min_interval_ms : Int) then
        (ESP_ERR_INVALID_STATE, r)
      else
        (ESP_OK,
          { r with
            gpio_level := 1
            s_active := true
            s_last_activation_time := Int.tdiv time_us 1000
            s_pulse_timer := (esp_timer_start_once r.s_pulse_timer (d * 1000 % 2 ^ 32)).2 }) :=
  rfl

/-- A call of `relay_activate_pulse` that does not return `ESP_OK` returns its argument
state. -/
theorem relay_activate_pulse_snd_of_ne_ok (r : relay_ctx) (d : Nat) (time_us : Int)
    (h : (relay_activate_pulse r d time_us).1 ≠ ESP_OK) :
    (relay_activate_pulse r d time_us).2 = r := by
  rw [relay_activate_pulse_eq] at h ⊢
  split_ifs at h ⊢ <;> first | rfl | exact absurd rfl h

/-- The only error codes of `relay_activate_pulse` are `ESP_ERR_INVALID_ARG` and
`ESP_ERR_INVALID_STATE`. -/
theorem relay_activate_pulse_codes (r : relay_ctx) (d : Nat) (time_us : Int) :
    (relay_activate_pulse r d time_us).1 = ESP_OK ∨
      (relay_activate_pulse r d time_us).1 = ESP_ERR_INVALID_ARG ∨
      (relay_activate_pulse r d time_us).1 = ESP_ERR_INVALID_STATE := by
  rw [relay_activate_pulse_eq]
  split_ifs <;> simp

/-- What a successful `relay_activate_pulse` has checked and what it leaves behind. -/
theorem relay_activate_pulse_ok (r : relay_ctx) (d : Nat) (time_us : Int)
    (h : (relay_activate_pulse r d time_us).1 = ESP_OK) :
    Int.tdiv time_us 1000 - r.s_last_activation_time ≥ (r.s_config.min_interval_ms : Int) ∧
      (relay_activate_pulse r d time_us).2.s_last_activation_time = Int.tdiv time_us 1000 ∧
      (relay_activate_pulse r d time_us).2.s_config = r.s_config ∧
      (relay_activate_pulse r d time_us).2.gpio_level = 1 ∧
      (relay_activate_pulse r d time_us).2.s_active = true ∧
      (relay_activate_pulse r d time_us).2.s_pulse_timer =
        (esp_timer_start_once r.s_pulse_timer (d * 1000 % 2 ^ 32)).2 := by
  rw [relay_activate_pulse_eq] at h ⊢
  split_ifs at h ⊢ with h1 h2 h3 h4
  · refine ⟨?_, rfl, rfl, rfl, rfl, rfl⟩
    simpa using h4

/-- A call of `relay_activate_pulse` keeps the configuration. -/
theorem relay_activate_pulse_config (r : relay_ctx) (d : Nat) (time_us : Int) :
    (relay_activate_pulse r d time_us).2.s_config = r.s_config := by
  rw [relay_activate_pulse_eq]
  split_ifs <;> rfl

/-- Every relay event keeps the configuration. -/
theorem relay_step_config (r : relay_ctx) (e : relay_event) :
    (relay_step r e).s_config = r.s_config := by
  cases e with
  | activate t => exact relay_activate_pulse_config r _ t
  | activate_pulse d t => exact relay_activate_pulse_config r d t
  | timer_expiry =>
    simp only [relay_step, pulse_timer_expiry, pulse_timer_callback]
    split_ifs <;> rfl

/-- An event that is not a successful activation keeps the recorded start time. -/
theorem relay_step_last_of_not_start (r : relay_ctx) (e : relay_event)
    (h : relay_event_start r e = none) :
    (relay_step r e).s_last_activation_time = r.s_last_activation_time := by
  cases e with
  | activate t =>
    simp only [relay_event_start, relay_activate] at h
    simp only [relay_step, relay_activate]
    split_ifs at h with hok
    rw [relay_activate_pulse_snd_of_ne_ok r _ t hok]
  | activate_pulse d t =>
    simp only [relay_event_start] at h
    simp only [relay_step]
    split_ifs at h with hok
    rw [relay_activate_pulse_snd_of_ne_ok r _ t hok]
  | timer_expiry =>
    simp only [relay_step, pulse_timer_expiry, pulse_timer_callback]
    split_ifs <;> rfl

/-- A successful activation at clock reading `t` (milliseconds) is at least the minimum
interval after the recorded start time, and records `t` as the new start time. -/
theorem relay_step_of_start (r : relay_ctx) (e : relay_event) (t : Int)
    (h : relay_event_start r e = some t) :
    t - r.s_last_activation_time ≥ (r.s_config.min_interval_ms : Int) ∧
      (relay_step r e).s_last_activation_time = t := by
  cases e with
  | activate time_us =>
    simp only [relay_event_start, relay_activate] at h
    simp only [relay_step, relay_activate]
    split_ifs at h with hok
    have ht : Int.tdiv time_us 1000 = t := by simpa using h
    have := relay_activate_pulse_ok r _ time_us hok
    rw [ht] at this
    exact ⟨this.1, this.2.1⟩
  | activate_pulse d time_us =>
    simp only [relay_event_start] at h
    simp only [relay_step]
    split_ifs at h with hok
    have ht : Int.tdiv time_us 1000 = t := by simpa using h
    have := relay_activate_pulse_ok r d time_us hok
    rw [ht] at this
    exact ⟨this.1, this.2.1⟩
  | timer_expiry => simp [relay_event_start] at h

/-- Every start time of a run lies at least the minimum interval after the start time
recorded when the run begins. -/
theorem relay_starts_after_last (evs : List relay_event) :
    ∀ r : relay_ctx, ∀ t ∈ relay_starts r evs,
      t - r.s_last_activation_time ≥ (r.s_config.min_interval_ms : Int) := by
  induction evs with
  | nil => intro r t ht; simp [relay_starts] at ht
  | cons e es ih =>
    intro r t ht
    simp only [relay_starts, List.mem_append] at ht
    have hcfg := relay_step_config r e
    cases hstart : relay_event_start r e with
    | none =>
      rw [hstart] at ht
      have hlast := relay_step_last_of_not_start r e hstart
      rcases ht with ht | ht
      · simp at ht
      · have := ih (relay_step r e) t ht
        rw [hcfg, hlast] at this
        exact this
    | some t0 =>
      rw [hstart] at ht
      obtain ⟨h0, hlast⟩ := relay_step_of_start r e t0 hstart
      rcases ht with ht | ht
      · have : t = t0 := by simpa using ht
        rw [this]; exact h0
      · have := ih (relay_step r e) t ht
        rw [hcfg, hlast] at this
        have hmin : (0 : Int) ≤ (r.s_config.min_interval_ms : Int) := Int.ofNat_nonneg _
        omega

/-- The start times of a run, oldest first, are pairwise at least the minimum interval
apart. -/
theorem relay_starts_pairwise (evs : List relay_event) :
    ∀ r : relay_ctx,
      List.Pairwise (fun t1 t2 => t2 - t1 ≥ (r.s_config.min_interval_ms : Int))
        (relay_starts r evs) := by
  induction evs with
  | nil => intro r; simp [relay_starts]
  | cons e es ih =>
    intro r
    simp only [relay_starts]
    have hcfg := relay_step_config r e
    have hrest := ih (relay_step r e)
    rw [hcfg] at hrest
    cases hstart : relay_event_start r e with
    | none => simpa using hrest
    | some t0 =>
      obtain ⟨_, hlast⟩ := relay_step_of_start r e t0 hstart
      have hafter := relay_starts_after_last es (relay_step r e)
      rw [hcfg, hlast] at hafter
      simp only [Option.toList, List.singleton_append, List.pairwise_cons]
      exact ⟨hafter, hrest⟩

/-- C6: on an initialised driver `relay_activate_pulse(d)` returns `ESP_ERR_INVALID_ARG`
exactly when `d = 0` or `d` exceeds `max_pulse_duration_ms`; for an admissible `d` it
returns `ESP_ERR_INVALID_STATE` exactly when a pulse is active or less than
`min_interval_ms` has passed since the recorded start; in the remaining case it returns
`ESP_OK`.  So the call succeeds exactly when `0 < d ≤ max`, the relay is idle and
`now - last_start ≥ min_interval_ms`. -/
theorem relay_activate_pulse_result (r : relay_ctx) (d : Nat) (time_us : Int)
    (hinit : r.s_initialized = true) :
    ((relay_activate_pulse r d time_us).1 = ESP_ERR_INVALID_ARG ↔
        (d = 0 ∨ d > r.s_config.max_pulse_duration_ms)) ∧
      (¬ (d = 0 ∨ d > r.s_config.max_pulse_duration_ms) →
        ((relay_activate_pulse r d time_us).1 = ESP_ERR_INVALID_STATE ↔
          (r.s_active = true ∨
            Int.tdiv time_us 1000 - r.s_last_activation_time <
              (r.s_config.min_interval_ms : Int)))) ∧
      (¬ (d = 0 ∨ d > r.s_config.max_pulse_duration_ms) →
        ¬ (r.s_active = true ∨
            Int.tdiv time_us 1000 - r.s_last_activation_time <
              (r.s_config.min_interval_ms : Int)) →
        (relay_activate_pulse r d time_us).1 = ESP_OK) ∧
      ((relay_activate_pulse r d time_us).1 = ESP_OK ↔
        (0 < d ∧ d ≤ r.s_config.max_pulse_duration_ms ∧ r.s_active = false ∧
          Int.tdiv time_us 1000 - r.s_last_activation_time ≥
            (r.s_config.min_interval_ms : Int))) := by
  rw [relay_activate_pulse_eq]
  simp only [hinit, Bool.not_true, Bool.false_eq_true, if_false]
  by_cases hd : d = 0 ∨ d > r.s_config.max_pulse_duration_ms
  · have hd' : (d == 0 || decide (d > r.s_config.max_pulse_duration_ms)) = true := by
      simpa using hd
    simp only [hd', if_true]
    refine ⟨by simp [hd], fun h => absurd hd h, fun h => absurd hd h, ?_⟩
    constructor
    · intro h; simp at h
    · rintro ⟨h1, h2, -, -⟩
      rcases hd with hd | hd <;> omega
  · have hd' : ¬ (d == 0 || decide (d > r.s_config.max_pulse_duration_ms)) = true := by
      simpa using hd
    simp only [hd', if_false]
    have hpos : 0 < d ∧ d ≤ r.s_config.max_pulse_duration_ms := by
      constructor <;> by_contra hc <;> apply hd <;> omega
    by_cases ha : r.s_active = true
    · simp [ha, hd]
    · have ha' : r.s_active = false := by simpa using ha
      by_cases ht : Int.tdiv time_us 1000 - r.s_last_activation_time <
          (r.s_config.min_interval_ms : Int)
      · simp [ha', ht, hd]
      · simp only [ha', Bool.false_eq_true, if_false, ht, false_or]
        refine ⟨by simp [hd], fun _ => by simp, fun _ _ => trivial, ?_⟩
        simp only [true_iff]
        exact ⟨hpos.1, hpos.2, trivial, not_lt.mp ht⟩

/-- C6 at a concrete input: default configuration, last start at 0, a 500 ms pulse requested
2000 ms after boot. -/
theorem relay_activate_pulse_result_witness :
    relay_ready.s_initialized = true ∧
      (relay_activate_pulse relay_ready 500 2000000).1 = ESP_OK ∧
      (relay_activate_pulse relay_ready 0 2000000).1 = ESP_ERR_INVALID_ARG ∧
      (relay_activate_pulse relay_ready 500 999999).1 = ESP_ERR_INVALID_STATE ∧
      ((relay_activate_pulse relay_ready 500 2000000).1 = ESP_OK ↔
        (0 < 500 ∧ 500 ≤ relay_ready.s_config.max_pulse_duration_ms ∧
          relay_ready.s_active = false ∧
          Int.tdiv 2000000 1000 - relay_ready.s_last_activation_time ≥
            (relay_ready.s_config.min_interval_ms : Int))) :=
  ⟨rfl, by decide, by decide, by decide,
    (relay_activate_pulse_result relay_ready 500 2000000 rfl).2.2.2⟩

/-- C7: for every sequence of `relay_activate` / `relay_activate_pulse` calls and pulse-timer
expiries under a fixed configuration, whatever the clock readings, the start times of the
successful activations (oldest first) are pairwise at least `min_interval_ms` apart; hence
any two of them with `t1 < t2` satisfy `t2 - t1 ≥ min_interval_ms`.  An event that is not a
successful activation leaves the recorded last-start time unchanged, and a successful one
records its own clock reading. -/
theorem relay_rate_limit (r : relay_ctx) (evs : List relay_event) :
    List.Pairwise (fun t1 t2 => t2 - t1 ≥ (r.s_config.min_interval_ms : Int))
        (relay_starts r evs) ∧
      (∀ t1 ∈ relay_starts r evs, ∀ t2 ∈ relay_starts r evs,
        t1 < t2 → t2 - t1 ≥ (r.s_config.min_interval_ms : Int)) ∧
      (∀ e : relay_event, relay_event_start r e = none →
        (relay_step r e).s_last_activation_time = r.s_last_activation_time) ∧
      (∀ (e : relay_event) (t : Int), relay_event_start r e = some t →
        (relay_step r e).s_last_activation_time = t) := by
  have hp := relay_starts_pairwise evs r
  refine ⟨hp, ?_, fun e h => relay_step_last_of_not_start r e h,
    fun e t h => (relay_step_of_start r e t h).2⟩
  have hmin : (0 : Int) ≤ (r.s_config.min_interval_ms : Int) := Int.ofNat_nonneg _
  have hsym : List.Pairwise
      (fun t1 t2 : Int =>
        (t1 < t2 → t2 - t1 ≥ (r.s_config.min_interval_ms : Int)) ∧
          (t2 < t1 → t1 - t2 ≥ (r.s_config.min_interval_ms : Int)))
      (relay_starts r evs) := by
    refine hp.imp ?_
    intro a b hab
    exact ⟨fun _ => hab, fun hlt => by omega⟩
  intro t1 h1 t2 h2 hlt
  have hall := List.Pairwise.forall_of_forall
    (fun x y (hxy : (x < y → y - x ≥ (r.s_config.min_interval_ms : Int)) ∧
        (y < x → x - y ≥ (r.s_config.min_interval_ms : Int))) => And.intro hxy.2 hxy.1)
    (fun x _ => ⟨fun h => absurd h (lt_irrefl x), fun h => absurd h (lt_irrefl x)⟩) hsym
  exact (hall h1 h2).1 hlt

/-- C7 at a concrete run with the default configuration: activations are requested at
2000 ms, 2400 ms (busy), 2700 ms (after the pulse ended, rate-limited) and 3000 ms; the
successful starts are 2000 and 3000. -/
theorem relay_rate_limit_witness :
    relay_starts relay_ready
        [relay_event.activate 2000000, relay_event.activate 2400000,
          relay_event.timer_expiry, relay_event.activate_pulse 300 2700000,
          relay_event.activate 3000000] = [2000, 3000] ∧
      ((2000 : Int) < 3000 → (3000 : Int) - 2000 ≥
        (relay_ready.s_config.min_interval_ms : Int)) :=
  ⟨by decide,
    (relay_rate_limit relay_ready
      [relay_event.activate 2000000, relay_event.activate 2400000,
        relay_event.timer_expiry, relay_event.activate_pulse 300 2700000,
        relay_event.activate 3000000]).2.1 2000 (by decide) 3000 (by decide)⟩

/-- C9: a call of `relay_activate_pulse` that returns an error (driver uninitialised,
invalid duration, pulse active, rate-limited) returns the driver state it was given:
output level, active flag, recorded start time and pulse timer are all as before. -/
theorem relay_error_leaves_state (r : relay_ctx) (d : Nat) (time_us : Int)
    (h : (relay_activate_pulse r d time_us).1 ≠ ESP_OK) :
    (relay_activate_pulse r d time_us).2 = r ∧
      (relay_activate_pulse r d time_us).2.gpio_level = r.gpio_level ∧
      (relay_activate_pulse r d time_us).2.s_active = r.s_active ∧
      (relay_activate_pulse r d time_us).2.s_last_activation_time =
        r.s_last_activation_time ∧
      (relay_activate_pulse r d time_us).2.s_pulse_timer = r.s_pulse_timer := by
  have := relay_activate_pulse_snd_of_ne_ok r d time_us h
  rw [this]
  exact ⟨rfl, rfl, rfl, rfl, rfl⟩

/-- C9 at a concrete input: a second request 400 ms into a 500 ms pulse is rejected and the
pending pulse keeps its timer. -/
theorem relay_error_leaves_state_witness :
    (relay_activate_pulse (relay_activate relay_ready 2000000).2 500 2400000).1 =
        ESP_ERR_INVALID_STATE ∧
      (relay_activate_pulse (relay_activate relay_ready 2000000).2 500 2400000).2 =
        (relay_activate relay_ready 2000000).2 :=
  ⟨by decide,
    (relay_error_leaves_state (relay_activate relay_ready 2000000).2 500 2400000
      (by decide)).1⟩

/-- C8, the failing input: with `max_pulse_duration_ms = 5000000` a pulse of
`4294968` ms is admitted, the output goes high and the flag is set, but the timer period
`duration_ms * 1000` wraps in 32 bits and the timer is armed for 704 microseconds instead
of 4294968000. -/
theorem relay_pulse_period_wraps :
    (relay_activate_pulse
        { relay_ready with
          s_config :=
            { pulse_duration_ms := 500, max_pulse_duration_ms := 5000000,
              min_interval_ms := 1000 } } 4294968 2000000).1 = ESP_OK ∧
      (relay_activate_pulse
        { relay_ready with
          s_config :=
            { pulse_duration_ms := 500, max_pulse_duration_ms := 5000000,
              min_interval_ms := 1000 } } 4294968 2000000).2.gpio_level = 1 ∧
      timer_period (relay_activate_pulse
        { relay_ready with
          s_config :=
            { pulse_duration_ms := 500, max_pulse_duration_ms := 5000000,
              min_interval_ms := 1000 } } 4294968 2000000).2.s_pulse_timer = some 704 ∧
      (704 : Nat) ≠ 4294968 * 1000 := by
  decide

/-- On an idle created timer a successful `relay_activate_pulse(d)` arms the pulse timer for
`d * 1000 % 2 ^ 32` microseconds, which is `d * 1000` as long as `d ≤ 4294967`. -/
theorem relay_activate_pulse_period (r : relay_ctx) (d : Nat) (time_us : Int)
    (h : (relay_activate_pulse r d time_us).1 = ESP_OK)
    (hidle : r.s_pulse_timer = some { armed := none }) :
    timer_period (relay_activate_pulse r d time_us).2.s_pulse_timer =
        some (d * 1000 % 2 ^ 32) ∧
      (d ≤ 4294967 →
        timer_period (relay_activate_pulse r d time_us).2.s_pulse_timer = some (d * 1000)) := by
  have hok := (relay_activate_pulse_ok r d time_us h).2.2.2.2.2
  rw [hok, hidle]
  refine ⟨rfl, fun hd => ?_⟩
  simp only [esp_timer_start_once, timer_period, Option.isSome_none, Bool.false_eq_true,
    if_false]
  congr 1
  exact Nat.mod_eq_of_lt (by norm_num; omega)

/-! ## Door controller: results -/

/-- The function `update_state` changes neither the relay nor the timeout timer nor the
reed sensor, and leaves the door state at its argument. -/
theorem update_state_frame (s : system) (new_state : door_state_t) :
    (update_state s new_state).relay = s.relay ∧
      (update_state s new_state).reed = s.reed ∧
      (update_state s new_state).door.s_timeout_timer = s.door.s_timeout_timer ∧
      (update_state s new_state).door.s_initialized = s.door.s_initialized ∧
      (update_state s new_state).door.s_timeout_ms = s.door.s_timeout_ms ∧
      (update_state s new_state).door.s_current_state = new_state := by
  by_cases h : s.door.s_current_state = new_state
  · have h' : ¬ s.door.s_current_state ≠ new_state := not_not.mpr h
    rw [update_state, if_neg h']
    exact ⟨rfl, rfl, rfl, rfl, rfl, h⟩
  · rw [update_state, if_pos h]
    exact ⟨rfl, rfl, rfl, rfl, rfl, rfl⟩

/-- After `esp_timer_stop` no one-shot is pending. -/
theorem esp_timer_stop_not_pending (timer : Option esp_timer) :
    timer_pending (esp_timer_stop timer).2 = false := by
  cases timer with
  | none => rfl
  | some t =>
    simp only [esp_timer_stop]
    split_ifs with h
    · rfl
    · simpa [timer_pending] using h

/-- After `esp_timer_start_once` on a created timer a one-shot is pending. -/
theorem esp_timer_start_once_pending (t : esp_timer) (timeout_us : Nat) :
    timer_pending (esp_timer_start_once (some t) timeout_us).2 = true := by
  simp only [esp_timer_start_once]
  split_ifs with h
  · simpa [timer_pending] using h
  · rfl

/-- The state guards of `garage_door_open` and `garage_door_close`: a call in a state the
guard rejects returns `ESP_ERR_INVALID_STATE` and the firmware state it was given. -/
theorem state_guard_rejects (s : system) (t_relay t_log : Int)
    (hinit : s.door.s_initialized = true) :
    ((s.door.s_current_state ≠ DOOR_STATE_CLOSED ∧
        s.door.s_current_state ≠ DOOR_STATE_STOPPED) →
      garage_door_open s t_relay t_log = (ESP_ERR_INVALID_STATE, s)) ∧
    ((s.door.s_current_state ≠ DOOR_STATE_OPEN ∧
        s.door.s_current_state ≠ DOOR_STATE_STOPPED) →
      garage_door_close s t_relay t_log = (ESP_ERR_INVALID_STATE, s)) := by
  constructor
  · intro h
    simp only [garage_door_open, hinit, Bool.not_true, Bool.false_eq_true, if_false]
    rw [if_pos h]
  · intro h
    simp only [garage_door_close, hinit, Bool.not_true, Bool.false_eq_true, if_false]
    rw [if_pos h]

/-- C1: on an initialised controller `open()` from a state other than `Closed` or `Stopped`
and `close()` from a state other than `Open` or `Stopped` return `ESP_ERR_INVALID_STATE`
and the whole firmware state (door state, store, relay, timeout timer, notifications) is
the one before the call. -/
theorem open_close_rejected_in_illegal_state (s : system) (t_relay t_log : Int)
    (hinit : s.door.s_initialized = true) :
    ((s.door.s_current_state ≠ DOOR_STATE_CLOSED ∧
        s.door.s_current_state ≠ DOOR_STATE_STOPPED) →
      garage_door_open s t_relay t_log = (ESP_ERR_INVALID_STATE, s)) ∧
    ((s.door.s_current_state ≠ DOOR_STATE_OPEN ∧
        s.door.s_current_state ≠ DOOR_STATE_STOPPED) →
      garage_door_close s t_relay t_log = (ESP_ERR_INVALID_STATE, s)) :=
  state_guard_rejects s t_relay t_log hinit

/-- C1 at concrete inputs: `open()` while `Opening` and `close()` while `Closing`. -/
theorem open_close_rejected_in_illegal_state_witness :
    garage_door_open (system_ready DOOR_STATE_OPENING) 2000000 2000000 =
        (ESP_ERR_INVALID_STATE, system_ready DOOR_STATE_OPENING) ∧
      garage_door_close (system_ready DOOR_STATE_CLOSING) 2000000 2000000 =
        (ESP_ERR_INVALID_STATE, system_ready DOOR_STATE_CLOSING) :=
  ⟨(open_close_rejected_in_illegal_state (system_ready DOOR_STATE_OPENING) 2000000 2000000
      rfl).1 (by decide),
    (open_close_rejected_in_illegal_state (system_ready DOOR_STATE_CLOSING) 2000000 2000000
      rfl).2 (by decide)⟩

/-- C3: when `open()` or `close()` passes its state guard on an initialised controller and
`relay_activate` fails with error `e` (which is `ESP_ERR_INVALID_ARG` or
`ESP_ERR_INVALID_STATE`), the call returns `e` and the whole firmware state is the one
before the call: door state, store, timeout timer, event log and notifications. -/
theorem open_close_relay_failure (s : system) (t_relay t_log : Int)
    (hinit : s.door.s_initialized = true)
    (hfail : (relay_activate s.relay t_relay).1 ≠ ESP_OK) :
    ((s.door.s_current_state = DOOR_STATE_CLOSED ∨
        s.door.s_current_state = DOOR_STATE_STOPPED) →
      garage_door_open s t_relay t_log = ((relay_activate s.relay t_relay).1, s)) ∧
    ((s.door.s_current_state = DOOR_STATE_OPEN ∨
        s.door.s_current_state = DOOR_STATE_STOPPED) →
      garage_door_close s t_relay t_log = ((relay_activate s.relay t_relay).1, s)) ∧
    ((relay_activate s.relay t_relay).1 = ESP_ERR_INVALID_ARG ∨
      (relay_activate s.relay t_relay).1 = ESP_ERR_INVALID_STATE) := by
  have hsame : (relay_activate s.relay t_relay).2 = s.relay :=
    relay_activate_pulse_snd_of_ne_ok s.relay _ t_relay hfail
  refine ⟨?_, ?_, ?_⟩
  · intro h
    have hg : ¬ (s.door.s_current_state ≠ DOOR_STATE_CLOSED ∧
        s.door.s_current_state ≠ DOOR_STATE_STOPPED) := by
      rcases h with h | h <;> simp [h]
    simp only [garage_door_open, hinit, Bool.not_true, Bool.false_eq_true, if_false]
    rw [if_neg hg, if_pos hfail, hsame]
  · intro h
    have hg : ¬ (s.door.s_current_state ≠ DOOR_STATE_OPEN ∧
        s.door.s_current_state ≠ DOOR_STATE_STOPPED) := by
      rcases h with h | h <;> simp [h]
    simp only [garage_door_close, hinit, Bool.not_true, Bool.false_eq_true, if_false]
    rw [if_neg hg, if_pos hfail, hsame]
  · rcases relay_activate_pulse_codes s.relay s.relay.s_config.pulse_duration_ms t_relay
      with h | h | h
    · exact absurd h hfail
    · exact Or.inl h
    · exact Or.inr h

/-- C3 at a concrete input: `open()` from `Closed` 500 ms after boot, when the relay is
still rate-limited. -/
theorem open_close_relay_failure_witness :
    garage_door_open (system_ready DOOR_STATE_CLOSED) 500000 500000 =
        (ESP_ERR_INVALID_STATE, system_ready DOOR_STATE_CLOSED) ∧
      garage_door_close (system_ready DOOR_STATE_OPEN) 500000 500000 =
        (ESP_ERR_INVALID_STATE, system_ready DOOR_STATE_OPEN) :=
  ⟨(open_close_relay_failure (system_ready DOOR_STATE_CLOSED) 500000 500000 rfl
      (by decide)).1 (by decide),
    (open_close_relay_failure (system_ready DOOR_STATE_OPEN) 500000 500000 rfl
      (by decide)).2.1 (by decide)⟩

/-- On an initialised store whose writes succeed `storage_save_door_state` puts the value
under `door_state` and changes nothing else. -/
theorem storage_save_door_state_ok (st : storage_ctx) (state : Nat)
    (hst : st.s_initialized = true) (hset : st.nvs.set_err = ESP_OK) :
    (storage_save_door_state st state).2 =
      { st with
        nvs :=
          { st.nvs with
            u32 := fun k => if k = KEY_DOOR_STATE then some state else st.nvs.u32 k } } := by
  simp [storage_save_door_state, nvs_set_u32, nvs_commit, hst, hset]

/-- On an initialised store whose writes succeed `storage_log_event` writes the entry to
the slot named by the counter and advances the counter. -/
theorem storage_log_event_ok (st : storage_ctx) (type : event_type_t) (value : Int)
    (time_us : Int) (hst : st.s_initialized = true) (hset : st.nvs.set_err = ESP_OK) :
    (storage_log_event st type value time_us).2 =
      { st with
        nvs :=
          { st.nvs with
            blob := fun k =>
              if k = evt (((nvs_get_u32 st.nvs KEY_EVENT_COUNT).2).getD 0) then
                some { type := type, timestamp := log_timestamp time_us, value := value }
              else st.nvs.blob k
            u32 := fun k =>
              if k = KEY_EVENT_COUNT then
                some ((((nvs_get_u32 st.nvs KEY_EVENT_COUNT).2).getD 0 + 1) % 2 ^ 32 %
                  MAX_EVENT_LOGS)
              else st.nvs.u32 k } } := by
  simp [storage_log_event, nvs_set_u32, nvs_set_blob, nvs_commit, hst, hset]

/-- The tail of `garage_door_open` / `garage_door_close` after a successful relay
activation establishes `movement_begun`. -/
theorem movement_begun_of_tail (s : system) (new_state : door_state_t) (type : event_type_t)
    (t_relay t_log : Int) (hne : s.door.s_current_state ≠ new_state)
    (htimer : s.door.s_timeout_timer.isSome = true)
    (hst : s.storage.s_initialized = true) (hset : s.storage.nvs.set_err = ESP_OK) :
    movement_begun s
      { door :=
          { (update_state { s with relay := (relay_activate s.relay t_relay).2 }
                new_state).door with
            s_timeout_timer :=
              (esp_timer_start_once
                (update_state { s with relay := (relay_activate s.relay t_relay).2 }
                  new_state).door.s_timeout_timer
                ((update_state { s with relay := (relay_activate s.relay t_relay).2 }
                  new_state).door.s_timeout_ms * 1000 % 2 ^ 32)).2 }
        relay :=
          (update_state { s with relay := (relay_activate s.relay t_relay).2 } new_state).relay
        reed :=
          (update_state { s with relay := (relay_activate s.relay t_relay).2 } new_state).reed
        storage :=
          (storage_log_event
            (update_state { s with relay := (relay_activate s.relay t_relay).2 }
              new_state).storage type 0 t_log).2 }
      new_state type t_relay t_log := by
  obtain ⟨t, ht⟩ := Option.isSome_iff_exists.mp htimer
  have hupd : update_state { s with relay := (relay_activate s.relay t_relay).2 } new_state =
      { s with
        relay := (relay_activate s.relay t_relay).2
        door :=
          { s.door with
            s_current_state := new_state
            notified :=
              if s.door.s_state_callback then s.door.notified ++ [new_state]
              else s.door.notified }
        storage := (storage_save_door_state s.storage new_state).2 } := by
    rw [update_state, if_pos hne]
  have hstor : (update_state { s with relay := (relay_activate s.relay t_relay).2 }
      new_state).storage =
      { s.storage with
        nvs :=
          { s.storage.nvs with
            u32 := fun k => if k = KEY_DOOR_STATE then some new_state
              else s.storage.nvs.u32 k } } := by
    rw [hupd]
    exact storage_save_door_state_ok s.storage new_state hst hset
  have hst1 : (update_state { s with relay := (relay_activate s.relay t_relay).2 }
      new_state).storage.s_initialized = true := by rw [hstor]; exact hst
  have hset1 : (update_state { s with relay := (relay_activate s.relay t_relay).2 }
      new_state).storage.nvs.set_err = ESP_OK := by rw [hstor]; exact hset
  have hlog := storage_log_event_ok _ type 0 t_log hst1 hset1
  have hcount : ∀ n : nvs_t, n.get_err = s.storage.nvs.get_err →
      n.u32 KEY_EVENT_COUNT = s.storage.nvs.u32 KEY_EVENT_COUNT →
      (nvs_get_u32 n KEY_EVENT_COUNT).2 = (nvs_get_u32 s.storage.nvs KEY_EVENT_COUNT).2 := by
    intro n h1 h2
    simp only [nvs_get_u32, h1, h2]
  have hc := hcount (update_state { s with relay := (relay_activate s.relay t_relay).2 }
      new_state).storage.nvs (by rw [hstor]) (by rw [hstor]; simp)
  rw [hc] at hlog
  unfold movement_begun
  dsimp only
  rw [hlog, hstor]
  dsimp only
  refine ⟨?_, ?_, ?_, ?_, ?_, ?_, ?_, ?_⟩
  · rw [hupd]
  · simp
  · rw [hupd]
  · rw [hupd]
    dsimp only
    rw [ht]
    exact esp_timer_start_once_pending t _
  · rw [hupd]
  · simp
  · intro k hk
    rw [if_neg hk]
  · simp

/-- C2: on an initialised controller (timeout timer created) over an initialised store
whose writes succeed, when `relay_activate` succeeds: `open()` from `Closed` or `Stopped`
returns `ESP_OK`, the state becomes `Opening`, is stored under `door_state` and notified
to the registered subscriber, a one-shot of the operation timeout is pending and exactly one
`DoorOpen` entry is appended to the event log; `close()` from `Open` or `Stopped` does the
same with `Closing` and a `DoorClosed` entry. -/
theorem open_close_begin_movement (s : system) (t_relay t_log : Int)
    (hinit : s.door.s_initialized = true)
    (htimer : s.door.s_timeout_timer.isSome = true)
    (hrelay : (relay_activate s.relay t_relay).1 = ESP_OK)
    (hst : s.storage.s_initialized = true) (hset : s.storage.nvs.set_err = ESP_OK) :
    ((s.door.s_current_state = DOOR_STATE_CLOSED ∨
        s.door.s_current_state = DOOR_STATE_STOPPED) →
      (garage_door_open s t_relay t_log).1 = ESP_OK ∧
        movement_begun s (garage_door_open s t_relay t_log).2 DOOR_STATE_OPENING
          EVENT_TYPE_DOOR_OPEN t_relay t_log) ∧
    ((s.door.s_current_state = DOOR_STATE_OPEN ∨
        s.door.s_current_state = DOOR_STATE_STOPPED) →
      (garage_door_close s t_relay t_log).1 = ESP_OK ∧
        movement_begun s (garage_door_close s t_relay t_log).2 DOOR_STATE_CLOSING
          EVENT_TYPE_DOOR_CLOSED t_relay t_log) := by
  have hok : ¬ (relay_activate s.relay t_relay).1 ≠ ESP_OK := not_not.mpr hrelay
  constructor
  · intro h
    have hg : ¬ (s.door.s_current_state ≠ DOOR_STATE_CLOSED ∧
        s.door.s_current_state ≠ DOOR_STATE_STOPPED) := by
      rcases h with h | h <;> simp [h]
    have hne : s.door.s_current_state ≠ DOOR_STATE_OPENING := by
      rcases h with h | h <;> rw [h] <;> decide
    simp only [garage_door_open, hinit, Bool.not_true, Bool.false_eq_true, if_false]
    rw [if_neg hg, if_neg hok]
    exact ⟨rfl, movement_begun_of_tail s DOOR_STATE_OPENING EVENT_TYPE_DOOR_OPEN t_relay t_log
      hne htimer hst hset⟩
  · intro h
    have hg : ¬ (s.door.s_current_state ≠ DOOR_STATE_OPEN ∧
        s.door.s_current_state ≠ DOOR_STATE_STOPPED) := by
      rcases h with h | h <;> simp [h]
    have hne : s.door.s_current_state ≠ DOOR_STATE_CLOSING := by
      rcases h with h | h <;> rw [h] <;> decide
    simp only [garage_door_close, hinit, Bool.not_true, Bool.false_eq_true, if_false]
    rw [if_neg hg, if_neg hok]
    exact ⟨rfl, movement_begun_of_tail s DOOR_STATE_CLOSING EVENT_TYPE_DOOR_CLOSED t_relay
      t_log hne htimer hst hset⟩

/-- C2 at concrete inputs: `open()` from `Closed` and `close()` from `Open`, 2000 ms after
boot, on the initialised firmware with the default configuration. -/
theorem open_close_begin_movement_witness :
    ((garage_door_open (system_ready DOOR_STATE_CLOSED) 2000000 2000000).1 = ESP_OK ∧
        movement_begun (system_ready DOOR_STATE_CLOSED)
          (garage_door_open (system_ready DOOR_STATE_CLOSED) 2000000 2000000).2
          DOOR_STATE_OPENING EVENT_TYPE_DOOR_OPEN 2000000 2000000) ∧
      ((garage_door_close (system_ready DOOR_STATE_OPEN) 2000000 2000000).1 = ESP_OK ∧
        movement_begun (system_ready DOOR_STATE_OPEN)
          (garage_door_close (system_ready DOOR_STATE_OPEN) 2000000 2000000).2
          DOOR_STATE_CLOSING EVENT_TYPE_DOOR_CLOSED 2000000 2000000) :=
  ⟨(open_close_begin_movement (system_ready DOOR_STATE_CLOSED) 2000000 2000000 rfl rfl
      (by decide) rfl rfl).1 (by decide),
    (open_close_begin_movement (system_ready DOOR_STATE_OPEN) 2000000 2000000 rfl rfl
      (by decide) rfl rfl).2 (by decide)⟩

/-- The body of `garage_door_stop` on an initialised controller outside `Closed` and
`Open`: the state is `Stopped`, no one-shot of the timeout timer is pending, the relay is
untouched. -/
theorem garage_door_stop_moving (s : system) (hinit : s.door.s_initialized = true)
    (h : ¬ (s.door.s_current_state = DOOR_STATE_CLOSED ∨
      s.door.s_current_state = DOOR_STATE_OPEN)) :
    (garage_door_stop s).1 = ESP_OK ∧
      (garage_door_stop s).2.door.s_current_state = DOOR_STATE_STOPPED ∧
      timer_pending (garage_door_stop s).2.door.s_timeout_timer = false ∧
      (garage_door_stop s).2.relay = s.relay := by
  obtain ⟨hrelay, -, htimer, -, -, hstate⟩ := update_state_frame s DOOR_STATE_STOPPED
  simp only [garage_door_stop, hinit, Bool.not_true, Bool.false_eq_true, if_false]
  rw [if_neg h]
  split_ifs with hsome
  · exact ⟨rfl, hstate, esp_timer_stop_not_pending _, hrelay⟩
  · refine ⟨rfl, hstate, ?_, hrelay⟩
    cases hnone : (update_state s DOOR_STATE_STOPPED).door.s_timeout_timer with
    | none => rfl
    | some t => rw [hnone] at hsome; simp at hsome

/-- C4: on an initialised controller `stop()` always returns `ESP_OK`; from `Closed` or
`Open` the whole firmware state is the one before the call; from `Opening` or `Closing` the
state becomes `Stopped` and no one-shot of the operation timeout is pending afterwards; in
every case the relay driver state is the one before the call. -/
theorem stop_result (s : system) (hinit : s.door.s_initialized = true) :
    (garage_door_stop s).1 = ESP_OK ∧
      ((s.door.s_current_state = DOOR_STATE_CLOSED ∨
          s.door.s_current_state = DOOR_STATE_OPEN) →
        garage_door_stop s = (ESP_OK, s)) ∧
      ((s.door.s_current_state = DOOR_STATE_OPENING ∨
          s.door.s_current_state = DOOR_STATE_CLOSING) →
        (garage_door_stop s).2.door.s_current_state = DOOR_STATE_STOPPED ∧
          timer_pending (garage_door_stop s).2.door.s_timeout_timer = false) ∧
      (garage_door_stop s).2.relay = s.relay := by
  have hterm : (s.door.s_current_state = DOOR_STATE_CLOSED ∨
      s.door.s_current_state = DOOR_STATE_OPEN) → garage_door_stop s = (ESP_OK, s) := by
    intro h
    simp only [garage_door_stop, hinit, Bool.not_true, Bool.false_eq_true, if_false]
    rw [if_pos h]
  by_cases h : s.door.s_current_state = DOOR_STATE_CLOSED ∨
      s.door.s_current_state = DOOR_STATE_OPEN
  · refine ⟨by rw [hterm h], hterm, ?_, by rw [hterm h]⟩
    intro hm
    exfalso
    rcases h with h | h <;> rcases hm with hm | hm <;> rw [h] at hm <;>
      exact absurd hm (by decide)
  · obtain ⟨h1, h2, h3, h4⟩ := garage_door_stop_moving s hinit h
    exact ⟨h1, hterm, fun _ => ⟨h2, h3⟩, h4⟩

/-- C4 at concrete inputs: `stop()` on a closed door, and `stop()` during the opening that
`open()` started. -/
theorem stop_result_witness :
    garage_door_stop (system_ready DOOR_STATE_CLOSED) =
        (ESP_OK, system_ready DOOR_STATE_CLOSED) ∧
      ((garage_door_stop
          (garage_door_open (system_ready DOOR_STATE_CLOSED) 2000000 2000000).2).2.door.s_current_state
            = DOOR_STATE_STOPPED ∧
        timer_pending (garage_door_stop
          (garage_door_open (system_ready DOOR_STATE_CLOSED) 2000000
            2000000).2).2.door.s_timeout_timer = false) :=
  ⟨(stop_result (system_ready DOOR_STATE_CLOSED) rfl).2.1 (by decide),
    (stop_result (garage_door_open (system_ready DOOR_STATE_CLOSED) 2000000 2000000).2
      rfl).2.2.1 (by decide)⟩

/-- C5 as stated fails: on the initialised controller in state `Unknown` (what a first boot
over an empty store yields) `stop()` returns `ESP_OK` and the state becomes `Stopped`, which
is neither the state before nor a successor the table admits for `stop()` from
`Unknown`. -/
theorem stop_from_unknown_leaves_table :
    (system_ready DOOR_STATE_UNKNOWN).door.s_initialized = true ∧
      (system_ready DOOR_STATE_UNKNOWN).door.s_current_state = DOOR_STATE_UNKNOWN ∧
      (door_call_run (system_ready DOOR_STATE_UNKNOWN) door_call.stop_call 0 0).1 = ESP_OK ∧
      (door_call_run (system_ready DOOR_STATE_UNKNOWN) door_call.stop_call 0
        0).2.door.s_current_state = DOOR_STATE_STOPPED ∧
      ¬ ((door_call_run (system_ready DOOR_STATE_UNKNOWN) door_call.stop_call 0
            0).2.door.s_current_state =
          (system_ready DOOR_STATE_UNKNOWN).door.s_current_state ∨
        spec_table_row (system_ready DOOR_STATE_UNKNOWN).door.s_current_state
          door_call.stop_call
          (door_call_run (system_ready DOOR_STATE_UNKNOWN) door_call.stop_call 0
            0).2.door.s_current_state) := by
  refine ⟨rfl, rfl, rfl, rfl, ?_⟩
  have h1 : (door_call_run (system_ready DOOR_STATE_UNKNOWN) door_call.stop_call 0
      0).2.door.s_current_state = DOOR_STATE_STOPPED := rfl
  have h2 : (system_ready DOOR_STATE_UNKNOWN).door.s_current_state = DOOR_STATE_UNKNOWN := rfl
  rw [h1, h2]
  simp [spec_table_row, DOOR_STATE_STOPPED, DOOR_STATE_UNKNOWN, DOOR_STATE_OPENING,
    DOOR_STATE_CLOSING]

/-- C5, amended: for each of the six door states and each of `open()`, `close()`, `stop()`,
whatever the relay answers, the state after the call is the state before or a successor
admitted by the table extended with the row (`Unknown`, `stop()`, `Stopped`); a call with
no row in the extended table for the current state leaves the state unchanged. -/
theorem transition_legality (s : system) (c : door_call) (t_relay t_log : Int)
    (hs : s.door.s_current_state ≤ 5) :
    ((door_call_run s c t_relay t_log).2.door.s_current_state = s.door.s_current_state ∨
        code_table_row s.door.s_current_state c
          (door_call_run s c t_relay t_log).2.door.s_current_state) ∧
      ((¬ ∃ s' : door_state_t, code_table_row s.door.s_current_state c s') →
        (door_call_run s c t_relay t_log).2.door.s_current_state =
          s.door.s_current_state) := by
  have key : (door_call_run s c t_relay t_log).2.door.s_current_state =
        s.door.s_current_state ∨
      code_table_row s.door.s_current_state c
        (door_call_run s c t_relay t_log).2.door.s_current_state := by
    by_cases hinit : s.door.s_initialized = true
    swap
    · have hinit' : s.door.s_initialized = false := by simpa using hinit
      left
      cases c <;>
        simp [door_call_run, garage_door_open, garage_door_close, garage_door_stop, hinit']
    cases c with
    | open_call =>
      simp only [door_call_run]
      by_cases hg : s.door.s_current_state ≠ DOOR_STATE_CLOSED ∧
          s.door.s_current_state ≠ DOOR_STATE_STOPPED
      · left
        rw [(state_guard_rejects s t_relay t_log hinit).1 hg]
      · have hg' : s.door.s_current_state = DOOR_STATE_CLOSED ∨
            s.door.s_current_state = DOOR_STATE_STOPPED := by
          by_contra hc
          exact hg ⟨fun h => hc (Or.inl h), fun h => hc (Or.inr h)⟩
        by_cases hok : (relay_activate s.relay t_relay).1 = ESP_OK
        · right
          left
          simp only [garage_door_open, hinit, Bool.not_true, Bool.false_eq_true, if_false]
          rw [if_neg hg, if_neg (not_not.mpr hok)]
          exact ⟨hg', (update_state_frame _ DOOR_STATE_OPENING).2.2.2.2.2⟩
        · left
          simp only [garage_door_open, hinit, Bool.not_true, Bool.false_eq_true, if_false]
          rw [if_neg hg, if_pos hok]
    | close_call =>
      simp only [door_call_run]
      by_cases hg : s.door.s_current_state ≠ DOOR_STATE_OPEN ∧
          s.door.s_current_state ≠ DOOR_STATE_STOPPED
      · left
        rw [(state_guard_rejects s t_relay t_log hinit).2 hg]
      · have hg' : s.door.s_current_state = DOOR_STATE_OPEN ∨
            s.door.s_current_state = DOOR_STATE_STOPPED := by
          by_contra hc
          exact hg ⟨fun h => hc (Or.inl h), fun h => hc (Or.inr h)⟩
        by_cases hok : (relay_activate s.relay t_relay).1 = ESP_OK
        · right
          left
          simp only [garage_door_close, hinit, Bool.not_true, Bool.false_eq_true, if_false]
          rw [if_neg hg, if_neg (not_not.mpr hok)]
          exact ⟨hg', (update_state_frame _ DOOR_STATE_CLOSING).2.2.2.2.2⟩
        · left
          simp only [garage_door_close, hinit, Bool.not_true, Bool.false_eq_true, if_false]
          rw [if_neg hg, if_pos hok]
    | stop_call =>
      simp only [door_call_run]
      by_cases hg : s.door.s_current_state = DOOR_STATE_CLOSED ∨
          s.door.s_current_state = DOOR_STATE_OPEN
      · left
        simp only [garage_door_stop, hinit, Bool.not_true, Bool.false_eq_true, if_false]
        rw [if_pos hg]
      · have hstop := (garage_door_stop_moving s hinit hg).2.1
        rw [hstop]
        simp only [code_table_row, spec_table_row, DOOR_STATE_CLOSED, DOOR_STATE_OPEN,
          DOOR_STATE_OPENING, DOOR_STATE_CLOSING, DOOR_STATE_STOPPED, DOOR_STATE_UNKNOWN,
          and_true, true_and] at hg ⊢
        have harith : ∀ n : Nat, n ≤ 5 → ¬ (n = 0 ∨ n = 2) →
            (4 = n ∨ (n = 1 ∨ n = 3) ∨ n = 5) := by
          intro n h1 h2
          omega
        exact harith _ hs hg
  refine ⟨key, fun hno => ?_⟩
  rcases key with h | h
  · exact h
  · exact absurd ⟨_, h⟩ hno

/-- C5 amended, at concrete inputs: `stop()` from `Unknown` takes the added row, `open()`
from `Opening` has no row and keeps the state. -/
theorem transition_legality_witness :
    code_table_row DOOR_STATE_UNKNOWN door_call.stop_call
        (door_call_run (system_ready DOOR_STATE_UNKNOWN) door_call.stop_call 0
          0).2.door.s_current_state ∧
      (door_call_run (system_ready DOOR_STATE_OPENING) door_call.open_call 2000000
        2000000).2.door.s_current_state = DOOR_STATE_OPENING := by
  refine ⟨Or.inr ⟨rfl, rfl, rfl⟩, ?_⟩
  refine (transition_legality (system_ready DOOR_STATE_OPENING) door_call.open_call 2000000
    2000000 (by decide)).2 ?_
  rintro ⟨s', h⟩
  have hst : (system_ready DOOR_STATE_OPENING).door.s_current_state = DOOR_STATE_OPENING := rfl
  rw [hst] at h
  simp [code_table_row, spec_table_row, DOOR_STATE_OPENING, DOOR_STATE_CLOSED,
    DOOR_STATE_STOPPED] at h

/-- C10, the failing run: from the initialised controller in state `Closed`, `open()`
succeeds and arms the operation timeout; the reed-sensor callback then reports `Open` and
the state becomes `Open`, yet the one-shot of the timeout timer is still pending.  When it
later expires it logs a `Timeout` entry with value 2 (`Open`) and moves the door state from
`Open` to `Stopped`. -/
theorem timeout_stays_armed_after_reed_open :
    (system_ready DOOR_STATE_CLOSED).door.s_initialized = true ∧
      (door_run (system_ready DOOR_STATE_CLOSED)
        [door_event.call door_call.open_call 2000000 2000000]).door.s_current_state =
          DOOR_STATE_OPENING ∧
      (door_run (system_ready DOOR_STATE_CLOSED)
        [door_event.call door_call.open_call 2000000 2000000,
          door_event.reed DOOR_POSITION_OPEN]).door.s_current_state = DOOR_STATE_OPEN ∧
      timer_pending (door_run (system_ready DOOR_STATE_CLOSED)
        [door_event.call door_call.open_call 2000000 2000000,
          door_event.reed DOOR_POSITION_OPEN]).door.s_timeout_timer = true ∧
      (door_run (system_ready DOOR_STATE_CLOSED)
        [door_event.call door_call.open_call 2000000 2000000,
          door_event.reed DOOR_POSITION_OPEN,
          door_event.timeout 32000000]).door.s_current_state = DOOR_STATE_STOPPED ∧
      (door_run (system_ready DOOR_STATE_CLOSED)
        [door_event.call door_call.open_call 2000000 2000000,
          door_event.reed DOOR_POSITION_OPEN,
          door_event.timeout 32000000]).storage.nvs.blob (evt 1) =
        some { type := EVENT_TYPE_TIMEOUT, timestamp := 32000, value := 2 } := by
  refine ⟨rfl, ?_, ?_, ?_, ?_, ?_⟩ <;> decide

/-! ## Door state updates, initialisation and timeout configuration -/

/-- In every failure mode `storage_save_door_state` keeps the event log, every `u32` entry
other than `door_state`, the failure mode and the initialisation flag. -/
theorem storage_save_door_state_frame (st : storage_ctx) (state : Nat) :
    (storage_save_door_state st state).2.nvs.blob = st.nvs.blob ∧
      (∀ k : nvs_key, k ≠ KEY_DOOR_STATE →
        (storage_save_door_state st state).2.nvs.u32 k = st.nvs.u32 k) ∧
      (storage_save_door_state st state).2.nvs.get_err = st.nvs.get_err ∧
      (storage_save_door_state st state).2.nvs.set_err = st.nvs.set_err ∧
      (storage_save_door_state st state).2.s_initialized = st.s_initialized := by
  unfold storage_save_door_state nvs_set_u32 nvs_commit
  by_cases h1 : st.s_initialized = true
  · by_cases h2 : st.nvs.set_err = ESP_OK
    · simp only [h1, h2]
      refine ⟨rfl, fun k hk => ?_, rfl, rfl, rfl⟩
      simp [hk]
    · simp [h1, h2]
  · simp [h1]

/-- The function `update_state` called with the current state returns its argument. -/
theorem update_state_same (s : system) (new_state : door_state_t)
    (h : s.door.s_current_state = new_state) : update_state s new_state = s := by
  rw [update_state, if_neg (not_not.mpr h)]

/-- The function `update_state` called with a different state. -/
theorem update_state_changed (s : system) (new_state : door_state_t)
    (h : s.door.s_current_state ≠ new_state) :
    update_state s new_state =
      { s with
        door :=
          { s.door with
            s_current_state := new_state
            notified :=
              if s.door.s_state_callback then s.door.notified ++ [new_state]
              else s.door.notified }
        storage := (storage_save_door_state s.storage new_state).2 } := by
  rw [update_state, if_pos h]

/-- The function `update_state` never touches the event log. -/
theorem update_state_log_unchanged (s : system) (new_state : door_state_t) :
    log_unchanged s.storage.nvs (update_state s new_state).storage.nvs := by
  by_cases h : s.door.s_current_state = new_state
  · rw [update_state_same s new_state h]
    exact ⟨rfl, rfl⟩
  · rw [update_state_changed s new_state h]
    obtain ⟨hb, hu, -, -, -⟩ := storage_save_door_state_frame s.storage new_state
    exact ⟨hb, hu KEY_EVENT_COUNT (by decide)⟩

/-- C13: `update_state(new)` with current state `old`.  If `old ≠ new` the in-memory state
becomes `new`, the store is what `storage_save_door_state(new)` leaves (on an initialised
store whose writes succeed it holds the code of `new` under `door_state`), and the
subscriber, if one is registered, receives exactly one more notification, `new`.  If
`old = new` nothing changes at all.  The codes are 0..5 in the order `Closed`, `Opening`,
`Open`, `Closing`, `Stopped`, `Unknown`. -/
theorem update_state_effect (s : system) (new_state : door_state_t) :
    (s.door.s_current_state ≠ new_state →
      (update_state s new_state).door.s_current_state = new_state ∧
        (update_state s new_state).storage =
          (storage_save_door_state s.storage new_state).2 ∧
        (s.storage.s_initialized = true → s.storage.nvs.set_err = ESP_OK →
          (update_state s new_state).storage.nvs.u32 KEY_DOOR_STATE = some new_state) ∧
        (update_state s new_state).door.notified =
          (if s.door.s_state_callback then s.door.notified ++ [new_state]
            else s.door.notified)) ∧
      (s.door.s_current_state = new_state → update_state s new_state = s) ∧
      (DOOR_STATE_CLOSED = 0 ∧ DOOR_STATE_OPENING = 1 ∧ DOOR_STATE_OPEN = 2 ∧
        DOOR_STATE_CLOSING = 3 ∧ DOOR_STATE_STOPPED = 4 ∧ DOOR_STATE_UNKNOWN = 5) := by
  refine ⟨fun h => ?_, update_state_same s new_state, ⟨rfl, rfl, rfl, rfl, rfl, rfl⟩⟩
  rw [update_state_changed s new_state h]
  refine ⟨rfl, rfl, fun hst hset => ?_, rfl⟩
  dsimp only
  rw [storage_save_door_state_ok s.storage new_state hst hset]
  simp

/-- C13 at concrete inputs: `update_state(Open)` on the initialised firmware in state
`Opening`, and `update_state(Open)` again on the result. -/
theorem update_state_effect_witness :
    ((update_state (system_ready DOOR_STATE_OPENING) DOOR_STATE_OPEN).door.s_current_state =
        DOOR_STATE_OPEN ∧
      (update_state (system_ready DOOR_STATE_OPENING) DOOR_STATE_OPEN).storage.nvs.u32
        KEY_DOOR_STATE = some DOOR_STATE_OPEN ∧
      (update_state (system_ready DOOR_STATE_OPENING) DOOR_STATE_OPEN).door.notified =
        [DOOR_STATE_OPEN]) ∧
      update_state (update_state (system_ready DOOR_STATE_OPENING) DOOR_STATE_OPEN)
          DOOR_STATE_OPEN =
        update_state (system_ready DOOR_STATE_OPENING) DOOR_STATE_OPEN :=
  ⟨⟨((update_state_effect (system_ready DOOR_STATE_OPENING) DOOR_STATE_OPEN).1
        (by decide)).1,
      ((update_state_effect (system_ready DOOR_STATE_OPENING) DOOR_STATE_OPEN).1
        (by decide)).2.2.1 rfl rfl,
      ((update_state_effect (system_ready DOOR_STATE_OPENING) DOOR_STATE_OPEN).1
        (by decide)).2.2.2⟩,
    (update_state_effect (update_state (system_ready DOOR_STATE_OPENING) DOOR_STATE_OPEN)
      DOOR_STATE_OPEN).2.1 (by decide)⟩

/-- C20: `set_timeout(ms)` returns `ESP_ERR_INVALID_ARG` exactly when `ms < 1000`, and then
the whole firmware state, the configured timeout included, is unchanged; otherwise it
returns `ESP_OK` and the configured timeout becomes `ms`.  The door state is never
changed. -/
theorem set_timeout_result (s : system) (ms : Nat) :
    ((garage_door_set_timeout s ms).1 = ESP_ERR_INVALID_ARG ↔ ms < 1000) ∧
      (ms < 1000 → garage_door_set_timeout s ms = (ESP_ERR_INVALID_ARG, s)) ∧
      (¬ ms < 1000 →
        (garage_door_set_timeout s ms).1 = ESP_OK ∧
          (garage_door_set_timeout s ms).2.door.s_timeout_ms = ms) ∧
      (garage_door_set_timeout s ms).2.door.s_current_state = s.door.s_current_state := by
  unfold garage_door_set_timeout
  by_cases h : ms < 1000
  · simp [h]
  · simp [h]

/-- C20 at concrete inputs: 999 ms is rejected, 1000 ms is accepted. -/
theorem set_timeout_result_witness :
    garage_door_set_timeout (system_ready DOOR_STATE_CLOSED) 999 =
        (ESP_ERR_INVALID_ARG, system_ready DOOR_STATE_CLOSED) ∧
      ((garage_door_set_timeout (system_ready DOOR_STATE_CLOSED) 1000).1 = ESP_OK ∧
        (garage_door_set_timeout (system_ready DOOR_STATE_CLOSED) 1000).2.door.s_timeout_ms =
          1000) :=
  ⟨(set_timeout_result (system_ready DOOR_STATE_CLOSED) 999).2.1 (by decide),
    (set_timeout_result (system_ready DOOR_STATE_CLOSED) 1000).2.2.1 (by decide)⟩

/-- The state that `garage_door_init` sets once the mutex exists, whatever happens to the
timer and the task afterwards. -/
theorem garage_door_init_state_eq (s : system) (timer_create_ret : esp_err_t)
    (task_created : Bool) (hun : s.door.s_initialized = false) :
    (garage_door_init s true timer_create_ret task_created).2.door.s_current_state =
      if (storage_load_door_state s.storage).1 = ESP_OK then
        (storage_load_door_state s.storage).2.getD s.door.s_current_state
      else if reed_switch_get_position s.reed = DOOR_POSITION_CLOSED then DOOR_STATE_CLOSED
      else if reed_switch_get_position s.reed = DOOR_POSITION_OPEN then DOOR_STATE_OPEN
      else DOOR_STATE_UNKNOWN := by
  simp only [garage_door_init, hun, Bool.false_eq_true, if_false, Bool.not_true]
  by_cases h1 : timer_create_ret = ESP_OK
  · cases task_created <;> simp [h1]
  · simp [h1]

/-- A successful `storage_load_door_state` has written a value to its out parameter. -/
theorem storage_load_door_state_value (st : storage_ctx)
    (h : (storage_load_door_state st).1 = ESP_OK) :
    ∃ v : Nat, (storage_load_door_state st).2 = some v := by
  unfold storage_load_door_state nvs_get_u32 at h ⊢
  by_cases h1 : st.s_initialized = true
  · by_cases h2 : st.nvs.get_err = ESP_OK
    · cases h3 : st.nvs.u32 KEY_DOOR_STATE with
      | none => exact ⟨DOOR_STATE_UNKNOWN, by simp [h1, h2, h3]⟩
      | some v => exact ⟨v, by simp [h1, h2, h3]⟩
    · by_cases h4 : st.nvs.get_err = ESP_ERR_NVS_NOT_FOUND
      · exact ⟨DOOR_STATE_UNKNOWN, by simp [h1, h2, h4]⟩
      · simp [h1, h2, h4] at h
  · simp [h1] at h

/-- C16: `garage_door_init` on an uninitialised controller, once its mutex is allocated and
whatever the later allocations return: when `storage_load_door_state` succeeds (it then
delivers a value) the state is the loaded value; otherwise the state follows the reed
position, `Closed` to `Closed`, `Open` to `Open`, `Between` and `Unknown` to `Unknown`.
On an initialised controller `garage_door_init` returns `ESP_ERR_INVALID_STATE` and the
whole firmware state is unchanged. -/
theorem garage_door_init_state (s : system) (mutex_created : Bool)
    (timer_create_ret : esp_err_t) (task_created : Bool) :
    (s.door.s_initialized = false →
      (∀ v : Nat, storage_load_door_state s.storage = (ESP_OK, some v) →
        (garage_door_init s true timer_create_ret task_created).2.door.s_current_state = v) ∧
      ((storage_load_door_state s.storage).1 = ESP_OK →
        ∃ v : Nat, storage_load_door_state s.storage = (ESP_OK, some v)) ∧
      ((storage_load_door_state s.storage).1 ≠ ESP_OK →
        (reed_switch_get_position s.reed = DOOR_POSITION_CLOSED →
          (garage_door_init s true timer_create_ret task_created).2.door.s_current_state =
            DOOR_STATE_CLOSED) ∧
        (reed_switch_get_position s.reed = DOOR_POSITION_OPEN →
          (garage_door_init s true timer_create_ret task_created).2.door.s_current_state =
            DOOR_STATE_OPEN) ∧
        (reed_switch_get_position s.reed = DOOR_POSITION_BETWEEN ∨
            reed_switch_get_position s.reed = DOOR_POSITION_UNKNOWN →
          (garage_door_init s true timer_create_ret task_created).2.door.s_current_state =
            DOOR_STATE_UNKNOWN))) ∧
      (s.door.s_initialized = true →
        garage_door_init s mutex_created timer_create_ret task_created =
          (ESP_ERR_INVALID_STATE, s)) := by
  constructor
  · intro hun
    have heq := garage_door_init_state_eq s timer_create_ret task_created hun
    refine ⟨?_, ?_, ?_⟩
    · intro v hv
      rw [heq, hv]
      simp
    · intro hok
      obtain ⟨v, hv⟩ := storage_load_door_state_value s.storage hok
      exact ⟨v, Prod.ext hok hv⟩
    · intro hfail
      rw [heq, if_neg hfail]
      refine ⟨fun hp => by rw [if_pos hp], fun hp => ?_, fun hp => ?_⟩
      · rw [hp]; simp
      · rcases hp with hp | hp <;> rw [hp] <;> simp
  · intro hinit
    simp [garage_door_init, hinit]

/-- C16 at concrete inputs: a store holding 3 (`Closing`) with the door at the closed end
gives `Closing`; an uninitialised storage module with the door at the open end gives
`Open`; a second `garage_door_init` is rejected. -/
theorem garage_door_init_state_witness :
    (garage_door_init (system_boot (some 3)) true ESP_OK true).2.door.s_current_state = 3 ∧
      (garage_door_init
        { system_boot none with
          reed := reed_ready 1 0
          storage := { s_initialized := false, nvs := nvs_empty } }
        true ESP_OK true).2.door.s_current_state = DOOR_STATE_OPEN ∧
      garage_door_init (system_ready DOOR_STATE_CLOSED) true ESP_OK true =
        (ESP_ERR_INVALID_STATE, system_ready DOOR_STATE_CLOSED) :=
  ⟨((garage_door_init_state (system_boot (some 3)) true ESP_OK true).1 rfl).1 3 rfl,
    (((garage_door_init_state
      { system_boot none with
        reed := reed_ready 1 0
        storage := { s_initialized := false, nvs := nvs_empty } }
      true ESP_OK true).1 rfl).2.2 (by decide)).2.1 (by decide),
    (garage_door_init_state (system_ready DOOR_STATE_CLOSED) true ESP_OK true).2 rfl⟩

/-! ## Reed sensor: results -/

/-- C17: on an initialised reed sensor the position is `Closed` for (closed-line low,
open-line high), `Open` for (high, low), `Between` for (high, high) and `Unknown` for
(low, low); for every sensor state `reed_switch_is_closed` and `reed_switch_is_open` are
never both true. -/
theorem reed_position_table (r : reed_ctx) :
    (r.s_initialized = true →
      (r.closed_level = 0 ∧ r.open_level ≠ 0 →
        reed_switch_get_position r = DOOR_POSITION_CLOSED) ∧
      (r.closed_level ≠ 0 ∧ r.open_level = 0 →
        reed_switch_get_position r = DOOR_POSITION_OPEN) ∧
      (r.closed_level ≠ 0 ∧ r.open_level ≠ 0 →
        reed_switch_get_position r = DOOR_POSITION_BETWEEN) ∧
      (r.closed_level = 0 ∧ r.open_level = 0 →
        reed_switch_get_position r = DOOR_POSITION_UNKNOWN)) ∧
      ¬ (reed_switch_is_closed r = true ∧ reed_switch_is_open r = true) := by
  constructor
  · intro hinit
    simp only [reed_switch_get_position, hinit, Bool.not_true, Bool.false_eq_true, if_false]
    refine ⟨?_, ?_, ?_, ?_⟩ <;> rintro ⟨h1, h2⟩ <;> simp [h1, h2]
  · simp only [reed_switch_is_closed, reed_switch_is_open, beq_iff_eq]
    rintro ⟨h1, h2⟩
    rw [h1] at h2
    exact absurd h2 (by decide)

/-- C17 at concrete inputs: the four combinations of levels on an initialised sensor. -/
theorem reed_position_table_witness :
    reed_switch_get_position (reed_ready 0 1) = DOOR_POSITION_CLOSED ∧
      reed_switch_get_position (reed_ready 1 0) = DOOR_POSITION_OPEN ∧
      reed_switch_get_position (reed_ready 1 1) = DOOR_POSITION_BETWEEN ∧
      reed_switch_get_position (reed_ready 0 0) = DOOR_POSITION_UNKNOWN :=
  ⟨((reed_position_table (reed_ready 0 1)).1 rfl).1 (by decide),
    ((reed_position_table (reed_ready 1 0)).1 rfl).2.1 (by decide),
    ((reed_position_table (reed_ready 1 1)).1 rfl).2.2.1 (by decide),
    ((reed_position_table (reed_ready 0 0)).1 rfl).2.2.2 (by decide)⟩

/-! ## Watchdog and reed-sensor callback -/

/-- On an initialised store whose writes succeed `storage_log_event` appends one entry. -/
theorem log_appended_of_log_event (st : storage_ctx) (type : event_type_t) (value : Int)
    (time_us : Int) (hst : st.s_initialized = true) (hset : st.nvs.set_err = ESP_OK) :
    log_appended st.nvs (storage_log_event st type value time_us).2.nvs type value
      time_us := by
  rw [storage_log_event_ok st type value time_us hst hset]
  refine ⟨by simp, fun k hk => ?_, by simp⟩
  dsimp only
  rw [if_neg hk]

/-- An appended entry stays appended when the event log is not touched afterwards. -/
theorem log_appended_then_unchanged (a b c : nvs_t) (type : event_type_t) (value : Int)
    (time_us : Int) (hab : log_appended a b type value time_us) (hbc : log_unchanged b c) :
    log_appended a c type value time_us := by
  obtain ⟨h1, h2, h3⟩ := hab
  obtain ⟨hb, hu⟩ := hbc
  refine ⟨by rw [hb]; exact h1, fun k hk => by rw [hb]; exact h2 k hk, by rw [hu]; exact h3⟩

/-- The obstruction branch of the watchdog: the entry is logged, then `update_state` moves
to `Stopped`. -/
theorem obstruction_branch (s : system) (time_us : Int) :
    (update_state
        { s with
          storage :=
            (storage_log_event s.storage EVENT_TYPE_OBSTRUCTION
              (to_int32 s.door.s_current_state) time_us).2 }
        DOOR_STATE_STOPPED).door.s_current_state = DOOR_STATE_STOPPED ∧
      (s.storage.s_initialized = true → s.storage.nvs.set_err = ESP_OK →
        log_appended s.storage.nvs
          (update_state
            { s with
              storage :=
                (storage_log_event s.storage EVENT_TYPE_OBSTRUCTION
                  (to_int32 s.door.s_current_state) time_us).2 }
            DOOR_STATE_STOPPED).storage.nvs
          EVENT_TYPE_OBSTRUCTION (to_int32 s.door.s_current_state) time_us) := by
  refine ⟨(update_state_frame _ DOOR_STATE_STOPPED).2.2.2.2.2, fun hst hset => ?_⟩
  exact log_appended_then_unchanged _ _ _ _ _ _
    (log_appended_of_log_event s.storage _ _ time_us hst hset)
    (update_state_log_unchanged _ DOOR_STATE_STOPPED)

/-- C11: one watchdog iteration in state `s` with reed position `p`.  For (`Opening`,
`Closed`) and (`Closing`, `Open`) the state becomes `Stopped` and, on an initialised store
whose writes succeed, exactly one `Obstruction` entry whose value is the code of `s` (1 or
3) is appended to the event log.  For (`Opening`, `Open`) the state becomes `Open`, for
(`Closing`, `Closed`) it becomes `Closed`, with the event log unchanged.  For `p` in
{`Between`, `Unknown`} while moving, and for every `s` outside {`Opening`, `Closing`}
whatever `p` is, the whole firmware state is unchanged. -/
theorem watchdog_tick (s : system) (time_us : Int) :
    (s.door.s_current_state = DOOR_STATE_OPENING →
        reed_switch_get_position s.reed = DOOR_POSITION_CLOSED →
        (safety_check_task s time_us).door.s_current_state = DOOR_STATE_STOPPED ∧
          (s.storage.s_initialized = true → s.storage.nvs.set_err = ESP_OK →
            log_appended s.storage.nvs (safety_check_task s time_us).storage.nvs
              EVENT_TYPE_OBSTRUCTION 1 time_us)) ∧
      (s.door.s_current_state = DOOR_STATE_CLOSING →
        reed_switch_get_position s.reed = DOOR_POSITION_OPEN →
        (safety_check_task s time_us).door.s_current_state = DOOR_STATE_STOPPED ∧
          (s.storage.s_initialized = true → s.storage.nvs.set_err = ESP_OK →
            log_appended s.storage.nvs (safety_check_task s time_us).storage.nvs
              EVENT_TYPE_OBSTRUCTION 3 time_us)) ∧
      (s.door.s_current_state = DOOR_STATE_OPENING →
        reed_switch_get_position s.reed = DOOR_POSITION_OPEN →
        (safety_check_task s time_us).door.s_current_state = DOOR_STATE_OPEN ∧
          log_unchanged s.storage.nvs (safety_check_task s time_us).storage.nvs) ∧
      (s.door.s_current_state = DOOR_STATE_CLOSING →
        reed_switch_get_position s.reed = DOOR_POSITION_CLOSED →
        (safety_check_task s time_us).door.s_current_state = DOOR_STATE_CLOSED ∧
          log_unchanged s.storage.nvs (safety_check_task s time_us).storage.nvs) ∧
      (s.door.s_current_state = DOOR_STATE_OPENING ∨
          s.door.s_current_state = DOOR_STATE_CLOSING →
        reed_switch_get_position s.reed = DOOR_POSITION_BETWEEN ∨
          reed_switch_get_position s.reed = DOOR_POSITION_UNKNOWN →
        safety_check_task s time_us = s) ∧
      (s.door.s_current_state ≠ DOOR_STATE_OPENING ∧
          s.door.s_current_state ≠ DOOR_STATE_CLOSING →
        safety_check_task s time_us = s) := by
  have hne : DOOR_STATE_CLOSING ≠ DOOR_STATE_OPENING := by decide
  refine ⟨?_, ?_, ?_, ?_, ?_, ?_⟩
  · intro hs hp
    have hb := obstruction_branch s time_us
    have hval : to_int32 s.door.s_current_state = 1 := by rw [hs]; decide
    rw [hval] at hb
    simp only [safety_check_task, hs, hp, true_or, if_true]
    exact hb
  · intro hs hp
    have hb := obstruction_branch s time_us
    have hval : to_int32 s.door.s_current_state = 3 := by rw [hs]; decide
    rw [hval] at hb
    simp only [safety_check_task, hs, hp, or_true, if_true, hne, if_false]
    exact hb
  · intro hs hp
    simp only [safety_check_task, hs, hp, true_or, if_true, reduceCtorEq, if_false]
    exact ⟨(update_state_frame s DOOR_STATE_OPEN).2.2.2.2.2,
      update_state_log_unchanged s DOOR_STATE_OPEN⟩
  · intro hs hp
    simp only [safety_check_task, hs, hp, or_true, if_true, hne, reduceCtorEq, if_false]
    exact ⟨(update_state_frame s DOOR_STATE_CLOSED).2.2.2.2.2,
      update_state_log_unchanged s DOOR_STATE_CLOSED⟩
  · intro hs hp
    rcases hs with hs | hs <;> rcases hp with hp | hp <;>
      simp [safety_check_task, hs, hp, hne]
  · rintro ⟨h1, h2⟩
    simp [safety_check_task, h1, h2]

/-- C11 at concrete inputs: 100 ms after `open()` from `Closed` the door is still at the
closed end, so the watchdog stops the movement and logs an `Obstruction` entry with value
1; on the closed door it does nothing. -/
theorem watchdog_tick_witness :
    ((safety_check_task (garage_door_open (system_ready DOOR_STATE_CLOSED) 2000000 2000000).2
          2100000).door.s_current_state = DOOR_STATE_STOPPED ∧
        log_appended (garage_door_open (system_ready DOOR_STATE_CLOSED) 2000000 2000000).2.storage.nvs
          (safety_check_task (garage_door_open (system_ready DOOR_STATE_CLOSED) 2000000 2000000).2
            2100000).storage.nvs EVENT_TYPE_OBSTRUCTION 1 2100000) ∧
      safety_check_task (system_ready DOOR_STATE_CLOSED) 2100000 =
        system_ready DOOR_STATE_CLOSED :=
  ⟨⟨((watchdog_tick (garage_door_open (system_ready DOOR_STATE_CLOSED) 2000000 2000000).2
        2100000).1 (by decide) (by decide)).1,
      ((watchdog_tick (garage_door_open (system_ready DOOR_STATE_CLOSED) 2000000 2000000).2
        2100000).1 (by decide) (by decide)).2 rfl rfl⟩,
    (watchdog_tick (system_ready DOOR_STATE_CLOSED) 2100000).2.2.2.2.2 (by decide)⟩

/-- C12: the reed-sensor callback with position `p` in controller state `s`.  For `s` in
{`Opening`, `Closing`} the state becomes `Open` when `p = Open` and `Closed` when
`p = Closed`, whatever the direction; on an initialised store whose writes succeed the new
state is stored under `door_state`; the event log is never touched, so no `Obstruction`
entry is written.  For `p` in {`Between`, `Unknown`} or `s` outside {`Opening`, `Closing`}
the whole firmware state is unchanged. -/
theorem reed_callback_effect (s : system) (p : door_position_t) :
    (s.door.s_current_state = DOOR_STATE_OPENING ∨
          s.door.s_current_state = DOOR_STATE_CLOSING →
        (p = DOOR_POSITION_OPEN →
          (reed_switch_callback s p).door.s_current_state = DOOR_STATE_OPEN ∧
            (s.storage.s_initialized = true → s.storage.nvs.set_err = ESP_OK →
              (reed_switch_callback s p).storage.nvs.u32 KEY_DOOR_STATE =
                some DOOR_STATE_OPEN)) ∧
        (p = DOOR_POSITION_CLOSED →
          (reed_switch_callback s p).door.s_current_state = DOOR_STATE_CLOSED ∧
            (s.storage.s_initialized = true → s.storage.nvs.set_err = ESP_OK →
              (reed_switch_callback s p).storage.nvs.u32 KEY_DOOR_STATE =
                some DOOR_STATE_CLOSED))) ∧
      log_unchanged s.storage.nvs (reed_switch_callback s p).storage.nvs ∧
      (p = DOOR_POSITION_BETWEEN ∨ p = DOOR_POSITION_UNKNOWN →
        reed_switch_callback s p = s) ∧
      (s.door.s_current_state ≠ DOOR_STATE_OPENING ∧
          s.door.s_current_state ≠ DOOR_STATE_CLOSING →
        reed_switch_callback s p = s) := by
  have hsaved : ∀ new_state : door_state_t, s.door.s_current_state ≠ new_state →
      s.storage.s_initialized = true → s.storage.nvs.set_err = ESP_OK →
      (update_state s new_state).storage.nvs.u32 KEY_DOOR_STATE = some new_state := by
    intro new_state hne hst hset
    rw [update_state_changed s new_state hne]
    dsimp only
    rw [storage_save_door_state_ok s.storage new_state hst hset]
    simp
  refine ⟨?_, ?_, ?_, ?_⟩
  · intro hs
    have hno : s.door.s_current_state ≠ DOOR_STATE_OPEN := by
      rcases hs with hs | hs <;> rw [hs] <;> decide
    have hnc : s.door.s_current_state ≠ DOOR_STATE_CLOSED := by
      rcases hs with hs | hs <;> rw [hs] <;> decide
    constructor
    · intro hp
      simp only [reed_switch_callback, hs, hp, if_true]
      exact ⟨(update_state_frame s DOOR_STATE_OPEN).2.2.2.2.2, hsaved DOOR_STATE_OPEN hno⟩
    · intro hp
      simp only [reed_switch_callback, hs, hp, if_true, reduceCtorEq, if_false]
      exact ⟨(update_state_frame s DOOR_STATE_CLOSED).2.2.2.2.2,
        hsaved DOOR_STATE_CLOSED hnc⟩
  · unfold reed_switch_callback
    dsimp only
    split_ifs
    · exact update_state_log_unchanged s DOOR_STATE_OPEN
    · exact update_state_log_unchanged s DOOR_STATE_CLOSED
    · exact ⟨rfl, rfl⟩
    · exact ⟨rfl, rfl⟩
  · intro hp
    rcases hp with hp | hp <;> simp [reed_switch_callback, hp]
  · rintro ⟨h1, h2⟩
    simp [reed_switch_callback, h1, h2]

/-- C12 at concrete inputs: while `Opening`, a callback with `Open` gives `Open` (stored),
a callback with `Closed` gives `Closed`, a callback with `Between` changes nothing. -/
theorem reed_callback_effect_witness :
    ((reed_switch_callback (system_ready DOOR_STATE_OPENING)
          DOOR_POSITION_OPEN).door.s_current_state = DOOR_STATE_OPEN ∧
        (reed_switch_callback (system_ready DOOR_STATE_OPENING)
          DOOR_POSITION_OPEN).storage.nvs.u32 KEY_DOOR_STATE = some DOOR_STATE_OPEN) ∧
      (reed_switch_callback (system_ready DOOR_STATE_OPENING)
        DOOR_POSITION_CLOSED).door.s_current_state = DOOR_STATE_CLOSED ∧
      reed_switch_callback (system_ready DOOR_STATE_OPENING) DOOR_POSITION_BETWEEN =
        system_ready DOOR_STATE_OPENING :=
  ⟨⟨(((reed_callback_effect (system_ready DOOR_STATE_OPENING) DOOR_POSITION_OPEN).1
        (by decide)).1 rfl).1,
      (((reed_callback_effect (system_ready DOOR_STATE_OPENING) DOOR_POSITION_OPEN).1
        (by decide)).1 rfl).2 rfl rfl⟩,
    (((reed_callback_effect (system_ready DOOR_STATE_OPENING) DOOR_POSITION_CLOSED).1
      (by decide)).2 rfl).1,
    (reed_callback_effect (system_ready DOOR_STATE_OPENING) DOOR_POSITION_BETWEEN).2.2.1
      (Or.inl rfl)⟩

/-! ## Operation timeout period and reboot recovery -/

/-- After a successful `garage_door_open` on a controller whose timeout timer is idle the
pending one-shot has the period `s_timeout_ms * 1000 % 2 ^ 32` microseconds, which is
`s_timeout_ms * 1000` as long as `s_timeout_ms ≤ 4294967`. -/
theorem operation_timeout_period (s : system) (t_relay t_log : Int)
    (hinit : s.door.s_initialized = true)
    (hidle : s.door.s_timeout_timer = some { armed := none })
    (hs : s.door.s_current_state = DOOR_STATE_CLOSED ∨
      s.door.s_current_state = DOOR_STATE_STOPPED)
    (hrelay : (relay_activate s.relay t_relay).1 = ESP_OK) :
    timer_period (garage_door_open s t_relay t_log).2.door.s_timeout_timer =
        some (s.door.s_timeout_ms * 1000 % 2 ^ 32) ∧
      (s.door.s_timeout_ms ≤ 4294967 →
        timer_period (garage_door_open s t_relay t_log).2.door.s_timeout_timer =
          some (s.door.s_timeout_ms * 1000)) := by
  have hg : ¬ (s.door.s_current_state ≠ DOOR_STATE_CLOSED ∧
      s.door.s_current_state ≠ DOOR_STATE_STOPPED) := by
    rcases hs with h | h <;> simp [h]
  obtain ⟨-, -, htimer, -, hms, -⟩ :=
    update_state_frame { s with relay := (relay_activate s.relay t_relay).2 }
      DOOR_STATE_OPENING
  have hperiod : timer_period (garage_door_open s t_relay t_log).2.door.s_timeout_timer =
      some (s.door.s_timeout_ms * 1000 % 2 ^ 32) := by
    simp only [garage_door_open, hinit, Bool.not_true, Bool.false_eq_true, if_false]
    rw [if_neg hg, if_neg (not_not.mpr hrelay)]
    dsimp only
    rw [htimer, hms]
    dsimp only
    rw [hidle]
    rfl
  refine ⟨hperiod, fun hle => ?_⟩
  rw [hperiod]
  congr 1
  exact Nat.mod_eq_of_lt (by norm_num; omega)

/-- C19, the failing input: `set_timeout(4294968)` is accepted; the following `open()` from
`Closed` succeeds, but the period `s_timeout_ms * 1000` wraps in 32 bits and the operation
timeout is armed for 704 microseconds instead of 4294968000, so that its expiry one
millisecond later already moves the door state to `Stopped`.  With no `set_timeout` call the
period is 30000000 microseconds. -/
theorem operation_timeout_period_wraps :
    (garage_door_set_timeout (system_ready DOOR_STATE_CLOSED) 4294968).1 = ESP_OK ∧
      (garage_door_open (garage_door_set_timeout (system_ready DOOR_STATE_CLOSED) 4294968).2
        2000000 2000000).1 = ESP_OK ∧
      timer_period (garage_door_open
        (garage_door_set_timeout (system_ready DOOR_STATE_CLOSED) 4294968).2
        2000000 2000000).2.door.s_timeout_timer = some 704 ∧
      (704 : Nat) ≠ 4294968 * 1000 ∧
      (door_run (garage_door_set_timeout (system_ready DOOR_STATE_CLOSED) 4294968).2
        [door_event.call door_call.open_call 2000000 2000000,
          door_event.timeout 2001000]).door.s_current_state = DOOR_STATE_STOPPED ∧
      timer_period (garage_door_open (system_ready DOOR_STATE_CLOSED)
        2000000 2000000).2.door.s_timeout_timer = some 30000000 := by
  refine ⟨rfl, ?_, ?_, ?_, ?_, ?_⟩ <;> decide

/-- With all allocations succeeding `garage_door_init` on an uninitialised controller
returns `ESP_OK`. -/
theorem garage_door_init_ok (s : system) (hun : s.door.s_initialized = false) :
    (garage_door_init s true ESP_OK true).1 = ESP_OK := by
  simp [garage_door_init, hun]

/-- C15 as stated fails: on the initialised firmware in state `Open` whose store has been
erased, `update_state(Open)` is executed with a store whose writes succeed but writes
nothing, since the state does not change; after a cold boot over the same store, with the
door at the open end, `garage_door_init` returns `ESP_OK` and the state is `Unknown`, not
`Open`. -/
theorem reboot_after_unchanged_update :
    system_erased.door.s_current_state = DOOR_STATE_OPEN ∧
      system_erased.storage.s_initialized = true ∧
      system_erased.storage.nvs.set_err = ESP_OK ∧
      system_erased.storage.nvs.get_err = ESP_OK ∧
      (update_state system_erased DOOR_STATE_OPEN).door.s_current_state = DOOR_STATE_OPEN ∧
      (garage_door_init
        (cold_boot (update_state system_erased DOOR_STATE_OPEN).storage.nvs relay_ready
          (reed_ready 1 0)) true ESP_OK true).1 = ESP_OK ∧
      garage_door_get_state (garage_door_init
        (cold_boot (update_state system_erased DOOR_STATE_OPEN).storage.nvs relay_ready
          (reed_ready 1 0)) true ESP_OK true).2 = DOOR_STATE_UNKNOWN ∧
      ¬ (garage_door_get_state (garage_door_init
        (cold_boot (update_state system_erased DOOR_STATE_OPEN).storage.nvs relay_ready
          (reed_ready 1 0)) true ESP_OK true).2 = DOOR_STATE_OPEN) := by
  refine ⟨rfl, rfl, rfl, rfl, rfl, rfl, rfl, ?_⟩
  decide

/-- C15, amended: for every state `new` and every prior firmware state in which
`update_state(new)` is an actual transition (the current state differs from `new`) or
whose store already loads as `new`, when `update_state(new)` is executed on an initialised
store whose reads and writes succeed and the controller is then initialised from scratch
over the same store (whatever the relay and the reed position, all allocations succeeding),
`garage_door_init` returns `ESP_OK` and `garage_door_get_state` is `new`; `Opening` and
`Closing` are accepted verbatim. -/
theorem reboot_recovery (s : system) (new_state : door_state_t) (relay : relay_ctx)
    (reed : reed_ctx)
    (hst : s.storage.s_initialized = true) (hset : s.storage.nvs.set_err = ESP_OK)
    (hget : s.storage.nvs.get_err = ESP_OK)
    (hcond : s.door.s_current_state ≠ new_state ∨
      storage_load_door_state s.storage = (ESP_OK, some new_state)) :
    (garage_door_init (cold_boot (update_state s new_state).storage.nvs relay reed)
        true ESP_OK true).1 = ESP_OK ∧
      garage_door_get_state (garage_door_init
        (cold_boot (update_state s new_state).storage.nvs relay reed)
        true ESP_OK true).2 = new_state := by
  have hload : storage_load_door_state
      (cold_boot (update_state s new_state).storage.nvs relay reed).storage =
        (ESP_OK, some new_state) := by
    by_cases hne : s.door.s_current_state = new_state
    · rw [update_state_same s new_state hne]
      rcases hcond with hc | hc
      · exact absurd hne hc
      · have hsame : (cold_boot s.storage.nvs relay reed).storage = s.storage := by
          cases hs : s.storage with
          | mk i n =>
            rw [hs] at hst
            simp only [cold_boot]
            simp only at hst
            rw [hst]
        rw [hsame]
        exact hc
    · rw [update_state_changed s new_state hne]
      simp only [cold_boot]
      rw [storage_save_door_state_ok s.storage new_state hst hset]
      simp [storage_load_door_state, nvs_get_u32, hget]
  refine ⟨garage_door_init_ok _ rfl, ?_⟩
  unfold garage_door_get_state
  rw [garage_door_init_state_eq _ ESP_OK true rfl, hload]
  simp

/-- C15 amended, at concrete inputs: `update_state(Opening)` on the initialised firmware in
state `Closed`, then a cold boot with the door between the ends. -/
theorem reboot_recovery_witness :
    (garage_door_init
        (cold_boot (update_state (system_ready DOOR_STATE_CLOSED)
          DOOR_STATE_OPENING).storage.nvs relay_ready (reed_ready 1 1))
        true ESP_OK true).1 = ESP_OK ∧
      garage_door_get_state (garage_door_init
        (cold_boot (update_state (system_ready DOOR_STATE_CLOSED)
          DOOR_STATE_OPENING).storage.nvs relay_ready (reed_ready 1 1))
        true ESP_OK true).2 = DOOR_STATE_OPENING :=
  reboot_recovery (system_ready DOOR_STATE_CLOSED) DOOR_STATE_OPENING relay_ready
    (reed_ready 1 1) rfl rfl rfl (Or.inl (by decide))

/-! ## Debounce -/

/-- The position read depends only on the initialisation flag and the two levels. -/
theorem reed_switch_get_position_congr (r r' : reed_ctx)
    (hi : r'.s_initialized = r.s_initialized) (hc : r'.closed_level = r.closed_level)
    (ho : r'.open_level = r.open_level) :
    reed_switch_get_position r' = reed_switch_get_position r := by
  simp only [reed_switch_get_position, hi, hc, ho]

/-- The first edge on a non-pending sensor with an idle debounce timer sets the flag and
arms the timer for 50 ms. -/
theorem gpio_isr_handler_first (r : reed_ctx) (hp : r.s_debounce_pending = false)
    (ht : r.s_debounce_timer = some { armed := none }) :
    gpio_isr_handler r =
      { r with
        s_debounce_pending := true
        s_debounce_timer := some { armed := some 50000 } } := by
  simp [gpio_isr_handler, hp, ht, esp_timer_start_once, DEBOUNCE_MS]

/-- An edge on a pending sensor changes nothing. -/
theorem gpio_isr_handler_pending (r : reed_ctx) (hp : r.s_debounce_pending = true) :
    gpio_isr_handler r = r := by
  simp [gpio_isr_handler, hp]

/-- A burst of edges on a pending sensor only changes the levels read on the pins, which
end up as those of the last edge. -/
theorem reed_burst_pending (es : List (Nat × Nat)) :
    ∀ (r : reed_ctx) (e : Nat × Nat), r.s_debounce_pending = true →
      reed_burst r (e :: es) =
        { r with
          closed_level := ((e :: es).getLast (List.cons_ne_nil e es)).1
          open_level := ((e :: es).getLast (List.cons_ne_nil e es)).2 } := by
  induction es with
  | nil =>
    intro r e hp
    simp only [reed_burst, reed_edge, List.getLast_singleton]
    exact gpio_isr_handler_pending _ hp
  | cons e' es ih =>
    intro r e hp
    have hedge : reed_edge r e = { r with closed_level := e.1, open_level := e.2 } :=
      gpio_isr_handler_pending _ hp
    rw [reed_burst, hedge, ih { r with closed_level := e.1, open_level := e.2 } e' hp]
    simp only [List.getLast_cons_cons]

/-- A burst of one or more edges on a non-pending sensor with an idle debounce timer: the
flag is set, the timer is armed once for 50 ms, the levels are those of the last edge and
nothing else changes. -/
theorem reed_burst_first (r : reed_ctx) (e : Nat × Nat) (es : List (Nat × Nat))
    (hp : r.s_debounce_pending = false) (ht : r.s_debounce_timer = some { armed := none }) :
    reed_burst r (e :: es) =
      { r with
        s_debounce_pending := true
        s_debounce_timer := some { armed := some 50000 }
        closed_level := ((e :: es).getLast (List.cons_ne_nil e es)).1
        open_level := ((e :: es).getLast (List.cons_ne_nil e es)).2 } := by
  have hedge : reed_edge r e =
      { r with
        s_debounce_pending := true
        s_debounce_timer := some { armed := some 50000 }
        closed_level := e.1
        open_level := e.2 } :=
    gpio_isr_handler_first { r with closed_level := e.1, open_level := e.2 } hp ht
  cases es with
  | nil => simp only [reed_burst, hedge, List.getLast_singleton]
  | cons e' es =>
    rw [reed_burst, hedge, reed_burst_pending es _ e' rfl]
    simp only [List.getLast_cons_cons]

/-- Expiry of a pending debounce one-shot: the flag and the timer are cleared, the stored
position becomes the position re-read, and the subscriber is invoked with it exactly when
it differs from the stored position and a subscriber is registered. -/
theorem debounce_timer_expiry_pending (r : reed_ctx)
    (ht : timer_pending r.s_debounce_timer = true) :
    (debounce_timer_expiry r).2 =
        (if reed_switch_get_position r ≠ r.s_current_position ∧ r.s_callback = true then
          some (reed_switch_get_position r)
        else none) ∧
      (debounce_timer_expiry r).1.s_current_position = reed_switch_get_position r ∧
      (debounce_timer_expiry r).1.s_debounce_pending = false ∧
      timer_pending (debounce_timer_expiry r).1.s_debounce_timer = false := by
  have hpos : reed_switch_get_position
      { r with s_debounce_timer := some { armed := none }, s_debounce_pending := false } =
      reed_switch_get_position r := reed_switch_get_position_congr _ _ rfl rfl rfl
  simp only [debounce_timer_expiry, ht, if_true, debounce_timer_callback]
  rw [hpos]
  by_cases hd : reed_switch_get_position r = r.s_current_position
  · simp [hd, timer_pending]
  · by_cases hc : r.s_callback = true
    · simp [hd, hc, timer_pending]
    · simp [hd, hc, timer_pending]

/-- C18: on a non-pending sensor whose debounce timer is idle, the first edge sets the
pending flag and arms the debounce timer for 50 ms; an edge on a pending sensor changes
nothing and does not arm the timer again; so after a burst of one or more edges the flag is
set, the timer is armed once, and only the levels on the pins have changed.  The expiry
that follows invokes the subscriber at most once, namely (a subscriber being registered)
exactly when the position re-read differs from the stored one, with the re-read position;
afterwards the stored position is the re-read one, the flag is clear and no one-shot is
pending. -/
theorem debounce_coalescing (r : reed_ctx) (e : Nat × Nat) (es : List (Nat × Nat))
    (hp : r.s_debounce_pending = false) (ht : r.s_debounce_timer = some { armed := none }) :
    gpio_isr_handler r =
        { r with
          s_debounce_pending := true
          s_debounce_timer := some { armed := some (50 * 1000) } } ∧
      (∀ r' : reed_ctx, r'.s_debounce_pending = true → gpio_isr_handler r' = r') ∧
      reed_burst r (e :: es) =
        { r with
          s_debounce_pending := true
          s_debounce_timer := some { armed := some (50 * 1000) }
          closed_level := ((e :: es).getLast (List.cons_ne_nil e es)).1
          open_level := ((e :: es).getLast (List.cons_ne_nil e es)).2 } ∧
      (debounce_timer_expiry (reed_burst r (e :: es))).2 =
        (if reed_switch_get_position (reed_burst r (e :: es)) ≠ r.s_current_position ∧
            r.s_callback = true then
          some (reed_switch_get_position (reed_burst r (e :: es)))
        else none) ∧
      (debounce_timer_expiry (reed_burst r (e :: es))).1.s_current_position =
        reed_switch_get_position (reed_burst r (e :: es)) ∧
      (debounce_timer_expiry (reed_burst r (e :: es))).1.s_debounce_pending = false ∧
      timer_pending (debounce_timer_expiry (reed_burst r (e :: es))).1.s_debounce_timer =
        false := by
  have hburst := reed_burst_first r e es hp ht
  have hpend : timer_pending (reed_burst r (e :: es)).s_debounce_timer = true := by
    rw [hburst]; rfl
  have hexp := debounce_timer_expiry_pending (reed_burst r (e :: es)) hpend
  have hstored : (reed_burst r (e :: es)).s_current_position = r.s_current_position := by
    rw [hburst]
  have hcb : (reed_burst r (e :: es)).s_callback = r.s_callback := by
    rw [hburst]
  rw [hstored, hcb] at hexp
  exact ⟨gpio_isr_handler_first r hp ht, gpio_isr_handler_pending, hburst, hexp⟩

/-- C18 at a concrete input: the door leaves the closed end and reaches the open end with
four edges inside one debounce window; the subscriber is invoked once, with `Open`. -/
theorem debounce_coalescing_witness :
    (debounce_timer_expiry
        (reed_burst { reed_ready 0 1 with s_callback := true }
          [(1, 1), (0, 1), (1, 1), (1, 0)])).2 = some DOOR_POSITION_OPEN ∧
      (debounce_timer_expiry
        (reed_burst { reed_ready 0 1 with s_callback := true }
          [(1, 1), (0, 1), (1, 1), (1, 0)])).1.s_current_position = DOOR_POSITION_OPEN ∧
      (debounce_timer_expiry
        (reed_burst { reed_ready 0 1 with s_callback := true }
          [(1, 1), (0, 1), (1, 1), (1, 0)])).1.s_debounce_pending = false :=
  ⟨(debounce_coalescing { reed_ready 0 1 with s_callback := true } (1, 1)
      [(0, 1), (1, 1), (1, 0)] rfl rfl).2.2.2.1,
    (debounce_coalescing { reed_ready 0 1 with s_callback := true } (1, 1)
      [(0, 1), (1, 1), (1, 0)] rfl rfl).2.2.2.2.1,
    (debounce_coalescing { reed_ready 0 1 with s_callback := true } (1, 1)
      [(0, 1), (1, 1), (1, 0)] rfl rfl).2.2.2.2.2.1⟩

/-! ## Notification order -/

/-- A step that leaves the controller statics alone is a `notified_step`. -/
theorem notified_step_refl (d : door_ctx) (hcb : d.s_state_callback = true) :
    notified_step d d := by
  refine ⟨hcb, ?_⟩
  simp

/-- The function `update_state` is a `notified_step`. -/
theorem notified_step_update (s : system) (new_state : door_state_t)
    (hcb : s.door.s_state_callback = true) :
    notified_step s.door (update_state s new_state).door := by
  by_cases h : s.door.s_current_state = new_state
  · rw [update_state_same s new_state h]
    exact notified_step_refl s.door hcb
  · rw [update_state_changed s new_state h]
    refine ⟨hcb, ?_⟩
    have h' : new_state ≠ s.door.s_current_state := fun hc => h hc.symm
    simp [hcb, h']

/-- Every controller event is a `notified_step`. -/
theorem notified_step_door_step (s : system) (e : door_event)
    (hcb : s.door.s_state_callback = true) :
    notified_step s.door (door_step s e).door := by
  have hrefl := notified_step_refl s.door hcb
  cases e with
  | call c t_relay t_log =>
    cases c with
    | open_call =>
      simp only [door_step, door_call_run, garage_door_open]
      split_ifs
      · exact hrefl
      · exact hrefl
      · exact hrefl
      · exact notified_step_update { s with relay := (relay_activate s.relay t_relay).2 }
          DOOR_STATE_OPENING hcb
    | close_call =>
      simp only [door_step, door_call_run, garage_door_close]
      split_ifs
      · exact hrefl
      · exact hrefl
      · exact hrefl
      · exact notified_step_update { s with relay := (relay_activate s.relay t_relay).2 }
          DOOR_STATE_CLOSING hcb
    | stop_call =>
      simp only [door_step, door_call_run, garage_door_stop]
      split_ifs
      · exact hrefl
      · exact hrefl
      · exact notified_step_update s DOOR_STATE_STOPPED hcb
      · exact notified_step_update s DOOR_STATE_STOPPED hcb
  | reed position =>
    simp only [door_step, reed_switch_callback]
    split_ifs
    · exact notified_step_update s DOOR_STATE_OPEN hcb
    · exact notified_step_update s DOOR_STATE_CLOSED hcb
    · exact hrefl
    · exact hrefl
  | watchdog time_us =>
    simp only [door_step, safety_check_task]
    split_ifs
    · exact notified_step_update
        { s with
          storage :=
            (storage_log_event s.storage EVENT_TYPE_OBSTRUCTION
              (to_int32 s.door.s_current_state) time_us).2 } DOOR_STATE_STOPPED hcb
    · exact notified_step_update s DOOR_STATE_OPEN hcb
    · exact hrefl
    · exact notified_step_update
        { s with
          storage :=
            (storage_log_event s.storage EVENT_TYPE_OBSTRUCTION
              (to_int32 s.door.s_current_state) time_us).2 } DOOR_STATE_STOPPED hcb
    · exact notified_step_update s DOOR_STATE_CLOSED hcb
    · exact hrefl
    · exact hrefl
    · exact hrefl
  | timeout time_us =>
    simp only [door_step, timeout_timer_expiry, timeout_timer_callback]
    split_ifs
    · exact notified_step_update
        { s with
          door := { s.door with s_timeout_timer := some { armed := none } }
          storage :=
            (storage_log_event s.storage EVENT_TYPE_TIMEOUT
              (to_int32 s.door.s_current_state) time_us).2 } DOOR_STATE_STOPPED hcb
    · exact hrefl
  | pulse_done => exact hrefl
  | lines closed_level open_level => exact hrefl

/-- Over a run the subscriber receives exactly the successive changes of the door state and
stays registered. -/
theorem door_run_notified (evs : List door_event) :
    ∀ s : system, s.door.s_state_callback = true →
      (door_run s evs).door.notified = s.door.notified ++ door_changes s evs ∧
        (door_run s evs).door.s_state_callback = true := by
  induction evs with
  | nil =>
    intro s hcb
    simp [door_run, door_changes, hcb]
  | cons e es ih =>
    intro s hcb
    obtain ⟨hcb', hnot⟩ := notified_step_door_step s e hcb
    obtain ⟨h1, h2⟩ := ih (door_step s e) hcb'
    refine ⟨?_, h2⟩
    simp only [door_run, door_changes]
    rw [h1, hnot, List.append_assoc]

/-- Each change differs from the state before it. -/
theorem door_changes_chain (evs : List door_event) :
    ∀ s : system,
      List.Chain (fun a b : door_state_t => a ≠ b) s.door.s_current_state
        (door_changes s evs) := by
  induction evs with
  | nil => intro s; exact List.Chain.nil
  | cons e es ih =>
    intro s
    have hrest := ih (door_step s e)
    simp only [door_changes]
    by_cases hch : (door_step s e).door.s_current_state = s.door.s_current_state
    · rw [if_neg (not_not.mpr hch), List.nil_append]
      rw [hch] at hrest
      exact hrest
    · rw [if_pos hch, List.singleton_append]
      exact List.Chain.cons (fun h => hch h.symm) hrest

/-- The last change of a run, if there is one, is the final door state; otherwise the door
state is the initial one. -/
theorem door_changes_last (evs : List door_event) :
    ∀ s : system,
      ((door_changes s evs).getLast?).getD s.door.s_current_state =
        (door_run s evs).door.s_current_state := by
  induction evs with
  | nil => intro s; rfl
  | cons e es ih =>
    intro s
    have hrest := ih (door_step s e)
    simp only [door_changes, door_run]
    rw [← hrest]
    cases htail : door_changes (door_step s e) es with
    | nil =>
      by_cases hch : (door_step s e).door.s_current_state = s.door.s_current_state
      · simp [hch]
      · simp [hch]
    | cons a l =>
      rw [List.getLast?_append_of_ne_nil _ (List.cons_ne_nil a l)]
      cases hl : (a :: l).getLast? with
      | none => simp at hl
      | some v => rfl

/-- C14: for every sequence of controller events executed with a subscriber registered, the
values delivered to the subscriber during the run are, in order, the successive values
taken by the door state at each change.  Hence each delivered value differs from the one
before it (and the first from the initial state), every change is delivered exactly once,
and after a run with at least one change the last delivered value is
`garage_door_get_state`. -/
theorem notification_order (s : system) (evs : List door_event)
    (hcb : s.door.s_state_callback = true) :
    (door_run s evs).door.notified = s.door.notified ++ door_changes s evs ∧
      List.Chain (fun a b : door_state_t => a ≠ b) s.door.s_current_state
        (door_changes s evs) ∧
      (door_changes s evs ≠ [] →
        (door_run s evs).door.notified.getLast? =
          some (garage_door_get_state (door_run s evs))) := by
  have hnot := (door_run_notified evs s hcb).1
  refine ⟨hnot, door_changes_chain evs s, fun hne => ?_⟩
  have hlast := door_changes_last evs s
  rw [hnot, List.getLast?_append_of_ne_nil _ hne]
  unfold garage_door_get_state
  rw [← hlast]
  cases hc : door_changes s evs with
  | nil => exact absurd hc hne
  | cons a l =>
    cases hl : (a :: l).getLast? with
    | none => simp at hl
    | some v => rfl

/-- C14 at a concrete run: open, obstruction seen by the watchdog, a `stop()` that changes
nothing, open again, the reed callback reporting `Open`, and the expiry of the timeout
armed by the first `open()`; the subscriber receives `Opening`, `Stopped`, `Opening`,
`Open`, `Stopped`. -/
theorem notification_order_witness :
    (door_run (system_ready DOOR_STATE_CLOSED)
        [door_event.call door_call.open_call 2000000 2000000, door_event.watchdog 2100000,
          door_event.call door_call.stop_call 0 0, door_event.pulse_done,
          door_event.call door_call.open_call 3100000 3100000,
          door_event.reed DOOR_POSITION_OPEN,
          door_event.timeout 32000000]).door.notified = [1, 4, 1, 2, 4] ∧
      (door_run (system_ready DOOR_STATE_CLOSED)
        [door_event.call door_call.open_call 2000000 2000000, door_event.watchdog 2100000,
          door_event.call door_call.stop_call 0 0, door_event.pulse_done,
          door_event.call door_call.open_call 3100000 3100000,
          door_event.reed DOOR_POSITION_OPEN,
          door_event.timeout 32000000]).door.notified =
        (system_ready DOOR_STATE_CLOSED).door.notified ++
          door_changes (system_ready DOOR_STATE_CLOSED)
            [door_event.call door_call.open_call 2000000 2000000,
              door_event.watchdog 2100000,
              door_event.call door_call.stop_call 0 0, door_event.pulse_done,
              door_event.call door_call.open_call 3100000 3100000,
              door_event.reed DOOR_POSITION_OPEN,
              door_event.timeout 32000000] :=
  ⟨by decide,
    (notification_order (system_ready DOOR_STATE_CLOSED)
      [door_event.call door_call.open_call 2000000 2000000, door_event.watchdog 2100000,
        door_event.call door_call.stop_call 0 0, door_event.pulse_done,
        door_event.call door_call.open_call 3100000 3100000,
        door_event.reed DOOR_POSITION_OPEN,
        door_event.timeout 32000000] rfl).1⟩

/-! ## Absent keys, boot-time rate limit and write failures -/

/-- C30: on an initialised, readable store without a `door_state` key
`storage_load_door_state` returns `ESP_OK` with the value 5 (`Unknown`); so
`garage_door_init` on an uninitialised controller over such a store (mutex allocated,
whatever the later allocations return) yields `Unknown` for every reed sensor state, a
definitive `Closed` or `Open` reading included.  For every firmware state, when the load
returns `ESP_OK` the state set by `garage_door_init` does not depend on the reed sensor:
the inference from the position is only used when the load returns an error. -/
theorem load_without_door_state_key (s : system) (timer_create_ret : esp_err_t)
    (task_created : Bool)
    (hst : s.storage.s_initialized = true) (hget : s.storage.nvs.get_err = ESP_OK)
    (habs : s.storage.nvs.u32 KEY_DOOR_STATE = none) :
    storage_load_door_state s.storage = (ESP_OK, some 5) ∧
      (s.door.s_initialized = false →
        ∀ reed : reed_ctx,
          (garage_door_init { s with reed := reed } true timer_create_ret
            task_created).2.door.s_current_state = DOOR_STATE_UNKNOWN) ∧
      (∀ s2 : system, s2.door.s_initialized = false →
        (storage_load_door_state s2.storage).1 = ESP_OK →
        ∀ reed : reed_ctx,
          (garage_door_init { s2 with reed := reed } true timer_create_ret
            task_created).2.door.s_current_state =
          (storage_load_door_state s2.storage).2.getD s2.door.s_current_state) := by
  have hload : storage_load_door_state s.storage = (ESP_OK, some 5) := by
    simp [storage_load_door_state, nvs_get_u32, hst, hget, habs, DOOR_STATE_UNKNOWN]
  refine ⟨hload, fun hun reed => ?_, fun s2 hun hok reed => ?_⟩
  · rw [garage_door_init_state_eq { s with reed := reed } timer_create_ret task_created hun]
    dsimp only
    rw [hload]
    rfl
  · rw [garage_door_init_state_eq { s2 with reed := reed } timer_create_ret task_created hun]
    dsimp only
    rw [if_pos hok]

/-- C30 at concrete inputs: first boot over an empty store with the door at the closed end
and at the open end. -/
theorem load_without_door_state_key_witness :
    storage_load_door_state (system_boot none).storage = (ESP_OK, some 5) ∧
      (garage_door_init { system_boot none with reed := reed_ready 0 1 } true ESP_OK
        true).2.door.s_current_state = DOOR_STATE_UNKNOWN ∧
      (garage_door_init { system_boot none with reed := reed_ready 1 0 } true ESP_OK
        true).2.door.s_current_state = DOOR_STATE_UNKNOWN :=
  ⟨(load_without_door_state_key (system_boot none) ESP_OK true rfl rfl rfl).1,
    (load_without_door_state_key (system_boot none) ESP_OK true rfl rfl rfl).2.1 rfl
      (reed_ready 0 1),
    (load_without_door_state_key (system_boot none) ESP_OK true rfl rfl rfl).2.1 rfl
      (reed_ready 1 0)⟩

/-- C29: the recorded start time is 0 at program start.  On an initialised idle driver
whose recorded start time is still 0, `relay_activate_pulse(d)` with `0 < d ≤ max` returns
`ESP_ERR_INVALID_STATE` whenever the clock reads less than `min_interval_ms` milliseconds
and `ESP_OK` whenever it reads at least that.  So on an initialised controller over such a
driver with the default configuration, `open()` and `close()` issued less than 1000 ms
after boot return `ESP_ERR_INVALID_STATE` in every door state and change nothing. -/
theorem first_activation_after_boot (r : relay_ctx) (d : Nat) (time_us : Int)
    (hinit : r.s_initialized = true) (hidle : r.s_active = false)
    (hlast : r.s_last_activation_time = 0)
    (hd : 0 < d ∧ d ≤ r.s_config.max_pulse_duration_ms) :
    relay_boot.s_last_activation_time = 0 ∧
      (Int.tdiv time_us 1000 < (r.s_config.min_interval_ms : Int) →
        (relay_activate_pulse r d time_us).1 = ESP_ERR_INVALID_STATE) ∧
      (Int.tdiv time_us 1000 ≥ (r.s_config.min_interval_ms : Int) →
        (relay_activate_pulse r d time_us).1 = ESP_OK) ∧
      (∀ (s : system) (t_log : Int), s.relay = r → s.door.s_initialized = true →
        r.s_config =
          { pulse_duration_ms := DEFAULT_PULSE_DURATION_MS
            max_pulse_duration_ms := DEFAULT_MAX_PULSE_DURATION_MS
            min_interval_ms := DEFAULT_MIN_INTERVAL_MS } →
        Int.tdiv time_us 1000 < 1000 →
        garage_door_open s time_us t_log = (ESP_ERR_INVALID_STATE, s) ∧
          garage_door_close s time_us t_log = (ESP_ERR_INVALID_STATE, s)) := by
  have hd' : ¬ (d == 0 || decide (d > r.s_config.max_pulse_duration_ms)) = true := by
    simp only [Bool.or_eq_true, beq_iff_eq, decide_eq_true_eq, not_or]
    omega
  have hval : ∀ d' : Nat, 0 < d' ∧ d' ≤ r.s_config.max_pulse_duration_ms →
      Int.tdiv time_us 1000 < (r.s_config.min_interval_ms : Int) →
      relay_activate_pulse r d' time_us = (ESP_ERR_INVALID_STATE, r) := by
    intro d' hd2 hlt
    have hd3 : ¬ (d' == 0 || decide (d' > r.s_config.max_pulse_duration_ms)) = true := by
      simp only [Bool.or_eq_true, beq_iff_eq, decide_eq_true_eq, not_or]
      omega
    rw [relay_activate_pulse_eq]
    simp only [hinit, hidle, hlast, sub_zero, Bool.not_true, Bool.false_eq_true, if_false,
      hd3, hlt, if_true]
  refine ⟨rfl, fun hlt => by rw [hval d hd hlt], fun hge => ?_, ?_⟩
  · rw [relay_activate_pulse_eq]
    have hnot : ¬ Int.tdiv time_us 1000 < (r.s_config.min_interval_ms : Int) := not_lt.mpr hge
    simp only [hinit, hidle, hlast, sub_zero, Bool.not_true, Bool.false_eq_true, if_false,
      hd', hnot]
  · intro s t_log hrel hdoor hcfg hlt
    have hmin : (r.s_config.min_interval_ms : Int) = 1000 := by
      rw [hcfg]; rfl
    have hfail : relay_activate s.relay time_us = (ESP_ERR_INVALID_STATE, s.relay) := by
      rw [hrel, relay_activate]
      apply hval
      · rw [hcfg]; decide
      · rw [hmin]; exact hlt
    constructor
    · simp only [garage_door_open, hdoor, Bool.not_true, Bool.false_eq_true, if_false]
      split_ifs with h1
      · rfl
      · rw [hfail] at *
      · rw [hfail] at *
        simp at *
    · simp only [garage_door_close, hdoor, Bool.not_true, Bool.false_eq_true, if_false]
      split_ifs with h1
      · rfl
      · rw [hfail] at *
      · rw [hfail] at *
        simp at *

/-- C29 at concrete inputs: the default driver right after `relay_init`; a request at
999 ms is rejected, a request at 1000 ms is accepted, and `open()` on the closed door
999 ms after boot fails. -/
theorem first_activation_after_boot_witness :
    (relay_activate_pulse relay_ready 500 999000).1 = ESP_ERR_INVALID_STATE ∧
      (relay_activate_pulse relay_ready 500 1000000).1 = ESP_OK ∧
      garage_door_open (system_ready DOOR_STATE_CLOSED) 999000 999000 =
        (ESP_ERR_INVALID_STATE, system_ready DOOR_STATE_CLOSED) :=
  ⟨(first_activation_after_boot relay_ready 500 999000 rfl rfl rfl (by decide)).2.1
      (by decide),
    (first_activation_after_boot relay_ready 500 1000000 rfl rfl rfl (by decide)).2.2.1
      (by decide),
    ((first_activation_after_boot relay_ready 500 999000 rfl rfl rfl (by decide)).2.2.2
      (system_ready DOOR_STATE_CLOSED) 999000 rfl rfl rfl (by decide)).1⟩

/-- In every failure mode `storage_log_event` keeps every `u32` entry other than
`evt_count`, the failure mode and the initialisation flag. -/
theorem storage_log_event_frame (st : storage_ctx) (type : event_type_t) (value : Int)
    (time_us : Int) :
    (∀ k : nvs_key, k ≠ KEY_EVENT_COUNT →
        (storage_log_event st type value time_us).2.nvs.u32 k = st.nvs.u32 k) ∧
      (storage_log_event st type value time_us).2.nvs.get_err = st.nvs.get_err ∧
      (storage_log_event st type value time_us).2.nvs.set_err = st.nvs.set_err ∧
      (storage_log_event st type value time_us).2.nvs.commit_err = st.nvs.commit_err ∧
      (storage_log_event st type value time_us).2.s_initialized = st.s_initialized := by
  unfold storage_log_event nvs_set_blob nvs_set_u32 nvs_commit
  by_cases h1 : st.s_initialized = true
  · by_cases h2 : st.nvs.set_err = ESP_OK
    · simp only [h1, h2]
      refine ⟨fun k hk => ?_, rfl, rfl, rfl, rfl⟩
      simp [hk]
    · simp [h1, h2]
  · simp [h1]

/-- C23: `update_state(new)` with `old ≠ new` ignores what `storage_save_door_state`
returns: the in-memory state becomes `new` and the subscriber, if one is registered,
receives exactly one more notification, `new`, also when the write fails; when it fails
because the storage module is uninitialised or the store rejects the write, the store is
left as it was.  The failure is not returned: on an initialised controller `open()` and
`close()` that pass their guard with a successful relay activation return `ESP_OK` with
the state `Opening` / `Closing`, and `stop()` returns `ESP_OK`. -/
theorem update_state_write_failure (s : system) (new_state : door_state_t)
    (t_relay t_log : Int) (hne : s.door.s_current_state ≠ new_state) :
    (update_state s new_state).door.s_current_state = new_state ∧
      (update_state s new_state).door.notified =
        (if s.door.s_state_callback then s.door.notified ++ [new_state]
          else s.door.notified) ∧
      (s.storage.s_initialized = false ∨ s.storage.nvs.set_err ≠ ESP_OK →
        (storage_save_door_state s.storage new_state).1 ≠ ESP_OK ∧
          (update_state s new_state).storage = s.storage) ∧
      (s.door.s_initialized = true → (relay_activate s.relay t_relay).1 = ESP_OK →
        (s.door.s_current_state = DOOR_STATE_CLOSED ∨
            s.door.s_current_state = DOOR_STATE_STOPPED →
          (garage_door_open s t_relay t_log).1 = ESP_OK ∧
            (garage_door_open s t_relay t_log).2.door.s_current_state =
              DOOR_STATE_OPENING) ∧
        (s.door.s_current_state = DOOR_STATE_OPEN ∨
            s.door.s_current_state = DOOR_STATE_STOPPED →
          (garage_door_close s t_relay t_log).1 = ESP_OK ∧
            (garage_door_close s t_relay t_log).2.door.s_current_state =
              DOOR_STATE_CLOSING)) ∧
      (s.door.s_initialized = true → (garage_door_stop s).1 = ESP_OK) := by
  refine ⟨?_, ?_, ?_, ?_, ?_⟩
  · rw [update_state_changed s new_state hne]
  · rw [update_state_changed s new_state hne]
  · intro hbad
    rw [update_state_changed s new_state hne]
    dsimp only
    rcases hbad with hbad | hbad
    · simp [storage_save_door_state, hbad]
    · by_cases h1 : s.storage.s_initialized = true
      · simp [storage_save_door_state, nvs_set_u32, h1, hbad]
        rw [← h1]
      · simp [storage_save_door_state, h1]
  · intro hinit hrelay
    have hok : ¬ (relay_activate s.relay t_relay).1 ≠ ESP_OK := not_not.mpr hrelay
    constructor
    · intro h
      have hg : ¬ (s.door.s_current_state ≠ DOOR_STATE_CLOSED ∧
          s.door.s_current_state ≠ DOOR_STATE_STOPPED) := by
        rcases h with h | h <;> simp [h]
      simp only [garage_door_open, hinit, Bool.not_true, Bool.false_eq_true, if_false]
      rw [if_neg hg, if_neg hok]
      exact ⟨rfl, (update_state_frame _ DOOR_STATE_OPENING).2.2.2.2.2⟩
    · intro h
      have hg : ¬ (s.door.s_current_state ≠ DOOR_STATE_OPEN ∧
          s.door.s_current_state ≠ DOOR_STATE_STOPPED) := by
        rcases h with h | h <;> simp [h]
      simp only [garage_door_close, hinit, Bool.not_true, Bool.false_eq_true, if_false]
      rw [if_neg hg, if_neg hok]
      exact ⟨rfl, (update_state_frame _ DOOR_STATE_CLOSING).2.2.2.2.2⟩
  · intro hinit
    simp only [garage_door_stop, hinit, Bool.not_true, Bool.false_eq_true, if_false]
    split_ifs <;> rfl

/-- C23 at a concrete input: the initialised firmware in state `Closed` on a store whose
writes fail; `open()` returns `ESP_OK`, the state is `Opening`, the subscriber has received
`Opening`, and the store still holds `Closed`. -/
theorem update_state_write_failure_witness :
    (garage_door_open system_write_fault 2000000 2000000).1 = ESP_OK ∧
      (garage_door_open system_write_fault 2000000 2000000).2.door.s_current_state =
        DOOR_STATE_OPENING ∧
      (garage_door_open system_write_fault 2000000 2000000).2.door.notified =
        [DOOR_STATE_OPENING] ∧
      (garage_door_open system_write_fault 2000000 2000000).2.storage.nvs.u32
        KEY_DOOR_STATE = some DOOR_STATE_CLOSED ∧
      (storage_save_door_state system_write_fault.storage DOOR_STATE_OPENING).1 ≠ ESP_OK :=
  ⟨(((update_state_write_failure system_write_fault DOOR_STATE_OPENING 2000000 2000000
        (by decide)).2.2.2.1 rfl (by decide)).1 (Or.inl rfl)).1,
    by decide, by decide, by decide,
    ((update_state_write_failure system_write_fault DOOR_STATE_OPENING 2000000 2000000
      (by decide)).2.2.1 (Or.inr (by decide))).1⟩

/-! ## Timeout callback -/

/-- The conversion to `int32_t` keeps every value below `2 ^ 31`. -/
theorem to_int32_small (n : Nat) (h : n < 2 ^ 31) : to_int32 n = (n : Int) := by
  have h1 : n % 2 ^ 32 = n := Nat.mod_eq_of_lt (by omega)
  simp only [to_int32, h1, h, if_true]

/-- C26: in every controller state `s` the timeout callback sets the state to `Stopped`;
on an initialised store whose writes succeed it appends exactly one `Timeout` entry whose
value is the code of `s`.  If `s ≠ Stopped` the subscriber (if registered) receives exactly
one more notification, `Stopped`, and the store then holds `Stopped` under `door_state`;
if `s = Stopped` the controller statics and the stored `door_state` are unchanged.  In
particular from `Opening` or `Closing` the result is `Stopped` with a `Timeout` entry
logged. -/
theorem timeout_callback_effect (s : system) (time_us : Int) :
    (timeout_timer_callback s time_us).door.s_current_state = DOOR_STATE_STOPPED ∧
      (s.storage.s_initialized = true → s.storage.nvs.set_err = ESP_OK →
        log_appended s.storage.nvs (timeout_timer_callback s time_us).storage.nvs
          EVENT_TYPE_TIMEOUT (to_int32 s.door.s_current_state) time_us) ∧
      (s.door.s_current_state ≤ 5 →
        to_int32 s.door.s_current_state = ((s.door.s_current_state : Nat) : Int)) ∧
      (s.door.s_current_state ≠ DOOR_STATE_STOPPED →
        (timeout_timer_callback s time_us).door.notified =
            (if s.door.s_state_callback then s.door.notified ++ [DOOR_STATE_STOPPED]
              else s.door.notified) ∧
          (s.storage.s_initialized = true → s.storage.nvs.set_err = ESP_OK →
            (timeout_timer_callback s time_us).storage.nvs.u32 KEY_DOOR_STATE =
              some DOOR_STATE_STOPPED)) ∧
      (s.door.s_current_state = DOOR_STATE_STOPPED →
        (timeout_timer_callback s time_us).door = s.door ∧
          (timeout_timer_callback s time_us).storage.nvs.u32 KEY_DOOR_STATE =
            s.storage.nvs.u32 KEY_DOOR_STATE) := by
  obtain ⟨hu, -, hset', -, hinit'⟩ :=
    storage_log_event_frame s.storage EVENT_TYPE_TIMEOUT (to_int32 s.door.s_current_state)
      time_us
  refine ⟨(update_state_frame _ DOOR_STATE_STOPPED).2.2.2.2.2, fun hst hset => ?_,
    fun h5 => to_int32_small _ (by have : (5 : Nat) < 2 ^ 31 := by norm_num
                                   exact lt_of_le_of_lt h5 this),
    fun hne => ?_, fun heq => ?_⟩
  · exact log_appended_then_unchanged _ _ _ _ _ _
      (log_appended_of_log_event s.storage _ _ time_us hst hset)
      (update_state_log_unchanged _ DOOR_STATE_STOPPED)
  · unfold timeout_timer_callback
    dsimp only
    rw [update_state_changed
      { s with
        storage :=
          (storage_log_event s.storage EVENT_TYPE_TIMEOUT (to_int32 s.door.s_current_state)
            time_us).2 } DOOR_STATE_STOPPED hne]
    refine ⟨rfl, fun hst hset => ?_⟩
    dsimp only
    rw [storage_save_door_state_ok _ DOOR_STATE_STOPPED (by rw [hinit']; exact hst)
      (by rw [hset']; exact hset)]
    simp
  · unfold timeout_timer_callback
    dsimp only
    rw [update_state_same
      { s with
        storage :=
          (storage_log_event s.storage EVENT_TYPE_TIMEOUT (to_int32 s.door.s_current_state)
            time_us).2 } DOOR_STATE_STOPPED heq]
    exact ⟨rfl, hu KEY_DOOR_STATE (by decide)⟩

/-- C26 at concrete inputs: the callback in state `Opening`, and in state `Open` (where a
one-shot left pending after the door arrived can still fire). -/
theorem timeout_callback_effect_witness :
    (timeout_timer_callback (system_ready DOOR_STATE_OPENING)
        32000000).door.s_current_state = DOOR_STATE_STOPPED ∧
      log_appended (system_ready DOOR_STATE_OPENING).storage.nvs
        (timeout_timer_callback (system_ready DOOR_STATE_OPENING) 32000000).storage.nvs
        EVENT_TYPE_TIMEOUT (to_int32 (system_ready DOOR_STATE_OPENING).door.s_current_state)
        32000000 ∧
      (timeout_timer_callback (system_ready DOOR_STATE_OPEN) 32000000).door.notified =
        [DOOR_STATE_STOPPED] :=
  ⟨(timeout_callback_effect (system_ready DOOR_STATE_OPENING) 32000000).1,
    (timeout_callback_effect (system_ready DOOR_STATE_OPENING) 32000000).2.1 rfl rfl,
    ((timeout_callback_effect (system_ready DOOR_STATE_OPEN) 32000000).2.2.2.1
      (by decide)).1⟩

/-! ## Loading the stored configuration -/

/-- C22 as stated fails: on an initialised empty store, where none of the six keys is
present, `storage_load_gpio_config` and `storage_load_relay_config` return `ESP_OK`, not
`ESP_ERR_NVS_NOT_FOUND`, and leave the caller's struct as it was. -/
theorem load_config_from_empty_store :
    storage_empty.nvs.u32 KEY_REED_CLOSED_PIN = none ∧
      storage_empty.nvs.u32 KEY_PULSE_DURATION = none ∧
      storage_load_gpio_config storage_empty
          (some { reed_closed_pin := 7, reed_open_pin := 8, relay_pin := 9 }) =
        (ESP_OK, some { reed_closed_pin := 7, reed_open_pin := 8, relay_pin := 9 }) ∧
      storage_load_relay_config storage_empty
          (some { pulse_duration_ms := 7, max_pulse_duration_ms := 8,
                  min_interval_ms := 9 }) =
        (ESP_OK, some { pulse_duration_ms := 7, max_pulse_duration_ms := 8,
                        min_interval_ms := 9 }) ∧
      ¬ ((storage_load_gpio_config storage_empty
          (some { reed_closed_pin := 7, reed_open_pin := 8, relay_pin := 9 })).1 =
        ESP_ERR_NVS_NOT_FOUND) ∧
      ¬ ((storage_load_relay_config storage_empty
          (some { pulse_duration_ms := 7, max_pulse_duration_ms := 8,
                  min_interval_ms := 9 })).1 = ESP_ERR_NVS_NOT_FOUND) := by
  refine ⟨rfl, rfl, ?_, ?_, ?_, ?_⟩ <;> decide

/-- A read of a `u32` entry on a readable store: the value when the key is present,
`ESP_ERR_NVS_NOT_FOUND` otherwise. -/
theorem nvs_get_u32_readable (n : nvs_t) (key : nvs_key) (hget : n.get_err = ESP_OK) :
    (nvs_get_u32 n key).2 = n.u32 key ∧
      ((nvs_get_u32 n key).1 = ESP_OK ∨ (nvs_get_u32 n key).1 = ESP_ERR_NVS_NOT_FOUND) := by
  unfold nvs_get_u32
  cases h : n.u32 key <;> simp [hget]

/-- The only error that a read returns on a store that does not answer with `ESP_OK` is the
store's error. -/
theorem nvs_get_u32_fault (n : nvs_t) (key : nvs_key) (hget : n.get_err ≠ ESP_OK) :
    nvs_get_u32 n key = (n.get_err, none) := by
  simp [nvs_get_u32, hget]

/-- C22, amended: `storage_load_gpio_config` and `storage_load_relay_config` on an
initialised storage module never return `ESP_ERR_NVS_NOT_FOUND`.  On a readable store they
return `ESP_OK` whether or not their keys are present: every output field whose key is
present holds the stored value, every field whose key is absent is left as the caller
passed it; so when all three keys are present every field holds the stored value. -/
theorem load_config_result (st : storage_ctx) (g : storage_gpio_config_t)
    (c : storage_relay_config_t) (hst : st.s_initialized = true) :
    (storage_load_gpio_config st (some g)).1 ≠ ESP_ERR_NVS_NOT_FOUND ∧
      (storage_load_relay_config st (some c)).1 ≠ ESP_ERR_NVS_NOT_FOUND ∧
      (st.nvs.get_err = ESP_OK →
        storage_load_gpio_config st (some g) =
            (ESP_OK,
              some
                { reed_closed_pin := (st.nvs.u32 KEY_REED_CLOSED_PIN).getD g.reed_closed_pin
                  reed_open_pin := (st.nvs.u32 KEY_REED_OPEN_PIN).getD g.reed_open_pin
                  relay_pin := (st.nvs.u32 KEY_RELAY_PIN).getD g.relay_pin }) ∧
          storage_load_relay_config st (some c) =
            (ESP_OK,
              some
                { pulse_duration_ms :=
                    (st.nvs.u32 KEY_PULSE_DURATION).getD c.pulse_duration_ms
                  max_pulse_duration_ms :=
                    (st.nvs.u32 KEY_MAX_PULSE_DURATION).getD c.max_pulse_duration_ms
                  min_interval_ms :=
                    (st.nvs.u32 KEY_MIN_INTERVAL).getD c.min_interval_ms })) := by
  by_cases hget : st.nvs.get_err = ESP_OK
  · have hg : storage_load_gpio_config st (some g) =
        (ESP_OK,
          some
            { reed_closed_pin := (st.nvs.u32 KEY_REED_CLOSED_PIN).getD g.reed_closed_pin
              reed_open_pin := (st.nvs.u32 KEY_REED_OPEN_PIN).getD g.reed_open_pin
              relay_pin := (st.nvs.u32 KEY_RELAY_PIN).getD g.relay_pin }) := by
      obtain ⟨v1, e1⟩ := nvs_get_u32_readable st.nvs KEY_REED_CLOSED_PIN hget
      obtain ⟨v2, e2⟩ := nvs_get_u32_readable st.nvs KEY_REED_OPEN_PIN hget
      obtain ⟨v3, e3⟩ := nvs_get_u32_readable st.nvs KEY_RELAY_PIN hget
      simp only [storage_load_gpio_config, hst, Bool.not_true, Bool.false_eq_true, if_false,
        v1, v2, v3]
      rcases e1 with e1 | e1 <;> rcases e2 with e2 | e2 <;> rcases e3 with e3 | e3 <;>
        simp [e1, e2, e3]
    have hc : storage_load_relay_config st (some c) =
        (ESP_OK,
          some
            { pulse_duration_ms := (st.nvs.u32 KEY_PULSE_DURATION).getD c.pulse_duration_ms
              max_pulse_duration_ms :=
                (st.nvs.u32 KEY_MAX_PULSE_DURATION).getD c.max_pulse_duration_ms
              min_interval_ms := (st.nvs.u32 KEY_MIN_INTERVAL).getD c.min_interval_ms }) := by
      obtain ⟨v1, e1⟩ := nvs_get_u32_readable st.nvs KEY_PULSE_DURATION hget
      obtain ⟨v2, e2⟩ := nvs_get_u32_readable st.nvs KEY_MAX_PULSE_DURATION hget
      obtain ⟨v3, e3⟩ := nvs_get_u32_readable st.nvs KEY_MIN_INTERVAL hget
      simp only [storage_load_relay_config, hst, Bool.not_true, Bool.false_eq_true, if_false,
        v1, v2, v3]
      rcases e1 with e1 | e1 <;> rcases e2 with e2 | e2 <;> rcases e3 with e3 | e3 <;>
        simp [e1, e2, e3]
    refine ⟨by rw [hg]; simp, by rw [hc]; simp, fun _ => ⟨hg, hc⟩⟩
  · refine ⟨?_, ?_, fun h => absurd h hget⟩
    · simp only [storage_load_gpio_config, hst, Bool.not_true, Bool.false_eq_true, if_false,
        nvs_get_u32_fault st.nvs _ hget]
      by_cases hnf : st.nvs.get_err = ESP_ERR_NVS_NOT_FOUND
      · simp [hnf]
      · simp [hget, hnf]
    · simp only [storage_load_relay_config, hst, Bool.not_true, Bool.false_eq_true, if_false,
        nvs_get_u32_fault st.nvs _ hget]
      by_cases hnf : st.nvs.get_err = ESP_ERR_NVS_NOT_FOUND
      · simp [hnf]
      · simp [hget, hnf]

/-- C22 amended, at a concrete input: a store holding only the relay pin; the call returns
`ESP_OK`, the relay pin is loaded and the two other fields stay as passed. -/
theorem load_config_result_witness :
    storage_load_gpio_config
        { s_initialized := true
          nvs := { nvs_empty with u32 := fun k => if k = KEY_RELAY_PIN then some 4 else none } }
        (some { reed_closed_pin := 7, reed_open_pin := 8, relay_pin := 9 }) =
      (ESP_OK, some { reed_closed_pin := 7, reed_open_pin := 8, relay_pin := 4 }) :=
  ((load_config_result
      { s_initialized := true
        nvs := { nvs_empty with u32 := fun k => if k = KEY_RELAY_PIN then some 4 else none } }
      { reed_closed_pin := 7, reed_open_pin := 8, relay_pin := 9 }
      { pulse_duration_ms := 7, max_pulse_duration_ms := 8, min_interval_ms := 9 }
      rfl).2.2 rfl).1

/-! ## Relay output and active flag -/

/-- On a coherent record of an uninitialised driver there is no pulse timer and the active
flag is clear. -/
theorem relay_coherent_uninit (r : relay_ctx) (h : relay_coherent r)
    (hun : r.s_initialized = false) :
    r.s_pulse_timer = none ∧ r.s_active = false ∧ r.gpio_level = 0 := by
  obtain ⟨h1, h2, h3⟩ := h
  have hnone : r.s_pulse_timer = none := by
    cases ht : r.s_pulse_timer with
    | none => rfl
    | some t => rw [ht, hun] at h3; simp at h3
  have hact : r.s_active = false := by rw [h2, hnone]; rfl
  exact ⟨hnone, hact, by rw [h1, hact]; rfl⟩

/-- On a coherent record of an initialised idle driver the pulse timer exists and is
idle. -/
theorem relay_coherent_idle (r : relay_ctx) (h : relay_coherent r)
    (hinit : r.s_initialized = true) (hidle : r.s_active = false) :
    r.s_pulse_timer = some { armed := none } := by
  obtain ⟨-, h2, h3⟩ := h
  cases ht : r.s_pulse_timer with
  | none => rw [ht, hinit] at h3; simp at h3
  | some t =>
    rw [ht, hidle] at h2
    cases t with
    | mk a =>
      cases a with
      | none => rfl
      | some v => simp [timer_pending] at h2

/-- The record at program start is coherent. -/
theorem relay_coherent_boot : relay_coherent relay_boot :=
  ⟨rfl, rfl, rfl⟩

/-- The function `relay_activate_pulse` keeps the record coherent. -/
theorem relay_coherent_activate_pulse (r : relay_ctx) (d : Nat) (time_us : Int)
    (h : relay_coherent r) : relay_coherent (relay_activate_pulse r d time_us).2 := by
  by_cases hok : (relay_activate_pulse r d time_us).1 = ESP_OK
  · have hres := hok
    rw [relay_activate_pulse_eq] at hres ⊢
    split_ifs at hres ⊢ with h1 h2 h3 h4
    have hinit : r.s_initialized = true := by simpa using h1
    have hidle : r.s_active = false := by simpa using h3
    have htimer := relay_coherent_idle r h hinit hidle
    refine ⟨rfl, ?_, ?_⟩
    · simp [htimer, esp_timer_start_once, timer_pending]
    · simp [htimer, esp_timer_start_once, hinit]
  · rw [relay_activate_pulse_snd_of_ne_ok r d time_us hok]
    exact h

/-- Expiry of the pulse timer keeps the record coherent and leaves the output low and the
flag clear. -/
theorem relay_coherent_expiry (r : relay_ctx) (h : relay_coherent r) :
    relay_coherent (pulse_timer_expiry r) ∧ (pulse_timer_expiry r).gpio_level = 0 ∧
      (pulse_timer_expiry r).s_active = false := by
  obtain ⟨h1, h2, h3⟩ := h
  unfold pulse_timer_expiry pulse_timer_callback
  by_cases hp : timer_pending r.s_pulse_timer = true
  · rw [if_pos hp]
    refine ⟨⟨rfl, rfl, ?_⟩, rfl, rfl⟩
    dsimp only
    rw [h3]
    cases ht : r.s_pulse_timer with
    | none => rw [ht] at hp; simp [timer_pending] at hp
    | some t => rfl
  · rw [if_neg hp]
    have hact : r.s_active = false := by
      rw [h2]; simpa using hp
    exact ⟨⟨h1, h2, h3⟩, by rw [h1, hact]; rfl, hact⟩

/-- The function `relay_init` keeps the record coherent; after a successful call the output
is low and the flag is clear. -/
theorem relay_coherent_init (r : relay_ctx) (mutex_created : Bool)
    (gpio_config_ret timer_create_ret : esp_err_t) (h : relay_coherent r) :
    relay_coherent (relay_init r mutex_created gpio_config_ret timer_create_ret).2 ∧
      ((relay_init r mutex_created gpio_config_ret timer_create_ret).1 = ESP_OK →
        (relay_init r mutex_created gpio_config_ret timer_create_ret).2.gpio_level = 0 ∧
          (relay_init r mutex_created gpio_config_ret timer_create_ret).2.s_active =
            false) := by
  unfold relay_init
  by_cases hinit : r.s_initialized = true
  · simp [hinit, h]
  · have hun : r.s_initialized = false := by simpa using hinit
    obtain ⟨hnone, hact, hlow⟩ := relay_coherent_uninit r h hun
    simp only [hun, Bool.false_eq_true, if_false]
    split_ifs
    · exact ⟨h, fun hc => absurd hc (by decide)⟩
    · exact ⟨h, fun hc => ⟨hlow, hact⟩⟩
    · refine ⟨⟨?_, ?_, ?_⟩, fun _ => ⟨rfl, hact⟩⟩
      · simp [hact]
      · simp [hact, hnone, timer_pending]
      · simp [hun, hnone]
    · refine ⟨⟨?_, ?_, ?_⟩, fun _ => ⟨rfl, hact⟩⟩
      · simp [hact]
      · simp [hact, timer_pending]
      · simp

/-- The function `relay_deinit` keeps the record coherent and leaves the output low and the
flag clear. -/
theorem relay_coherent_deinit (r : relay_ctx) (h : relay_coherent r) :
    relay_coherent (relay_deinit r).2 ∧ (relay_deinit r).2.gpio_level = 0 ∧
      (relay_deinit r).2.s_active = false := by
  unfold relay_deinit
  by_cases hinit : r.s_initialized = true
  · rw [if_neg (by simp [hinit])]
    exact ⟨⟨rfl, rfl, rfl⟩, rfl, rfl⟩
  · have hun : r.s_initialized = false := by simpa using hinit
    obtain ⟨-, hact, hlow⟩ := relay_coherent_uninit r h hun
    rw [if_pos (by simp [hun])]
    exact ⟨h, hlow, hact⟩

/-- Every operation keeps the record coherent. -/
theorem relay_coherent_step (r : relay_ctx) (o : relay_op) (h : relay_coherent r) :
    relay_coherent (relay_op_step r o) := by
  cases o with
  | init m g t => exact (relay_coherent_init r m g t h).1
  | deinit => exact (relay_coherent_deinit r h).1
  | activate time_us => exact relay_coherent_activate_pulse r _ time_us h
  | activate_pulse d time_us => exact relay_coherent_activate_pulse r d time_us h
  | timer_expiry => exact (relay_coherent_expiry r h).1
  | set_config config =>
    cases config with
    | none => exact h
    | some c => exact h

/-- Every sequence of operations keeps the record coherent. -/
theorem relay_coherent_run (ops : List relay_op) :
    ∀ r : relay_ctx, relay_coherent r → relay_coherent (relay_op_run r ops) := by
  induction ops with
  | nil => intro r h; exact h
  | cons o os ih => intro r h; exact ih _ (relay_coherent_step r o h)

/-- C28: in every state reached from program start by any sequence of `relay_init`,
`relay_deinit`, `relay_activate`, `relay_activate_pulse`, pulse-timer expiry and
`relay_set_config`, the output is high exactly when the active flag is set (and low
exactly when it is clear), and the active flag is set only while the pulse one-shot is
pending.  From such a state, after a successful `relay_init`, after a pulse-timer expiry
and after `relay_deinit` the output is low and the flag is clear. -/
theorem relay_output_coherence (ops : List relay_op) :
    ((relay_op_run relay_boot ops).gpio_level = 1 ↔
        (relay_op_run relay_boot ops).s_active = true) ∧
      ((relay_op_run relay_boot ops).gpio_level = 0 ↔
        (relay_op_run relay_boot ops).s_active = false) ∧
      ((relay_op_run relay_boot ops).s_active = true →
        timer_pending (relay_op_run relay_boot ops).s_pulse_timer = true) ∧
      (∀ (mutex_created : Bool) (gpio_config_ret timer_create_ret : esp_err_t),
        (relay_init (relay_op_run relay_boot ops) mutex_created gpio_config_ret
          timer_create_ret).1 = ESP_OK →
        (relay_init (relay_op_run relay_boot ops) mutex_created gpio_config_ret
            timer_create_ret).2.gpio_level = 0 ∧
          (relay_init (relay_op_run relay_boot ops) mutex_created gpio_config_ret
            timer_create_ret).2.s_active = false) ∧
      ((pulse_timer_expiry (relay_op_run relay_boot ops)).gpio_level = 0 ∧
        (pulse_timer_expiry (relay_op_run relay_boot ops)).s_active = false) ∧
      ((relay_deinit (relay_op_run relay_boot ops)).2.gpio_level = 0 ∧
        (relay_deinit (relay_op_run relay_boot ops)).2.s_active = false) := by
  have h := relay_coherent_run ops relay_boot relay_coherent_boot
  have h1 := h.1
  have h2 := h.2.1
  refine ⟨?_, ?_, ?_, fun m g t => (relay_coherent_init _ m g t h).2,
    (relay_coherent_expiry _ h).2, (relay_coherent_deinit _ h).2⟩
  · rw [h1]
    cases (relay_op_run relay_boot ops).s_active <;> simp
  · rw [h1]
    cases (relay_op_run relay_boot ops).s_active <;> simp
  · intro ha
    rw [← h2]
    exact ha

/-- C28 at a concrete run: initialise, start a pulse, change the configuration during the
pulse, and tear the driver down before the pulse ends. -/
theorem relay_output_coherence_witness :
    ((relay_op_run relay_boot relay_ops_sample).s_active = true ∧
        timer_pending (relay_op_run relay_boot relay_ops_sample).s_pulse_timer = true) ∧
      (relay_deinit (relay_op_run relay_boot relay_ops_sample)).2.gpio_level = 0 :=
  ⟨⟨by decide, (relay_output_coherence relay_ops_sample).2.2.1 (by decide)⟩,
    (relay_output_coherence relay_ops_sample).2.2.2.2.2.1⟩

/-! ## Event log -/

/-- One `storage_log_event` on a healthy storage module: it succeeds, the module stays
healthy, the entry is written to the slot named by the counter and the counter
advances. -/
theorem storage_log_event_healthy (st : storage_ctx) (q : log_request)
    (h : storage_healthy st) :
    (storage_log_event st q.1 q.2.1 q.2.2).1 = ESP_OK ∧
      storage_healthy (storage_log_event st q.1 q.2.1 q.2.2).2 ∧
      (storage_log_event st q.1 q.2.1 q.2.2).2.nvs.u32 =
        (fun k => if k = KEY_EVENT_COUNT then
            some ((stored_count st + 1) % 2 ^ 32 % MAX_EVENT_LOGS)
          else st.nvs.u32 k) ∧
      (storage_log_event st q.1 q.2.1 q.2.2).2.nvs.blob =
        (fun k => if k = evt (stored_count st) then some (log_entry q)
          else st.nvs.blob k) := by
  obtain ⟨h1, h2, h3, h4⟩ := h
  have hread : (nvs_get_u32 st.nvs KEY_EVENT_COUNT).2 = st.nvs.u32 KEY_EVENT_COUNT :=
    (nvs_get_u32_readable st.nvs KEY_EVENT_COUNT h2).1
  refine ⟨?_, ?_, ?_, ?_⟩ <;>
    simp [storage_log_event, nvs_set_blob, nvs_set_u32, nvs_commit, h1, h2, h3, h4, hread,
      stored_count, log_entry, storage_healthy]

/-- The counter after a run of `storage_log_event` calls on a healthy module: every call
succeeds and the counter is the number of calls modulo 100, added to the initial one. -/
theorem storage_log_events_count (qs : List log_request) :
    ∀ st : storage_ctx, storage_healthy st → stored_count st < 100 →
      storage_healthy (storage_log_events st qs) ∧
        storage_log_events_rets st qs = List.replicate qs.length ESP_OK ∧
        (qs ≠ [] →
          (storage_log_events st qs).nvs.u32 KEY_EVENT_COUNT =
            some ((stored_count st + qs.length) % 100)) := by
  induction qs with
  | nil => intro st h _; exact ⟨h, rfl, fun hne => absurd rfl hne⟩
  | cons q qs ih =>
    intro st h hc
    obtain ⟨hok, hh, hu, -⟩ := storage_log_event_healthy st q h
    have hkey : (storage_log_event st q.1 q.2.1 q.2.2).2.nvs.u32 KEY_EVENT_COUNT =
        some ((stored_count st + 1) % 2 ^ 32 % MAX_EVENT_LOGS) := by
      rw [hu]; simp
    have hc1 : stored_count (storage_log_event st q.1 q.2.1 q.2.2).2 =
        (stored_count st + 1) % 100 := by
      simp only [stored_count] at hc hkey ⊢
      rw [hkey]
      simp only [Option.getD_some, MAX_EVENT_LOGS]
      omega
    obtain ⟨ih1, ih2, ih3⟩ := ih _ hh (by rw [hc1]; exact Nat.mod_lt _ (by norm_num))
    refine ⟨ih1, ?_, fun _ => ?_⟩
    · simp only [storage_log_events_rets, hok, ih2, List.length_cons, List.replicate_succ]
    · simp only [storage_log_events, List.length_cons]
      cases qs with
      | nil =>
        simp only [storage_log_events, List.length_nil]
        rw [hkey]
        simp only [MAX_EVENT_LOGS]
        congr 1
        omega
      | cons q' qs' =>
        rw [ih3 (List.cons_ne_nil q' qs'), hc1]
        congr 1
        omega

/-- Below capacity a run of `storage_log_event` calls writes entry `i` of the run to the slot
after the initial counter plus `i`, and leaves every other slot alone. -/
theorem storage_log_events_slots (qs : List log_request) :
    ∀ st : storage_ctx, storage_healthy st → stored_count st + qs.length < 100 →
      (∀ i : Nat, i < qs.length →
        (storage_log_events st qs).nvs.blob (evt (stored_count st + i)) =
          (qs[i]?).map log_entry) ∧
      (∀ k : nvs_key, (∀ i : Nat, i < qs.length → k ≠ evt (stored_count st + i)) →
        (storage_log_events st qs).nvs.blob k = st.nvs.blob k) := by
  induction qs with
  | nil =>
    intro st _ _
    exact ⟨fun i hi => absurd hi (Nat.not_lt_zero i), fun k _ => rfl⟩
  | cons q qs ih =>
    intro st h hlen
    obtain ⟨-, hh, hu, hb⟩ := storage_log_event_healthy st q h
    simp only [List.length_cons] at hlen
    have hc1 : stored_count (storage_log_event st q.1 q.2.1 q.2.2).2 = stored_count st + 1 := by
      simp only [stored_count] at hlen hu ⊢
      rw [hu]
      simp only [if_true, Option.getD_some, MAX_EVENT_LOGS]
      omega
    obtain ⟨ih1, ih2⟩ := ih _ hh (by rw [hc1]; omega)
    rw [hc1] at ih1 ih2
    have hfirst : (storage_log_events st (q :: qs)).nvs.blob (evt (stored_count st)) =
        some (log_entry q) := by
      simp only [storage_log_events]
      rw [ih2 (evt (stored_count st)) (fun i _ hc => by
        have := nvs_key.evt.inj hc
        omega), hb]
      simp
    constructor
    · intro i hi
      cases i with
      | zero => simpa using hfirst
      | succ j =>
        simp only [List.length_cons] at hi
        have := ih1 j (by omega)
        simp only [storage_log_events, List.getElem?_cons_succ]
        rw [← this]
        congr 2
        omega
    · intro k hk
      simp only [storage_log_events]
      rw [ih2 k (fun i hi hc => hk (i + 1) (by simp only [List.length_cons]; omega) (by
        rw [hc]; congr 1; omega)), hb]
      have h0 := hk 0 (by simp)
      simp only [Nat.add_zero] at h0
      dsimp only
      rw [if_neg h0]

/-- The loop of `storage_get_logs` over slots that hold the first entries of a run delivers
these entries in order. -/
theorem get_logs_loop_entries (n : nvs_t) (qs : List log_request)
    (hget : n.get_err = ESP_OK) :
    ∀ m : Nat, m ≤ qs.length →
      (∀ i : Nat, i < m → n.blob (evt i) = (qs[i]?).map log_entry) →
      (List.range m).foldl (get_logs_step n) [] = (qs.take m).map log_entry := by
  intro m
  induction m with
  | zero => intro _ _; rfl
  | succ m ih =>
    intro hm hslots
    have hprev := ih (by omega) (fun i hi => hslots i (by omega))
    have hm' : m < qs.length := by omega
    have hslot := hslots m (by omega)
    rw [List.getElem?_eq_getElem hm'] at hslot
    simp only [Option.map_some'] at hslot
    rw [List.range_succ, List.foldl_append, hprev, List.take_succ,
      List.getElem?_eq_getElem hm']
    simp only [List.foldl_cons, List.foldl_nil, get_logs_step, nvs_get_blob, hget, hslot,
      ne_eq, not_true_eq_false, if_false, if_true, Option.toList, List.map_append,
      List.map_cons, List.map_nil]

/-- The loop of `storage_get_logs` delivers at most one entry per iteration. -/
theorem get_logs_loop_length (n : nvs_t) :
    ∀ m : Nat, ((List.range m).foldl (get_logs_step n) []).length ≤ m := by
  intro m
  induction m with
  | zero => simp
  | succ m ih =>
    rw [List.range_succ, List.foldl_append]
    simp only [List.foldl_cons, List.foldl_nil, get_logs_step]
    split_ifs
    · rw [List.length_append]
      have : (nvs_get_blob n (evt m)).2.toList.length ≤ 1 := by
        cases (nvs_get_blob n (evt m)).2 <;> simp
      omega
    · omega

/-- The function `storage_get_logs` with its loop written as `get_logs_step`. -/
theorem storage_get_logs_eq (st : storage_ctx) (max_count : Nat) :
    storage_get_logs st max_count =
      if !st.s_initialized then (ESP_ERR_INVALID_ARG, [])
      else if (nvs_get_u32 st.nvs KEY_EVENT_COUNT).1 = ESP_ERR_NVS_NOT_FOUND then (ESP_OK, [])
      else if (nvs_get_u32 st.nvs KEY_EVENT_COUNT).1 ≠ ESP_OK then
        ((nvs_get_u32 st.nvs KEY_EVENT_COUNT).1, [])
      else
        (ESP_OK,
          (List.range
            (if (nvs_get_u32 st.nvs KEY_EVENT_COUNT).2.getD 0 > max_count then max_count
              else (nvs_get_u32 st.nvs KEY_EVENT_COUNT).2.getD 0)).foldl
            (get_logs_step st.nvs) []) :=
  rfl

/-- The empty initialised storage module is healthy and its counter reads 0. -/
theorem storage_empty_healthy : storage_healthy storage_empty ∧ stored_count storage_empty = 0 :=
  ⟨⟨rfl, rfl, rfl, rfl⟩, rfl⟩

/-- On a healthy module `storage_get_logs` reads as many slots as the counter says, up to
the size of the buffer. -/
theorem storage_get_logs_healthy (st : storage_ctx) (max_count : Nat)
    (h : storage_healthy st) :
    storage_get_logs st max_count =
      (ESP_OK,
        (List.range (min (stored_count st) max_count)).foldl (get_logs_step st.nvs) []) := by
  obtain ⟨h1, h2, -, -⟩ := h
  rw [storage_get_logs_eq]
  simp only [h1, Bool.not_true, Bool.false_eq_true, if_false, stored_count]
  cases hk : st.nvs.u32 KEY_EVENT_COUNT with
  | none => simp [nvs_get_u32, h2, hk]
  | some c =>
    simp only [nvs_get_u32, h2, hk, ne_eq, not_true_eq_false, if_false, reduceCtorEq,
      Option.getD_some]
    by_cases hc : c > max_count
    · rw [if_pos hc, Nat.min_eq_right (by omega)]
    · rw [if_neg hc, Nat.min_eq_left (by omega)]

/-- C27: after `k < 100` calls of `storage_log_event` on an initially empty store every call
has returned `ESP_OK` and the counter reads `k` (for `k ≥ 1` the key `evt_count` holds `k`);
`storage_get_logs` with a buffer of `max` entries returns `ESP_OK` and delivers the first
`min(k, max)` entries of the run in logging order, each with the type, the value and the
timestamp of its request.  On an initialised readable store without an `evt_count` key
`storage_get_logs` returns `ESP_OK` and delivers nothing.  On every store it delivers at
most `max` entries. -/
theorem log_round_trip (qs : List log_request) (max_count : Nat) (hk : qs.length < 100) :
    storage_log_events_rets storage_empty qs = List.replicate qs.length ESP_OK ∧
      stored_count (storage_log_events storage_empty qs) = qs.length ∧
      (qs ≠ [] →
        (storage_log_events storage_empty qs).nvs.u32 KEY_EVENT_COUNT = some qs.length) ∧
      storage_get_logs (storage_log_events storage_empty qs) max_count =
        (ESP_OK, (qs.take (min qs.length max_count)).map log_entry) ∧
      (storage_get_logs (storage_log_events storage_empty qs) max_count).2.length =
        min qs.length max_count ∧
      (∀ (st : storage_ctx) (m : Nat), st.s_initialized = true → st.nvs.get_err = ESP_OK →
        st.nvs.u32 KEY_EVENT_COUNT = none → storage_get_logs st m = (ESP_OK, [])) ∧
      (∀ (st : storage_ctx) (m : Nat), (storage_get_logs st m).2.length ≤ m) := by
  obtain ⟨hh0, hc0⟩ := storage_empty_healthy
  obtain ⟨hh, hrets, hkey⟩ := storage_log_events_count qs storage_empty hh0 (by rw [hc0]; omega)
  obtain ⟨hslots, -⟩ := storage_log_events_slots qs storage_empty hh0 (by rw [hc0]; omega)
  rw [hc0] at hkey hslots
  simp only [Nat.zero_add] at hkey hslots
  have hcount : stored_count (storage_log_events storage_empty qs) = qs.length := by
    cases qs with
    | nil => rfl
    | cons q qs' =>
      unfold stored_count
      rw [hkey (List.cons_ne_nil q qs')]
      simp only [Option.getD_some]
      exact Nat.mod_eq_of_lt hk
  have hlogs : storage_get_logs (storage_log_events storage_empty qs) max_count =
      (ESP_OK, (qs.take (min qs.length max_count)).map log_entry) := by
    rw [storage_get_logs_healthy _ max_count hh, hcount]
    rw [get_logs_loop_entries _ qs hh.2.1 (min qs.length max_count) (Nat.min_le_left _ _)
      (fun i hi => hslots i (lt_of_lt_of_le hi (Nat.min_le_left _ _)))]
  refine ⟨hrets, hcount, fun hne => ?_, hlogs, ?_, ?_, ?_⟩
  · rw [hkey hne, Nat.mod_eq_of_lt hk]
  · rw [hlogs]
    simp only [List.length_map, List.length_take]
    omega
  · intro st m h1 h2 h3
    rw [storage_get_logs_eq]
    simp [h1, nvs_get_u32, h2, h3]
  · intro st m
    rw [storage_get_logs_eq]
    split_ifs with h1 h2 h3 h4
    · simp
    · simp
    · simp
    · exact le_trans (get_logs_loop_length st.nvs _) (le_refl _)
    · refine le_trans (get_logs_loop_length st.nvs _) ?_
      omega

/-- C27 at a concrete input: three entries logged on the empty store and read back into a
buffer of two. -/
theorem log_round_trip_witness :
    storage_get_logs
        (storage_log_events storage_empty
          [(EVENT_TYPE_DOOR_OPEN, 0, 5000000), (EVENT_TYPE_TIMEOUT, 1, 6000000),
            (EVENT_TYPE_ERROR, -3, 7000000)]) 2 =
      (ESP_OK,
        [{ type := EVENT_TYPE_DOOR_OPEN, timestamp := 5000, value := 0 },
          { type := EVENT_TYPE_TIMEOUT, timestamp := 6000, value := 1 }]) :=
  (log_round_trip
    [(EVENT_TYPE_DOOR_OPEN, 0, 5000000), (EVENT_TYPE_TIMEOUT, 1, 6000000),
      (EVENT_TYPE_ERROR, -3, 7000000)] 2 (by decide)).2.2.2.1

/-- After exactly 100 successful `storage_log_event` calls on the empty store the counter
has wrapped to 0 and `storage_get_logs` delivers nothing. -/
theorem get_logs_after_hundred (qs : List log_request) (max_count : Nat)
    (hlen : qs.length = 100) :
    storage_log_events_rets storage_empty qs = List.replicate 100 ESP_OK ∧
      (storage_log_events storage_empty qs).nvs.u32 KEY_EVENT_COUNT = some 0 ∧
      storage_get_logs (storage_log_events storage_empty qs) max_count = (ESP_OK, []) := by
  obtain ⟨hh0, hc0⟩ := storage_empty_healthy
  obtain ⟨hh, hrets, hkey⟩ := storage_log_events_count qs storage_empty hh0 (by rw [hc0]; omega)
  have hne : qs ≠ [] := by
    intro hc
    rw [hc] at hlen
    simp at hlen
  have hkey0 : (storage_log_events storage_empty qs).nvs.u32 KEY_EVENT_COUNT = some 0 := by
    rw [hkey hne, hc0, hlen]
  refine ⟨by rw [hrets, hlen], hkey0, ?_⟩
  rw [storage_get_logs_healthy _ max_count hh]
  simp [stored_count, hkey0]

/-- C21, the failing input: 100 calls of `storage_log_event` on the empty store all return
`ESP_OK`; the counter `evt_count` then holds 0 and `storage_get_logs` with a buffer of 100
entries returns `ESP_OK` with no entry at all, not the 100 entries logged. -/
theorem get_logs_after_wraparound :
    storage_log_events_rets storage_empty
        (List.replicate 100 (EVENT_TYPE_DOOR_OPEN, 0, 5000000)) =
      List.replicate 100 ESP_OK ∧
      (storage_log_events storage_empty
        (List.replicate 100 (EVENT_TYPE_DOOR_OPEN, 0, 5000000))).nvs.u32 KEY_EVENT_COUNT =
        some 0 ∧
      storage_get_logs
        (storage_log_events storage_empty
          (List.replicate 100 (EVENT_TYPE_DOOR_OPEN, 0, 5000000))) 100 = (ESP_OK, []) ∧
      (storage_get_logs
        (storage_log_events storage_empty
          (List.replicate 100 (EVENT_TYPE_DOOR_OPEN, 0, 5000000))) 100).2.length ≠
        min 100 100 := by
  obtain ⟨h1, h2, h3⟩ :=
    get_logs_after_hundred (List.replicate 100 (EVENT_TYPE_DOOR_OPEN, 0, 5000000)) 100
      (List.length_replicate _ _)
  refine ⟨h1, h2, h3, ?_⟩
  rw [h3]
  decide

/-! ## Scenario S1 -/

/-- C24 as stated fails: on the initialised firmware in state `Closed` with the reed lines
reading `Closed`, `open()` returns `ESP_OK` and the state becomes `Opening`; over scenario
S1 the subscriber receives `Opening`, `Stopped` and the store ends with 4 (`Stopped`)
under `door_state`, not `Opening`, `Open` and 2. -/
theorem scenario_S1_ends_stopped :
    reed_switch_get_position (system_ready DOOR_STATE_CLOSED).reed = DOOR_POSITION_CLOSED ∧
      (garage_door_open (system_ready DOOR_STATE_CLOSED) 2000000 2000000).1 = ESP_OK ∧
      (garage_door_open (system_ready DOOR_STATE_CLOSED) 2000000
        2000000).2.door.s_current_state = DOOR_STATE_OPENING ∧
      (door_run (system_ready DOOR_STATE_CLOSED) scenario_S1).door.notified =
        [DOOR_STATE_OPENING, DOOR_STATE_STOPPED] ∧
      (door_run (system_ready DOOR_STATE_CLOSED) scenario_S1).storage.nvs.u32
        KEY_DOOR_STATE = some 4 ∧
      ¬ ((door_run (system_ready DOOR_STATE_CLOSED) scenario_S1).door.notified =
          [DOOR_STATE_OPENING, DOOR_STATE_OPEN] ∧
        (door_run (system_ready DOOR_STATE_CLOSED) scenario_S1).storage.nvs.u32
          KEY_DOOR_STATE = some 2) := by
  refine ⟨?_, ?_, ?_, ?_, ?_, ?_⟩ <;> decide

/-- In state `Stopped` the timeout callback leaves the controller statics and the stored
`door_state` alone. -/
theorem timeout_timer_callback_stopped (s : system) (time_us : Int)
    (h : s.door.s_current_state = DOOR_STATE_STOPPED) :
    (timeout_timer_callback s time_us).door = s.door ∧
      (timeout_timer_callback s time_us).storage.nvs.u32 KEY_DOOR_STATE =
        s.storage.nvs.u32 KEY_DOOR_STATE := by
  unfold timeout_timer_callback
  dsimp only
  rw [update_state_same
    { s with
      storage :=
        (storage_log_event s.storage EVENT_TYPE_TIMEOUT (to_int32 s.door.s_current_state)
          time_us).2 } DOOR_STATE_STOPPED h]
  exact ⟨rfl, (storage_log_event_frame s.storage _ _ time_us).1 KEY_DOOR_STATE (by decide)⟩

/-- In state `Stopped` an event that is not a command keeps the door state, the
notifications and the stored `door_state`. -/
theorem door_step_stopped (s : system) (e : door_event) (hc : is_command e = false)
    (h : s.door.s_current_state = DOOR_STATE_STOPPED) :
    (door_step s e).door.s_current_state = DOOR_STATE_STOPPED ∧
      (door_step s e).door.notified = s.door.notified ∧
      (door_step s e).storage.nvs.u32 KEY_DOOR_STATE = s.storage.nvs.u32 KEY_DOOR_STATE := by
  have h1 : ¬ (s.door.s_current_state = DOOR_STATE_OPENING ∨
      s.door.s_current_state = DOOR_STATE_CLOSING) := by
    rw [h]; decide
  cases e with
  | call c t_relay t_log => simp [is_command] at hc
  | reed position =>
    simp only [door_step, reed_switch_callback]
    rw [if_neg h1]
    exact ⟨h, rfl, rfl⟩
  | watchdog time_us =>
    simp only [door_step, safety_check_task]
    rw [if_neg h1]
    exact ⟨h, rfl, rfl⟩
  | timeout time_us =>
    simp only [door_step, timeout_timer_expiry]
    split_ifs
    · obtain ⟨hd, hu⟩ := timeout_timer_callback_stopped
        { s with door := { s.door with s_timeout_timer := some { armed := none } } }
        time_us h
      rw [hd]
      exact ⟨h, rfl, hu⟩
    · exact ⟨h, rfl, rfl⟩
  | pulse_done => exact ⟨h, rfl, rfl⟩
  | lines closed_level open_level => exact ⟨h, rfl, rfl⟩

/-- In state `Stopped` a run without commands keeps the door state, the notifications and
the stored `door_state`. -/
theorem door_run_stopped (evs : List door_event) :
    ∀ s : system, (∀ e ∈ evs, is_command e = false) →
      s.door.s_current_state = DOOR_STATE_STOPPED →
      (door_run s evs).door.s_current_state = DOOR_STATE_STOPPED ∧
        (door_run s evs).door.notified = s.door.notified ∧
        (door_run s evs).storage.nvs.u32 KEY_DOOR_STATE =
          s.storage.nvs.u32 KEY_DOOR_STATE := by
  induction evs with
  | nil => intro s _ h; exact ⟨h, rfl, rfl⟩
  | cons e es ih =>
    intro s hev h
    obtain ⟨h1, h2, h3⟩ := door_step_stopped s e (hev e (List.mem_cons_self e es)) h
    obtain ⟨i1, i2, i3⟩ := ih (door_step s e)
      (fun e' he' => hev e' (List.mem_cons_of_mem e he')) h1
    simp only [door_run]
    exact ⟨i1, by rw [i2, h2], by rw [i3, h3]⟩

/-- After a successful `garage_door_open` from `Closed` with a subscriber registered: the
state, the notifications, the reed sensor and the health of the store. -/
theorem garage_door_open_from_closed (s : system) (t_relay t_log : Int)
    (hinit : s.door.s_initialized = true) (hcb : s.door.s_state_callback = true)
    (hstate : s.door.s_current_state = DOOR_STATE_CLOSED)
    (hrelay : (relay_activate s.relay t_relay).1 = ESP_OK) :
    (garage_door_open s t_relay t_log).1 = ESP_OK ∧
      (garage_door_open s t_relay t_log).2.door.s_current_state = DOOR_STATE_OPENING ∧
      (garage_door_open s t_relay t_log).2.door.notified =
        s.door.notified ++ [DOOR_STATE_OPENING] ∧
      (garage_door_open s t_relay t_log).2.door.s_state_callback = true ∧
      (garage_door_open s t_relay t_log).2.reed = s.reed ∧
      (garage_door_open s t_relay t_log).2.storage.s_initialized =
        s.storage.s_initialized ∧
      (garage_door_open s t_relay t_log).2.storage.nvs.set_err = s.storage.nvs.set_err := by
  have hg : ¬ (s.door.s_current_state ≠ DOOR_STATE_CLOSED ∧
      s.door.s_current_state ≠ DOOR_STATE_STOPPED) := by simp [hstate]
  have hne : s.door.s_current_state ≠ DOOR_STATE_OPENING := by rw [hstate]; decide
  obtain ⟨-, -, hs1, hs2, hs3⟩ := storage_save_door_state_frame s.storage DOOR_STATE_OPENING
  simp only [garage_door_open, hinit, Bool.not_true, Bool.false_eq_true, if_false]
  rw [if_neg hg, if_neg (not_not.mpr hrelay)]
  rw [update_state_changed { s with relay := (relay_activate s.relay t_relay).2 }
    DOOR_STATE_OPENING hne]
  dsimp only
  obtain ⟨-, -, hl2, -, hl4⟩ :=
    storage_log_event_frame (storage_save_door_state s.storage DOOR_STATE_OPENING).2
      EVENT_TYPE_DOOR_OPEN 0 t_log
  refine ⟨rfl, rfl, by simp [hcb], hcb, rfl, by rw [hl4, hs3], by rw [hl2, hs2]⟩

/-- C24, amended: from an initialised controller in state `Closed` with the reed lines
reading `Closed`, a subscriber registered, an admissible relay and an initialised store
whose writes succeed, `open()` returns `ESP_OK` and the state becomes `Opening`; the first
watchdog iteration then sees the position `Closed`, logs an `Obstruction` entry and sets
the state to `Stopped`.  Whatever follows without a new command (watchdog iterations, the
end of the pulse, the reed lines changing and the sensor publishing `Between` and `Open`,
expiry of the timeout), the subscriber has received exactly `Opening`, `Stopped`, the
state is `Stopped` and the store holds 4 under `door_state`. -/
theorem open_then_watchdog_stops (s : system) (t_relay t_log t_tick : Int)
    (evs : List door_event)
    (hinit : s.door.s_initialized = true) (hcb : s.door.s_state_callback = true)
    (hstate : s.door.s_current_state = DOOR_STATE_CLOSED)
    (hpos : reed_switch_get_position s.reed = DOOR_POSITION_CLOSED)
    (hrelay : (relay_activate s.relay t_relay).1 = ESP_OK)
    (hst : s.storage.s_initialized = true) (hset : s.storage.nvs.set_err = ESP_OK)
    (hev : ∀ e ∈ evs, is_command e = false) :
    (garage_door_open s t_relay t_log).1 = ESP_OK ∧
      (garage_door_open s t_relay t_log).2.door.s_current_state = DOOR_STATE_OPENING ∧
      (door_run s
        (door_event.call door_call.open_call t_relay t_log ::
          door_event.watchdog t_tick :: evs)).door.notified =
        s.door.notified ++ [DOOR_STATE_OPENING, DOOR_STATE_STOPPED] ∧
      (door_run s
        (door_event.call door_call.open_call t_relay t_log ::
          door_event.watchdog t_tick :: evs)).door.s_current_state = DOOR_STATE_STOPPED ∧
      (door_run s
        (door_event.call door_call.open_call t_relay t_log ::
          door_event.watchdog t_tick :: evs)).storage.nvs.u32 KEY_DOOR_STATE =
        some DOOR_STATE_STOPPED ∧
      log_appended (garage_door_open s t_relay t_log).2.storage.nvs
        (safety_check_task (garage_door_open s t_relay t_log).2 t_tick).storage.nvs
        EVENT_TYPE_OBSTRUCTION 1 t_tick := by
  obtain ⟨o1, o2, o3, o4, o5, o6, o7⟩ :=
    garage_door_open_from_closed s t_relay t_log hinit hcb hstate hrelay
  have hst1 : (garage_door_open s t_relay t_log).2.storage.s_initialized = true := by
    rw [o6]; exact hst
  have hset1 : (garage_door_open s t_relay t_log).2.storage.nvs.set_err = ESP_OK := by
    rw [o7]; exact hset
  have hpos1 : reed_switch_get_position (garage_door_open s t_relay t_log).2.reed =
      DOOR_POSITION_CLOSED := by rw [o5]; exact hpos
  have hval : to_int32 (garage_door_open s t_relay t_log).2.door.s_current_state = 1 := by
    rw [o2]; decide
  have hob := obstruction_branch (garage_door_open s t_relay t_log).2 t_tick
  rw [hval] at hob
  have htick : safety_check_task (garage_door_open s t_relay t_log).2 t_tick =
      update_state
        { (garage_door_open s t_relay t_log).2 with
          storage :=
            (storage_log_event (garage_door_open s t_relay t_log).2.storage
              EVENT_TYPE_OBSTRUCTION 1 t_tick).2 } DOOR_STATE_STOPPED := by
    simp only [safety_check_task, o2, hpos1, true_or, if_true]
    rfl
  have hne : (garage_door_open s t_relay t_log).2.door.s_current_state ≠
      DOOR_STATE_STOPPED := by rw [o2]; decide
  obtain ⟨-, -, hl2, -, hl4⟩ :=
    storage_log_event_frame (garage_door_open s t_relay t_log).2.storage
      EVENT_TYPE_OBSTRUCTION 1 t_tick
  have hstopped : (safety_check_task (garage_door_open s t_relay t_log).2
      t_tick).door.s_current_state = DOOR_STATE_STOPPED := by
    rw [htick]; exact (update_state_frame _ DOOR_STATE_STOPPED).2.2.2.2.2
  have hnot : (safety_check_task (garage_door_open s t_relay t_log).2 t_tick).door.notified =
      s.door.notified ++ [DOOR_STATE_OPENING, DOOR_STATE_STOPPED] := by
    rw [htick, update_state_changed
      { (garage_door_open s t_relay t_log).2 with
        storage :=
          (storage_log_event (garage_door_open s t_relay t_log).2.storage
            EVENT_TYPE_OBSTRUCTION 1 t_tick).2 } DOOR_STATE_STOPPED hne]
    dsimp only
    rw [o4, o3]
    simp
  have hkey : (safety_check_task (garage_door_open s t_relay t_log).2
      t_tick).storage.nvs.u32 KEY_DOOR_STATE = some DOOR_STATE_STOPPED := by
    rw [htick, update_state_changed
      { (garage_door_open s t_relay t_log).2 with
        storage :=
          (storage_log_event (garage_door_open s t_relay t_log).2.storage
            EVENT_TYPE_OBSTRUCTION 1 t_tick).2 } DOOR_STATE_STOPPED hne]
    dsimp only
    rw [storage_save_door_state_ok _ DOOR_STATE_STOPPED (by rw [hl4]; exact hst1)
      (by rw [hl2]; exact hset1)]
    simp
  obtain ⟨r1, r2, r3⟩ := door_run_stopped evs
    (safety_check_task (garage_door_open s t_relay t_log).2 t_tick) hev hstopped
  refine ⟨o1, o2, ?_, ?_, ?_, ?_⟩
  · simp only [door_run, door_step, door_call_run]
    rw [r2, hnot]
  · simp only [door_run, door_step, door_call_run]
    exact r1
  · simp only [door_run, door_step, door_call_run]
    rw [r3, hkey]
  · rw [htick]
    exact hob.2 hst1 hset1

/-- C24 amended, at the concrete scenario S1 on the initialised firmware. -/
theorem open_then_watchdog_stops_witness :
    (door_run (system_ready DOOR_STATE_CLOSED)
        (door_event.call door_call.open_call 2000000 2000000 ::
          door_event.watchdog 2100000 ::
          [door_event.pulse_done, door_event.lines 1 1,
            door_event.reed DOOR_POSITION_BETWEEN, door_event.watchdog 2600000,
            door_event.lines 1 0, door_event.reed DOOR_POSITION_OPEN,
            door_event.timeout 32000000])).door.notified =
        (system_ready DOOR_STATE_CLOSED).door.notified ++
          [DOOR_STATE_OPENING, DOOR_STATE_STOPPED] ∧
      (door_run (system_ready DOOR_STATE_CLOSED)
        (door_event.call door_call.open_call 2000000 2000000 ::
          door_event.watchdog 2100000 ::
          [door_event.pulse_done, door_event.lines 1 1,
            door_event.reed DOOR_POSITION_BETWEEN, door_event.watchdog 2600000,
            door_event.lines 1 0, door_event.reed DOOR_POSITION_OPEN,
            door_event.timeout 32000000])).storage.nvs.u32 KEY_DOOR_STATE =
        some DOOR_STATE_STOPPED :=
  ⟨(open_then_watchdog_stops (system_ready DOOR_STATE_CLOSED) 2000000 2000000 2100000
      [door_event.pulse_done, door_event.lines 1 1,
        door_event.reed DOOR_POSITION_BETWEEN, door_event.watchdog 2600000,
        door_event.lines 1 0, door_event.reed DOOR_POSITION_OPEN,
        door_event.timeout 32000000] rfl rfl rfl (by decide) (by decide) rfl rfl
      (by decide)).2.2.1,
    (open_then_watchdog_stops (system_ready DOOR_STATE_CLOSED) 2000000 2000000 2100000
      [door_event.pulse_done, door_event.lines 1 1,
        door_event.reed DOOR_POSITION_BETWEEN, door_event.watchdog 2600000,
        door_event.lines 1 0, door_event.reed DOOR_POSITION_OPEN,
        door_event.timeout 32000000] rfl rfl rfl (by decide) (by decide) rfl rfl
      (by decide)).2.2.2.2.1⟩

/-! ## The state mutex in `garage_door_open` and `garage_door_close` -/

/-- Left alone, the task executing `garage_door_open` reaches its return in ten steps with
the result and the effect of the sequential `garage_door_open`, the mutex free again. -/
theorem garage_door_open_schedule_alone (s : system) (t_relay t_log : Int) :
    garage_door_open_schedule s t_relay t_log (preempt_after 10 [] 0) =
      some
        { sys := (garage_door_open s t_relay t_log).2
          mutex_held := false
          point := .returned (garage_door_open s t_relay t_log).1 } := by
  by_cases hinit : s.door.s_initialized = true
  · by_cases hg : s.door.s_current_state ≠ DOOR_STATE_CLOSED ∧
        s.door.s_current_state ≠ DOOR_STATE_STOPPED
    · simp [garage_door_open_schedule, preempt_after, schedule_run, turn_run,
        garage_door_open_step, garage_door_open, List.replicate, hinit, hg]
    · by_cases hr : (relay_activate s.relay t_relay).1 = ESP_OK
      · simp [garage_door_open_schedule, preempt_after, schedule_run, turn_run,
          garage_door_open_step, garage_door_open, List.replicate, hinit, hg, hr]
      · simp [garage_door_open_schedule, preempt_after, schedule_run, turn_run,
          garage_door_open_step, garage_door_open, List.replicate, hinit, hg, hr]
  · simp [garage_door_open_schedule, preempt_after, schedule_run, turn_run,
      garage_door_open_step, garage_door_open, List.replicate, hinit]

/-- Left alone, the task executing `garage_door_close` reaches its return in ten steps
with the result and the effect of the sequential `garage_door_close`, the mutex free
again. -/
theorem garage_door_close_schedule_alone (s : system) (t_relay t_log : Int) :
    garage_door_close_schedule s t_relay t_log (preempt_after 10 [] 0) =
      some
        { sys := (garage_door_close s t_relay t_log).2
          mutex_held := false
          point := .returned (garage_door_close s t_relay t_log).1 } := by
  by_cases hinit : s.door.s_initialized = true
  · by_cases hg : s.door.s_current_state ≠ DOOR_STATE_OPEN ∧
        s.door.s_current_state ≠ DOOR_STATE_STOPPED
    · simp [garage_door_close_schedule, preempt_after, schedule_run, turn_run,
        garage_door_close_step, garage_door_close, List.replicate, hinit, hg]
    · by_cases hr : (relay_activate s.relay t_relay).1 = ESP_OK
      · simp [garage_door_close_schedule, preempt_after, schedule_run, turn_run,
          garage_door_close_step, garage_door_close, List.replicate, hinit, hg, hr]
      · simp [garage_door_close_schedule, preempt_after, schedule_run, turn_run,
          garage_door_close_step, garage_door_close, List.replicate, hinit, hg, hr]
  · simp [garage_door_close_schedule, preempt_after, schedule_run, turn_run,
      garage_door_close_step, garage_door_close, List.replicate, hinit]

/-- C25 fails on the code: `garage_door_open` and `garage_door_close` give the state mutex
back right after copying the door state, so the guard, the relay call, the state update,
the arming of the timeout and the logging are not one critical section.  On the
initialised firmware in state `Stopped`:

* while the task inside `open()` holds the mutex for its read, a `close()` of another
  caller cannot run; after the give, four steps into the call, the mutex is free and the
  guard is still to be evaluated on the copy `Stopped`;
* a `close()` of another caller then runs to completion, returns `ESP_OK` and changes the
  door state to `Closing`, and its relay pulse ends; the `open()` goes on, passes its
  guard on the stale copy, returns `ESP_OK` and sets `Opening`, so the subscriber receives
  `Closing`, `Opening`.  In neither sequential order do both calls succeed: `open()`
  after the `close()` and `close()` after the `open()` return `ESP_ERR_INVALID_STATE`;
* the same holds with the roles of `open()` and `close()` exchanged;
* a `stop()` of another caller between the state update and the arming of the timeout
  leaves the controller in `Stopped` with the operation timeout pending and `open()`
  returning `ESP_OK`, which neither `open()` followed by `stop()` (`Stopped`, no timeout
  pending) nor `stop()` followed by `open()` (`Opening`) produces. -/
theorem open_close_not_atomic :
    (garage_door_open_schedule (system_ready DOOR_STATE_STOPPED) 3100000 3100000
        (preempt_after 2 [door_event.call door_call.close_call 2000000 2000000] 8)).isSome =
      false ∧
    (garage_door_open_schedule (system_ready DOOR_STATE_STOPPED) 3100000 3100000
        (preempt_after 4 [] 0)).map
        (fun p => (p.point, p.mutex_held, p.sys.door.s_current_state)) =
      some (call_point.guard_and_relay DOOR_STATE_STOPPED, false, DOOR_STATE_STOPPED) ∧
    (door_call_run (system_ready DOOR_STATE_STOPPED) door_call.close_call 2000000
        2000000).1 = ESP_OK ∧
    (garage_door_open_schedule (system_ready DOOR_STATE_STOPPED) 3100000 3100000
        (preempt_after 4
          [door_event.call door_call.close_call 2000000 2000000, door_event.pulse_done]
          0)).map
        (fun p => (p.point, p.mutex_held, p.sys.door.s_current_state)) =
      some (call_point.guard_and_relay DOOR_STATE_STOPPED, false, DOOR_STATE_CLOSING) ∧
    (garage_door_open_schedule (system_ready DOOR_STATE_STOPPED) 3100000 3100000
        (preempt_after 4
          [door_event.call door_call.close_call 2000000 2000000, door_event.pulse_done]
          6)).map
        (fun p => (p.point, p.sys.door.s_current_state, p.sys.door.notified)) =
      some (call_point.returned ESP_OK, DOOR_STATE_OPENING,
        [DOOR_STATE_CLOSING, DOOR_STATE_OPENING]) ∧
    (garage_door_open
        (door_run (system_ready DOOR_STATE_STOPPED)
          [door_event.call door_call.close_call 2000000 2000000, door_event.pulse_done])
        3100000 3100000).1 = ESP_ERR_INVALID_STATE ∧
    (garage_door_close (garage_door_open (system_ready DOOR_STATE_STOPPED) 2000000 2000000).2
        3100000 3100000).1 = ESP_ERR_INVALID_STATE ∧
    (garage_door_close_schedule (system_ready DOOR_STATE_STOPPED) 3100000 3100000
        (preempt_after 4
          [door_event.call door_call.open_call 2000000 2000000, door_event.pulse_done]
          6)).map
        (fun p => (p.point, p.sys.door.s_current_state, p.sys.door.notified)) =
      some (call_point.returned ESP_OK, DOOR_STATE_CLOSING,
        [DOOR_STATE_OPENING, DOOR_STATE_CLOSING]) ∧
    (garage_door_close
        (door_run (system_ready DOOR_STATE_STOPPED)
          [door_event.call door_call.open_call 2000000 2000000, door_event.pulse_done])
        3100000 3100000).1 = ESP_ERR_INVALID_STATE ∧
    (garage_door_open (garage_door_close (system_ready DOOR_STATE_STOPPED) 2000000 2000000).2
        3100000 3100000).1 = ESP_ERR_INVALID_STATE ∧
    (garage_door_open_schedule (system_ready DOOR_STATE_STOPPED) 2000000 2000000
        (preempt_after 8 [door_event.call door_call.stop_call 2000000 2000000] 2)).map
        (fun p =>
          (p.point, p.sys.door.s_current_state,
            timer_pending p.sys.door.s_timeout_timer)) =
      some (call_point.returned ESP_OK, DOOR_STATE_STOPPED, true) ∧
    (garage_door_open_schedule (system_ready DOOR_STATE_STOPPED) 2000000 2000000
        (preempt_after 10 [door_event.call door_call.stop_call 2000000 2000000] 0)).map
        (fun p =>
          (p.point, p.sys.door.s_current_state,
            timer_pending p.sys.door.s_timeout_timer)) =
      some (call_point.returned ESP_OK, DOOR_STATE_STOPPED, false) ∧
    (garage_door_open_schedule (system_ready DOOR_STATE_STOPPED) 2000000 2000000
        (preempt_after 0 [door_event.call door_call.stop_call 2000000 2000000] 10)).map
        (fun p =>
          (p.point, p.sys.door.s_current_state,
            timer_pending p.sys.door.s_timeout_timer)) =
      some (call_point.returned ESP_OK, DOOR_STATE_OPENING, true) := by
  refine ⟨?_, ?_, ?_, ?_, ?_, ?_, ?_, ?_, ?_, ?_, ?_, ?_, ?_⟩ <;> decide

end SmartGarage
